import Mathlib

/-!
# Admission granters, replica request gates and Pebble writes

A shallow embedding of `pkg/util/admission/granter.go` (the `kvStoreTokenGranter`
and its helpers, the `slotGranter` and the `tokenGranter`), of the request gates
and the leaderless watcher of `pkg/kv/kvserver/replica.go` and of
`pkg/storage/pebble.go` (the write methods, the compression settings, the span
policies and the compaction concurrency override), together with theorems about
them. The definitions of all three parts come first, the theorems follow.

Conventions of the granter embedding (those of the other parts are given where
they start):

* Go `int64` token counts are Lean `Int`. Token balances are bounded by the
  per-tick capacities, far from the 64-bit range, so no wrap-around is modelled
  for them. The `uint64` disk counters, the conversions `int64(...)` and
  `uint32(...)` of unsigned values and the `int64` arithmetic that
  `adjustDiskTokenErrorLocked` does on the counter increases are modelled with
  their wrap-around.
* `time.Time` is an `Int` number of microseconds; `timeutil.Now()` is the `now`
  argument of each locked operation.
* Metrics (`metric.Counter`, `metric.Gauge`) are `Int` fields of the state.
* The mutex is not modelled: every function here is the body of a `...Locked`
  method, run with the mutex held.
* The requesters are an interface; their joint state is an abstract type `ρ`.
-/

set_option autoImplicit false

namespace admission

/-! ## Work classes and store work types (package `admissionpb`) -/

/-- The two admission work classes, indices of `[NumWorkClasses]` arrays. -/
inductive WorkClass where
  | RegularWorkClass
  | ElasticWorkClass
deriving DecidableEq, Repr

/-- The store work types in the numeric order of their constants
(`0`, `1`, `2`), which is the order the grant loop visits them in. -/
inductive StoreWorkType where
  | RegularStoreWorkType
  | SnapshotIngestStoreWorkType
  | ElasticStoreWorkType
deriving DecidableEq, Repr

open WorkClass StoreWorkType

/-- Modelled from the spec: `admissionpb.WorkClassFromStoreWorkType` is declared
outside the given sources; snapshot ingest is "a special type of elastic work". -/
def WorkClassFromStoreWorkType : StoreWorkType → WorkClass
  | RegularStoreWorkType => RegularWorkClass
  | ElasticStoreWorkType => ElasticWorkClass
  | SnapshotIngestStoreWorkType => ElasticWorkClass

/-- The values `0 ≤ wt < NumStoreWorkTypes`, in increasing order. -/
def storeWorkTypes : List StoreWorkType :=
  [RegularStoreWorkType, SnapshotIngestStoreWorkType, ElasticStoreWorkType]

/-- An array indexed by `WorkClass` (Go: `[admissionpb.NumWorkClasses]T`). -/
structure workClassArray (α : Type) where
  regular : α
  elastic : α
deriving DecidableEq, Repr

/-- Array read `a[wc]`. -/
def workClassArray.get {α : Type} (a : workClassArray α) : WorkClass → α
  | RegularWorkClass => a.regular
  | ElasticWorkClass => a.elastic

/-- Array write `a[wc] = v`. -/
def workClassArray.set {α : Type} (a : workClassArray α) (wc : WorkClass) (v : α) :
    workClassArray α :=
  match wc with
  | RegularWorkClass => { a with regular := v }
  | ElasticWorkClass => { a with elastic := v }

/-- An array indexed by `StoreWorkType` (Go: `[admissionpb.NumStoreWorkTypes]T`). -/
structure storeWorkTypeArray (α : Type) where
  regular : α
  snapshotIngest : α
  elastic : α
deriving DecidableEq, Repr

/-- Array read `a[wt]`. -/
def storeWorkTypeArray.get {α : Type} (a : storeWorkTypeArray α) : StoreWorkType → α
  | RegularStoreWorkType => a.regular
  | SnapshotIngestStoreWorkType => a.snapshotIngest
  | ElasticStoreWorkType => a.elastic

/-- Array write `a[wt] = v`. -/
def storeWorkTypeArray.set {α : Type} (a : storeWorkTypeArray α) (wt : StoreWorkType) (v : α) :
    storeWorkTypeArray α :=
  match wt with
  | RegularStoreWorkType => { a with regular := v }
  | SnapshotIngestStoreWorkType => { a with snapshotIngest := v }
  | ElasticStoreWorkType => { a with elastic := v }

/-! ## Linear models and disk tokens -/

/-- Modelled from the spec: the type `tokensLinearModel` and its method
`applyLinearModel` are declared outside the given sources; the spec gives the
model as `tokens = a * bytes + b`. -/
structure tokensLinearModel where
  multiplier : Int
  constant : Int
deriving DecidableEq, Repr

/-- Modelled from the spec: `applyLinearModel`, declared outside the given
sources, computes `tokens = a * bytes + b`. -/
def tokensLinearModel.applyLinearModel (m : tokensLinearModel) (b : Int) : Int :=
  m.multiplier * b + m.constant

/-- Modelled from the spec: the struct `diskTokens` is declared outside the given
sources; the granter only uses its `writeByteTokens` field. -/
structure diskTokens where
  readByteTokens : Int
  writeByteTokens : Int
deriving DecidableEq, Repr

/-- The anonymous struct `mu.diskTokensError`. -/
structure diskTokensErrorState where
  prevObservedWrites : Nat
  prevObservedReads : Nat
  diskWriteTokensAlreadyDeducted : Int
  diskReadTokensAlreadyDeducted : Int
deriving DecidableEq, Repr

/-- Modelled from the spec: `storeReplicatedWorkAdmittedInfo` (and
`StoreWorkDoneInfo`, which converts to it) is declared outside the given
sources; the granter reads the two byte counts. -/
structure storeReplicatedWorkAdmittedInfo where
  WriteBytes : Int
  IngestedBytes : Int
deriving DecidableEq, Repr

/-! ## The granter state -/

/-- The fields of `kvStoreTokenGranter` (those under `mu`, the testing knob read
by the granter, and the metrics), without the three requesters. -/
structure kvStoreTokenGranter where
  AlwaysTryGrantWhenAdmitted : Bool
  availableIOTokens : workClassArray Int
  elasticIOTokensUsedByElastic : Int
  diskTokensAvailable : diskTokens
  diskTokensError : diskTokensErrorState
  diskTokensUsed : storeWorkTypeArray diskTokens
  exhaustedStart : workClassArray Int
  startingIOTokens : Int
  l0WriteLM : tokensLinearModel
  l0IngestLM : tokensLinearModel
  ingestLM : tokensLinearModel
  writeAmpLM : tokensLinearModel
  ioTokensExhaustedDurationMetric : workClassArray Int
  availableTokensMetric : workClassArray Int
  tokensReturnedMetric : Int
  tokensTakenMetric : Int
deriving DecidableEq, Repr

/-! ## Subtracting IO tokens -/

/-- `subtractTokensLockedForWorkClass`: subtract `count` from one IO bucket and
keep the exhaustion bookkeeping. -/
def subtractTokensLockedForWorkClass (now : Int) (wc : WorkClass) (count : Int)
    (settingAvailableTokens : Bool) (sg : kvStoreTokenGranter) : kvStoreTokenGranter :=
  let avail := sg.availableIOTokens.get wc
  let sg1 := { sg with availableIOTokens := sg.availableIOTokens.set wc (avail - count) }
  let sg2 := { sg1 with
    availableTokensMetric := sg1.availableTokensMetric.set wc (sg1.availableIOTokens.get wc) }
  if count > 0 ∧ avail > 0 ∧ sg2.availableIOTokens.get wc ≤ 0 then
    { sg2 with exhaustedStart := sg2.exhaustedStart.set wc now }
  else if count < 0 ∧ avail ≤ 0 ∧
      (sg2.availableIOTokens.get wc > 0 ∨ settingAvailableTokens = true) then
    let exhaustedMicros := now - sg2.exhaustedStart.get wc
    let sg3 := { sg2 with
      ioTokensExhaustedDurationMetric :=
        sg2.ioTokensExhaustedDurationMetric.set wc
          (sg2.ioTokensExhaustedDurationMetric.get wc + exhaustedMicros) }
    if sg3.availableIOTokens.get wc ≤ 0 then
      { sg3 with exhaustedStart := sg3.exhaustedStart.set wc now }
    else sg3
  else sg2

/-- `subtractIOTokensLocked`: subtract from the regular and the elastic IO
bucket, and count the tokens taken or returned. -/
def subtractIOTokensLocked (now : Int) (count elasticCount : Int)
    (settingAvailableTokens : Bool) (sg : kvStoreTokenGranter) : kvStoreTokenGranter :=
  let sg1 := subtractTokensLockedForWorkClass now RegularWorkClass count settingAvailableTokens sg
  let sg2 :=
    subtractTokensLockedForWorkClass now ElasticWorkClass elasticCount settingAvailableTokens sg1
  if settingAvailableTokens = false then
    if count > 0 then { sg2 with tokensTakenMetric := sg2.tokensTakenMetric + count }
    else { sg2 with tokensReturnedMetric := sg2.tokensReturnedMetric + (-count) }
  else sg2

/-- The three statements every successful branch of `tryGetLocked` and every
branch of `subtractTokensForStoreWorkTypeLocked` run on the disk-write bucket:
deduct from `diskTokensAvailable`, add to `diskWriteTokensAlreadyDeducted`, add
to `diskTokensUsed[wt]`. -/
def deductDiskWriteTokens (wt : StoreWorkType) (diskWriteTokens : Int)
    (sg : kvStoreTokenGranter) : kvStoreTokenGranter :=
  { sg with
    diskTokensAvailable :=
      { sg.diskTokensAvailable with
        writeByteTokens := sg.diskTokensAvailable.writeByteTokens - diskWriteTokens }
    diskTokensError :=
      { sg.diskTokensError with
        diskWriteTokensAlreadyDeducted :=
          sg.diskTokensError.diskWriteTokensAlreadyDeducted + diskWriteTokens }
    diskTokensUsed :=
      sg.diskTokensUsed.set wt
        { sg.diskTokensUsed.get wt with
          writeByteTokens := (sg.diskTokensUsed.get wt).writeByteTokens + diskWriteTokens } }

/-! ## tryGet, returnGrant, tookWithoutPermission -/

/-- `tryGetLocked`: the result and the state after the call. -/
def tryGetLocked (now : Int) (count : Int) (wt : StoreWorkType) (sg : kvStoreTokenGranter) :
    Bool × kvStoreTokenGranter :=
  let diskWriteTokens :=
    if wt ≠ SnapshotIngestStoreWorkType then sg.writeAmpLM.applyLinearModel count else count
  match wt with
  | RegularStoreWorkType =>
    if sg.availableIOTokens.get RegularWorkClass > 0 then
      let sg1 := subtractIOTokensLocked now count count false sg
      (true, deductDiskWriteTokens wt diskWriteTokens sg1)
    else (false, sg)
  | ElasticStoreWorkType =>
    if sg.diskTokensAvailable.writeByteTokens > 0 ∧
        sg.availableIOTokens.get RegularWorkClass > 0 ∧
        sg.availableIOTokens.get ElasticWorkClass > 0 then
      let sg1 := subtractIOTokensLocked now count count false sg
      let sg2 := { sg1 with
        elasticIOTokensUsedByElastic := sg1.elasticIOTokensUsedByElastic + count }
      (true, deductDiskWriteTokens wt diskWriteTokens sg2)
    else (false, sg)
  | SnapshotIngestStoreWorkType =>
    if sg.diskTokensAvailable.writeByteTokens > 0 then
      (true, deductDiskWriteTokens wt diskWriteTokens sg)
    else (false, sg)

/-- `subtractTokensForStoreWorkTypeLocked`: subtract `count` tokens (add, when
`count` is negative) from all store tokens of a work type. -/
def subtractTokensForStoreWorkTypeLocked (now : Int) (wt : StoreWorkType) (count : Int)
    (sg : kvStoreTokenGranter) : kvStoreTokenGranter :=
  let sg1 :=
    if wt ≠ SnapshotIngestStoreWorkType then subtractIOTokensLocked now count count false sg
    else sg
  let sg2 :=
    if wt = ElasticStoreWorkType then
      { sg1 with elasticIOTokensUsedByElastic := sg1.elasticIOTokensUsedByElastic + count }
    else sg1
  match wt with
  | RegularStoreWorkType | ElasticStoreWorkType =>
    let diskTokenCount := sg2.writeAmpLM.applyLinearModel count
    deductDiskWriteTokens wt diskTokenCount sg2
  | SnapshotIngestStoreWorkType =>
    deductDiskWriteTokens wt count sg2

/-- `returnGrantLocked`. -/
def returnGrantLocked (now : Int) (count : Int) (wt : StoreWorkType)
    (sg : kvStoreTokenGranter) : kvStoreTokenGranter :=
  subtractTokensForStoreWorkTypeLocked now wt (-count) sg

/-- `tookWithoutPermissionLocked`. -/
def tookWithoutPermissionLocked (now : Int) (count : Int) (wt : StoreWorkType)
    (sg : kvStoreTokenGranter) : kvStoreTokenGranter :=
  subtractTokensForStoreWorkTypeLocked now wt count sg

/-! ## Requesters and the grant loop -/

/-- Go: `type grantChainID uint64`. -/
abbrev grantChainID := Nat

/-- The sentinel `noGrantChain`. -/
def noGrantChain : grantChainID := 0

/-- The part of the `requester` interface the store granter calls. The
requesters live outside the granter; `ρ` is their (joint) state.
`hasWaitingRequests` is a query, `granted` returns the number of tokens the
requester took (`0`: it declined) and the requesters' next state. -/
structure requester (ρ : Type) where
  hasWaitingRequests : ρ → Bool
  granted : grantChainID → ρ → Int × ρ

/-- The three requester fields of `kvStoreTokenGranter`. -/
structure storeRequesters (ρ : Type) where
  regularRequester : requester ρ
  elasticRequester : requester ρ
  snapshotRequester : requester ρ

/-- The requester picked at the top of the loop body of `tryGrantLockedOne`. -/
def storeRequesters.forWorkType {ρ : Type} (R : storeRequesters ρ) (wt : StoreWorkType) :
    requester ρ :=
  if wt = ElasticStoreWorkType then R.elasticRequester
  else if wt = SnapshotIngestStoreWorkType then R.snapshotRequester
  else R.regularRequester

/-- `requesterHasWaitingRequests`. -/
def requesterHasWaitingRequests {ρ : Type} (R : storeRequesters ρ) (env : ρ) : Bool :=
  R.regularRequester.hasWaitingRequests env ||
    R.elasticRequester.hasWaitingRequests env ||
    R.snapshotRequester.hasWaitingRequests env

/-- What one iteration of the loop of `tryGrantLockedOne` did; the list of
these is a record of the run and does not influence it. -/
inductive grantEvent where
  /-- `req.hasWaitingRequests()` was false. -/
  | notWaiting (wt : StoreWorkType)
  /-- `tryGetLocked(1, wt)` returned false. -/
  | noToken (wt : StoreWorkType)
  /-- `req.granted` returned `0`. -/
  | declined (wt : StoreWorkType)
  /-- `req.granted` returned the non-zero `tookTokenCount`. -/
  | accepted (wt : StoreWorkType) (tookTokenCount : Int)
deriving DecidableEq, Repr

/-- The work type an event is about. -/
def grantEvent.workType : grantEvent → StoreWorkType
  | notWaiting wt => wt
  | noToken wt => wt
  | declined wt => wt
  | accepted wt _ => wt

/-- Whether the event is a requester accepting a grant. -/
def grantEvent.isAccepted : grantEvent → Bool
  | accepted _ _ => true
  | _ => false

/-- The result of `tryGrantLockedOne`: the returned boolean, the granter and the
requesters afterwards, and the record of the iterations run. -/
structure grantOneResult (ρ : Type) where
  res : Bool
  sg : kvStoreTokenGranter
  env : ρ
  events : List grantEvent

/-- The loop of `tryGrantLockedOne` over the work types still to visit. -/
def tryGrantLockedOneLoop {ρ : Type} (R : storeRequesters ρ) (now : Int) :
    List StoreWorkType → kvStoreTokenGranter → ρ → grantOneResult ρ
  | [], sg, env => { res := false, sg := sg, env := env, events := [] }
  | wt :: rest, sg, env =>
    let req := R.forWorkType wt
    if req.hasWaitingRequests env then
      let r := tryGetLocked now 1 wt sg
      if r.1 then
        let g := req.granted noGrantChain env
        let tookTokenCount := g.1
        if tookTokenCount = 0 then
          let k := tryGrantLockedOneLoop R now rest (returnGrantLocked now 1 wt r.2) g.2
          { k with events := grantEvent.declined wt :: k.events }
        else
          let sg2 :=
            if tookTokenCount > 1 then tookWithoutPermissionLocked now (tookTokenCount - 1) wt r.2
            else r.2
          { res := true, sg := sg2, env := g.2,
            events := [grantEvent.accepted wt tookTokenCount] }
      else
        { res := r.1, sg := r.2, env := env, events := [grantEvent.noToken wt] }
    else
      let k := tryGrantLockedOneLoop R now rest sg env
      { k with events := grantEvent.notWaiting wt :: k.events }

/-- `tryGrantLockedOne`: grants to at most one waiting request. -/
def tryGrantLockedOne {ρ : Type} (R : storeRequesters ρ) (now : Int)
    (sg : kvStoreTokenGranter) (env : ρ) : grantOneResult ρ :=
  tryGrantLockedOneLoop R now storeWorkTypes sg env

/-- `tryGrantLocked`: `for requesterHasWaitingRequests() && tryGrantLockedOne() {}`.
The loop has no bound in the source; `fuel` bounds the number of iterations and
`none` means the bound was reached. -/
def tryGrantLocked {ρ : Type} (R : storeRequesters ρ) (now : Int) :
    Nat → kvStoreTokenGranter → ρ → Option (kvStoreTokenGranter × ρ)
  | 0, _, _ => none
  | fuel + 1, sg, env =>
    if requesterHasWaitingRequests R env then
      let r := tryGrantLockedOne R now sg env
      if r.res then tryGrantLocked R now fuel r.sg r.env
      else some (r.sg, r.env)
    else some (sg, env)

/-! ## Refill -/

/-- `setAvailableTokens`: returns `(ioTokensUsed, ioTokensUsedByElasticWork)` and
the state after the tick. The cells the body assigns several times
(`availableIOTokens[Regular]`, `availableIOTokens[Elastic]` and
`diskTokensAvailable.writeByteTokens`) are followed as local values, one per
assignment, and written back once. -/
def setAvailableTokens (now : Int) (ioTokens elasticIOTokens diskWriteTokens diskReadTokens
    ioTokenCapacity elasticIOTokenCapacity diskWriteTokensCapacity : Int) (lastTick : Bool)
    (sg : kvStoreTokenGranter) : (Int × Int) × kvStoreTokenGranter :=
  let ioTokensUsed := sg.startingIOTokens - sg.availableIOTokens.get RegularWorkClass
  let ioTokensUsedByElasticWork := sg.elasticIOTokensUsedByElastic
  let sg1 := subtractIOTokensLocked now (-ioTokens) (-elasticIOTokens) true
    { sg with elasticIOTokensUsedByElastic := 0 }
  -- cap both IO buckets
  let regular1 :=
    if sg1.availableIOTokens.get RegularWorkClass > ioTokenCapacity then ioTokenCapacity
    else sg1.availableIOTokens.get RegularWorkClass
  let elastic1 :=
    if sg1.availableIOTokens.get ElasticWorkClass > elasticIOTokenCapacity then
      elasticIOTokenCapacity
    else sg1.availableIOTokens.get ElasticWorkClass
  -- `if lastTick { ... }`
  let elastic2 := if lastTick then max elastic1 0 else elastic1
  let elastic3 := if lastTick then min elastic2 regular1 else elastic2
  let disk1 :=
    if lastTick then max sg1.diskTokensAvailable.writeByteTokens 0
    else sg1.diskTokensAvailable.writeByteTokens
  -- allocate disk write and read tokens
  let disk2 := disk1 + diskWriteTokens
  let disk3 := if disk2 > diskWriteTokensCapacity then diskWriteTokensCapacity else disk2
  ((ioTokensUsed, ioTokensUsedByElasticWork),
    { sg1 with
      availableIOTokens := { regular := regular1, elastic := elastic3 }
      availableTokensMetric := { regular := regular1, elastic := elastic3 }
      startingIOTokens := regular1
      diskTokensAvailable := { sg1.diskTokensAvailable with writeByteTokens := disk3 }
      diskTokensError :=
        { sg1.diskTokensError with
          diskReadTokensAlreadyDeducted :=
            sg1.diskTokensError.diskReadTokensAlreadyDeducted + diskReadTokens } })

/-- `getDiskTokensUsedAndReset`. -/
def getDiskTokensUsedAndReset (sg : kvStoreTokenGranter) :
    storeWorkTypeArray diskTokens × kvStoreTokenGranter :=
  (sg.diskTokensUsed,
    { sg with
      diskTokensUsed :=
        { regular := { readByteTokens := 0, writeByteTokens := 0 },
          snapshotIngest := { readByteTokens := 0, writeByteTokens := 0 },
          elastic := { readByteTokens := 0, writeByteTokens := 0 } } })

/-- `setLinearModels`. -/
def setLinearModels (l0WriteLM l0IngestLM ingestLM writeAmpLM : tokensLinearModel)
    (sg : kvStoreTokenGranter) : kvStoreTokenGranter :=
  { sg with
    l0WriteLM := l0WriteLM, l0IngestLM := l0IngestLM, ingestLM := ingestLM,
    writeAmpLM := writeAmpLM }

/-! ## Late correction -/

/-- The closure `exhaustedFunc` of `storeReplicatedWorkAdmittedLocked`. -/
def exhaustedFunc (wc : WorkClass) (sg : kvStoreTokenGranter) : Bool :=
  decide (sg.availableIOTokens.get RegularWorkClass ≤ 0) ||
    (decide (wc = ElasticWorkClass) &&
      (decide (sg.diskTokensAvailable.writeByteTokens ≤ 0) ||
        decide (sg.availableIOTokens.get ElasticWorkClass ≤ 0)))

/-- `storeReplicatedWorkAdmittedLocked`: the returned `additionalTokens`, the
granter and the requesters afterwards; `none` when the grant loop it may run
reaches the bound `fuel`. -/
def storeReplicatedWorkAdmittedLocked {ρ : Type} (R : storeRequesters ρ) (fuel : Nat) (now : Int)
    (wt : StoreWorkType) (originalTokens : Int) (admittedInfo : storeReplicatedWorkAdmittedInfo)
    (canGrantAnother : Bool) (sg : kvStoreTokenGranter) (env : ρ) :
    Option (Int × kvStoreTokenGranter × ρ) :=
  let wc := WorkClassFromStoreWorkType wt
  let wasExhausted := exhaustedFunc wc sg
  let actualL0WriteTokens := sg.l0WriteLM.applyLinearModel admittedInfo.WriteBytes
  let actualL0IngestTokens := sg.l0IngestLM.applyLinearModel admittedInfo.IngestedBytes
  let actualL0Tokens := actualL0WriteTokens + actualL0IngestTokens
  let additionalL0TokensNeeded := actualL0Tokens - originalTokens
  let sg1 := subtractIOTokensLocked now additionalL0TokensNeeded additionalL0TokensNeeded false sg
  let sg2 :=
    if wt = ElasticStoreWorkType then
      { sg1 with
        elasticIOTokensUsedByElastic :=
          sg1.elasticIOTokensUsedByElastic + additionalL0TokensNeeded }
    else sg1
  let ingestIntoLSM := sg2.ingestLM.applyLinearModel admittedInfo.IngestedBytes
  let totalBytesIntoLSM := actualL0WriteTokens + ingestIntoLSM
  let actualDiskWriteTokens := sg2.writeAmpLM.applyLinearModel totalBytesIntoLSM
  let originalDiskTokens := sg2.writeAmpLM.applyLinearModel originalTokens
  let additionalDiskWriteTokens := actualDiskWriteTokens - originalDiskTokens
  let sg3 := { sg2 with
    diskTokensAvailable :=
      { sg2.diskTokensAvailable with
        writeByteTokens := sg2.diskTokensAvailable.writeByteTokens - additionalDiskWriteTokens }
    diskTokensUsed :=
      sg2.diskTokensUsed.set wt
        { sg2.diskTokensUsed.get wt with
          writeByteTokens :=
            (sg2.diskTokensUsed.get wt).writeByteTokens + additionalDiskWriteTokens } }
  if canGrantAnother = true ∧ additionalL0TokensNeeded < 0 then
    let isExhausted := exhaustedFunc wc sg3
    if (wasExhausted = true ∧ isExhausted = false) ∨ sg3.AlwaysTryGrantWhenAdmitted = true then
      (tryGrantLocked R now fuel sg3 env).map (fun p => (additionalL0TokensNeeded, p.1, p.2))
    else some (additionalL0TokensNeeded, sg3, env)
  else some (additionalL0TokensNeeded, sg3, env)

/-! ## Sequences of calls and example data -/

/-- One call of the granter interface made by a requester between two ticks. -/
inductive storeCall where
  | tryGet (count : Int) (wt : StoreWorkType)
  | returnGrant (count : Int) (wt : StoreWorkType)
  | tookWithoutPermission (count : Int) (wt : StoreWorkType)
deriving DecidableEq, Repr

/-- The work type a call is made for. -/
def storeCall.workType : storeCall → StoreWorkType
  | tryGet _ wt => wt
  | returnGrant _ wt => wt
  | tookWithoutPermission _ wt => wt

/-- Running totals over a sequence of calls: the counts of the `tryGetLocked`
calls that returned true, of the `returnGrantLocked` calls and of the
`tookWithoutPermissionLocked` calls. -/
structure tokenTally where
  granted : Int
  returned : Int
  tookWithoutPermission : Int
deriving DecidableEq, Repr

/-- Run one call at time `now` and add it to the totals. -/
def runStoreCall (now : Int) (c : storeCall) (p : tokenTally × kvStoreTokenGranter) :
    tokenTally × kvStoreTokenGranter :=
  match c with
  | storeCall.tryGet count wt =>
    let r := tryGetLocked now count wt p.2
    (if r.1 then { p.1 with granted := p.1.granted + count } else p.1, r.2)
  | storeCall.returnGrant count wt =>
    ({ p.1 with returned := p.1.returned + count }, returnGrantLocked now count wt p.2)
  | storeCall.tookWithoutPermission count wt =>
    ({ p.1 with tookWithoutPermission := p.1.tookWithoutPermission + count },
      tookWithoutPermissionLocked now count wt p.2)

/-- Run a sequence of timed calls from a state, with the totals starting at zero. -/
def runStoreCalls (calls : List (Int × storeCall)) (sg : kvStoreTokenGranter) :
    tokenTally × kvStoreTokenGranter :=
  calls.foldl (fun p c => runStoreCall c.1 c.2 p)
    ({ granted := 0, returned := 0, tookWithoutPermission := 0 }, sg)

/-- A granter with the given bucket balances and write-amplification model, all
counters zero and the other models the identity. -/
def granterWith (regularTokens elasticTokens diskWrite : Int) (writeAmpLM : tokensLinearModel) :
    kvStoreTokenGranter :=
  { AlwaysTryGrantWhenAdmitted := false
    availableIOTokens := { regular := regularTokens, elastic := elasticTokens }
    elasticIOTokensUsedByElastic := 0
    diskTokensAvailable := { readByteTokens := 0, writeByteTokens := diskWrite }
    diskTokensError :=
      { prevObservedWrites := 0, prevObservedReads := 0,
        diskWriteTokensAlreadyDeducted := 0, diskReadTokensAlreadyDeducted := 0 }
    diskTokensUsed :=
      { regular := { readByteTokens := 0, writeByteTokens := 0 },
        snapshotIngest := { readByteTokens := 0, writeByteTokens := 0 },
        elastic := { readByteTokens := 0, writeByteTokens := 0 } }
    exhaustedStart := { regular := 0, elastic := 0 }
    startingIOTokens := regularTokens
    l0WriteLM := { multiplier := 1, constant := 0 }
    l0IngestLM := { multiplier := 1, constant := 0 }
    ingestLM := { multiplier := 1, constant := 0 }
    writeAmpLM := writeAmpLM
    ioTokensExhaustedDurationMetric := { regular := 0, elastic := 0 }
    availableTokensMetric := { regular := regularTokens, elastic := elasticTokens }
    tokensReturnedMetric := 0
    tokensTakenMetric := 0 }

/-- A requester backed by a queue of waiting work: `hasWaitingRequests` is
"the queue is not empty" and `granted` pops the head and takes the tokens it
asks for (`0` for an empty queue). The joint state holds one queue per store
work type. -/
def queueRequester (wt : StoreWorkType) : requester (storeWorkTypeArray (List Int)) where
  hasWaitingRequests := fun env => !(env.get wt).isEmpty
  granted := fun _ env => ((env.get wt).headD 0, env.set wt (env.get wt).tail)

/-- The three queue requesters. -/
def queueRequesters : storeRequesters (storeWorkTypeArray (List Int)) where
  regularRequester := queueRequester RegularStoreWorkType
  elasticRequester := queueRequester ElasticStoreWorkType
  snapshotRequester := queueRequester SnapshotIngestStoreWorkType

end admission

/-! # Slot granter (`pkg/util/admission/granter.go`) -/

namespace admission

/-- Modelled from the spec: the work kinds, declared outside the given sources;
KV work and the two SQL response kinds "(SQL KV-response, SQL SQL-response)". -/
inductive WorkKind where
  | KVWork
  | SQLKVResponseWork
  | SQLSQLResponseWork
deriving DecidableEq, Repr

/-- Modelled from the spec: the results of `tryGet`, declared outside the given
sources: "success, local fail, or shared-resource fail". -/
inductive grantResult where
  | grantSuccess
  | grantFailDueToSharedResource
  | grantFailLocal
deriving DecidableEq, Repr

/-- The fields of `slotGranter`, without the coordinator and the requester; the
metrics are numbers and `exhaustedStart` is a time in microseconds. -/
structure slotGranter where
  workKind : WorkKind
  usedSlots : Int
  totalSlots : Int
  skipSlotEnforcement : Bool
  usedSlotsMetric : Int
  slotsExhaustedDurationMetric : Int
  exhaustedStart : Int
deriving DecidableEq, Repr

/-- `slotGranter.tryGetLocked`; `none` is the panic on a count other than 1. -/
def slotGranter.tryGetLocked (now : Int) (count : Int) (sg : slotGranter) :
    Option (grantResult × slotGranter) :=
  if count ≠ 1 then none
  else if sg.usedSlots < sg.totalSlots ∨ sg.skipSlotEnforcement = true then
    let usedSlots := sg.usedSlots + 1
    let exhaustedStart := if usedSlots = sg.totalSlots then now else sg.exhaustedStart
    some (grantResult.grantSuccess,
      { sg with
        usedSlots := usedSlots
        exhaustedStart := exhaustedStart
        usedSlotsMetric := usedSlots })
  else if sg.workKind = WorkKind.KVWork then some (grantResult.grantFailDueToSharedResource, sg)
  else some (grantResult.grantFailLocal, sg)

end admission

/-! # Replica request gates and the leaderless watcher (`pkg/kv/kvserver/replica.go`)

Conventions: the replica mutex is not modelled, a `Replica` value is the state
read under the lock; functions of other files that the gates call are the
fields of `replicaExternals`; `log.Fatal` is the `Except.error` outcome. -/

namespace kvserver

/-- Go: `roachpb.Key`, a byte string. -/
abbrev Key := List Nat

/-- Modelled from the spec: `hlc.Timestamp` is declared outside the given
sources; the spec gives it as "a pair (wall-time, logical-counter) providing a
total order compatible with physical time". -/
structure Timestamp where
  WallTime : Int
  Logical : Int
deriving DecidableEq, Repr

/-- Modelled from the spec: `Timestamp.Less`, the strict total order of the
pairs, wall time first. -/
def Timestamp.Less (t s : Timestamp) : Bool :=
  decide (t.WallTime < s.WallTime) ||
    (decide (t.WallTime = s.WallTime) && decide (t.Logical < s.Logical))

/-- Modelled from the spec: `Timestamp.IsEmpty`, whether the timestamp is the
zero value. -/
def Timestamp.IsEmpty (t : Timestamp) : Bool :=
  decide (t.WallTime = 0) && decide (t.Logical = 0)

/-- Modelled from the spec: `Timestamp.Forward`, which replaces the receiver by
`s` when the receiver is less than `s`; the value of the receiver afterwards. -/
def Timestamp.Forward (t s : Timestamp) : Timestamp :=
  if t.Less s then s else t

/-- Modelled from the spec: the lease states, "{NONE, VALID, EXPIRED, UNUSABLE
(in stasis), PROSCRIBED}"; the first is the state of the zero `LeaseStatus`. -/
inductive LeaseState where
  | LeaseState_NONE
  | LeaseState_VALID
  | LeaseState_UNUSABLE
  | LeaseState_EXPIRED
  | LeaseState_PROSCRIBED
deriving DecidableEq, Repr

/-- Modelled from the spec: the fields of `roachpb.Lease` the gates read
("holder replica, sequence, start time"). -/
structure Lease where
  Start : Timestamp
  Sequence : Nat
  holder : Nat
deriving DecidableEq, Repr

/-- Modelled from the spec: `kvserverpb.LeaseStatus`, the lease with the state
computed for it at a request time. -/
structure LeaseStatus where
  Lease : kvserver.Lease
  Now : Timestamp
  RequestTime : Timestamp
  State : LeaseState
deriving DecidableEq, Repr

/-- The zero value `kvserverpb.LeaseStatus{}`. -/
def LeaseStatus.zero : LeaseStatus :=
  { Lease := { Start := ⟨0, 0⟩, Sequence := 0, holder := 0 }, Now := ⟨0, 0⟩,
    RequestTime := ⟨0, 0⟩, State := LeaseState.LeaseState_NONE }

/-- The struct `cachedProtectedTimestampState`, as `getImpliedGCThreshold`
reads it. -/
structure cachedProtectedTimestampState where
  readAt : Timestamp
  earliestProtectionTimestamp : Timestamp
deriving DecidableEq, Repr

/-- Modelled from the spec: `roachpb.RangeDescriptor`, "range-id, start/end keys
(right-exclusive)". -/
structure RangeDescriptor where
  RangeID : Nat
  StartKey : Key
  EndKey : Key
deriving DecidableEq, Repr

/-- Go: `roachpb.RSpan` and `roachpb.Span`, a start and an end key. -/
structure Span where
  Key : kvserver.Key
  EndKey : kvserver.Key
deriving DecidableEq, Repr

/-- Modelled from the spec: the request kinds the gates tell apart; every other
request is `Other`. -/
inductive Request where
  | Subsume
  | Refresh (Key : kvserver.Key)
  | RequestLease
  | TransferLease
  | Other (method : String)
deriving DecidableEq, Repr

/-- Go: `kvpb.ReadConsistencyType`. -/
inductive ReadConsistencyType where
  | CONSISTENT
  | READ_UNCOMMITTED
  | INCONSISTENT
deriving DecidableEq, Repr

/-- The transaction of a batch, by its ID. -/
structure Transaction where
  ID : Nat
deriving DecidableEq, Repr

/-- Modelled from the spec: `kvpb.BatchRequest`, "a sequence of KV requests
addressed to a single range", with its header fields. -/
structure BatchRequest where
  Requests : List Request
  Txn : Option Transaction
  ReadConsistency : ReadConsistencyType
  Timestamp : kvserver.Timestamp
deriving DecidableEq, Repr

/-- Modelled from the spec: `IsSingleSubsumeRequest`, the batch is one Subsume
request. -/
def BatchRequest.IsSingleSubsumeRequest (ba : BatchRequest) : Bool :=
  match ba.Requests with
  | [Request.Subsume] => true
  | _ => false

/-- Modelled from the spec: `IsSingleRefreshRequest`, the batch is one Refresh
request. -/
def BatchRequest.IsSingleRefreshRequest (ba : BatchRequest) : Bool :=
  match ba.Requests with
  | [Request.Refresh _] => true
  | _ => false

/-- Modelled from the spec: `IsSingleSkipsLeaseCheckRequest`; the requests that
skip the lease check "are exactly RequestLease and TransferLease". -/
def BatchRequest.IsSingleSkipsLeaseCheckRequest (ba : BatchRequest) : Bool :=
  match ba.Requests with
  | [Request.RequestLease] => true
  | [Request.TransferLease] => true
  | _ => false

/-- The errors the gates return. Errors produced by functions of other files
are carried as they come. -/
inductive kvError where
  /-- An error of a function outside the given sources. -/
  | external (msg : String)
  /-- `errors.Errorf("%s not initialized", r)`. -/
  | notInitialized
  /-- `kvpb.RangeKeyMismatchError`. -/
  | RangeKeyMismatchError (RequestStartKey RequestEndKey : Key) (desc : RangeDescriptor)
      (lease : Lease)
  /-- `kvpb.BatchTimestampBeforeGCError`. -/
  | BatchTimestampBeforeGCError (Timestamp Threshold : kvserver.Timestamp)
      (DataExcludedFromBackup : Bool) (RangeID : Nat) (StartKey EndKey : Key)
  /-- `kvpb.MergeInProgressError`. -/
  | MergeInProgressError
  /-- `errors.Errorf("merge transaction attempting to issue batch on right-hand
  side range after subsumption: %s", ba.Summary())`. -/
  | mergeTxnBatchAfterSubsumption
  /-- `errors.Errorf("replica has been leaderless for %s", threshold)`. -/
  | leaderlessFor (threshold : Int)
  /-- An error built by `newReplicaUnavailableError` around a cause. -/
  | ReplicaUnavailableError (cause : kvError)
deriving DecidableEq, Repr

/-- The testing knob read by `shouldIgnoreStrictGCEnforcement`. -/
structure StoreTestingKnobs where
  IgnoreStrictGCEnforcement : Bool
deriving DecidableEq, Repr

/-- What the gates read from the `Replica` (under `r.mu`), with the value of the
cluster setting `kv.gc_ttl.strict_enforcement.enabled` and the store's testing
knobs (`none`: `nil`). -/
structure Replica where
  IsInitialized : Bool
  destroyStatusErr : Option kvError
  desc : RangeDescriptor
  mergeInProgress : Bool
  mergeTxnID : Nat
  lease : Lease
  spanConfigExplicitlySet : Bool
  IgnoreStrictEnforcement : Bool
  GCThreshold : Timestamp
  cachedProtectedTS : cachedProtectedTimestampState
  confTTL : Int
  confSpan : Span
  ExcludeDataFromBackup : Bool
  StrictGCEnforcement : Bool
  TestingKnobs : Option StoreTestingKnobs
deriving DecidableEq, Repr

/-- The functions of other files the gates call; each is a parameter of the
model. `leaseStatusForRequest`, `leaseGoodToGoForStatus` and
`canServeFollowerRead` also read the clock and the raft and closed-timestamp
state of the replica, which are left inside these parameters. -/
structure replicaExternals where
  /-- `keys.Range(ba.Requests)`. -/
  keysRange : List Request → Except kvError Span
  /-- `desc.ContainsKeyRange(start, end)`. -/
  ContainsKeyRange : RangeDescriptor → Key → Key → Bool
  /-- `r.leaseStatusForRequest(ctx, now, reqTS, ...)`. -/
  leaseStatusForRequest : Replica → BatchRequest → LeaseStatus
  /-- `r.leaseGoodToGoForStatus(ctx, now, reqTS, st, desc)`. -/
  leaseGoodToGoForStatus : Replica → BatchRequest → LeaseStatus → Option kvError
  /-- `r.canServeFollowerRead(ctx, ba, desc, lai, nodeID, raftClosed)`. -/
  canServeFollowerRead : Replica → BatchRequest → Bool
  /-- `ba.IsAdmin()`. -/
  IsAdmin : BatchRequest → Bool
  /-- `ba.EarliestActiveTimestamp()`. -/
  EarliestActiveTimestamp : BatchRequest → Timestamp
  /-- `gc.CalculateThreshold(now, gcTTL)`. -/
  CalculateThreshold : Timestamp → Int → Timestamp
  /-- `Timestamp.Prev()`. -/
  Prev : Timestamp → Timestamp
  /-- `excludeReplicaFromBackup(ctx, rspan, excludeDataFromBackup, confSpan)`,
  which compares spans with `Span.Equal` and `Span.Contains` of package
  `roachpb`. -/
  excludeReplicaFromBackup : Span → Bool → Span → Bool
  /-- `keys.RangeDescriptorKey(startKey)`. -/
  RangeDescriptorKey : Key → Key

/-! ## GC threshold -/

/-- `Replica.shouldIgnoreStrictGCEnforcement`. -/
def shouldIgnoreStrictGCEnforcement (r : Replica) (spanConfigExplicitlySet : Bool)
    (ignoreStrictEnforcement : Bool) : Bool :=
  if !spanConfigExplicitlySet then true
  else
    match r.TestingKnobs with
    | some knobs => if knobs.IgnoreStrictGCEnforcement then true else ignoreStrictEnforcement
    | none => ignoreStrictEnforcement

/-- `Replica.getImpliedGCThreshold`. -/
def getImpliedGCThreshold (X : replicaExternals) (r : Replica) (st : LeaseStatus)
    (isAdmin : Bool) (spanConfigExplicitlySet : Bool) (ignoreStrictEnforcement : Bool)
    (gcThreshold : Timestamp) (cachedProtectedTS : cachedProtectedTimestampState)
    (confTTL : Int) : Timestamp :=
  if isAdmin || !r.StrictGCEnforcement ||
      shouldIgnoreStrictGCEnforcement r spanConfigExplicitlySet ignoreStrictEnforcement then
    gcThreshold
  else if st.State ≠ LeaseState.LeaseState_VALID ∨
      cachedProtectedTS.readAt.Less st.Lease.Start = true then
    gcThreshold
  else
    let gcTTL := confTTL
    let newGCThreshold := X.CalculateThreshold cachedProtectedTS.readAt gcTTL
    let newGCThreshold1 :=
      if !cachedProtectedTS.earliestProtectionTimestamp.IsEmpty then
        let impliedGCThreshold := X.Prev cachedProtectedTS.earliestProtectionTimestamp
        if impliedGCThreshold.Less newGCThreshold then impliedGCThreshold else newGCThreshold
      else newGCThreshold
    newGCThreshold1.Forward gcThreshold

/-- `Replica.checkTSAboveGCThreshold`; `none` is the nil error. -/
def checkTSAboveGCThreshold (X : replicaExternals) (r : Replica) (ts : Timestamp)
    (st : LeaseStatus) (isAdmin : Bool) (rspan : Span) (spanConfigExplicitlySet : Bool)
    (ignoreStrictEnforcement : Bool) (gcThreshold : Timestamp)
    (cachedProtectedTS : cachedProtectedTimestampState) (confTTL : Int)
    (desc : RangeDescriptor) (confSpan : Span) (excludeDataFromBackup : Bool) :
    Option kvError :=
  let threshold := getImpliedGCThreshold X r st isAdmin spanConfigExplicitlySet
    ignoreStrictEnforcement gcThreshold cachedProtectedTS confTTL
  if threshold.Less ts then none
  else
    some (kvError.BatchTimestampBeforeGCError ts threshold
      (X.excludeReplicaFromBackup rspan excludeDataFromBackup confSpan)
      desc.RangeID desc.StartKey desc.EndKey)

/-! ## Span, lease and merge gates -/

/-- `checkSpanInRange`; `none` is the nil error. -/
def checkSpanInRange (X : replicaExternals) (rspan : Span) (desc : RangeDescriptor)
    (lease : Lease) : Option kvError :=
  if X.ContainsKeyRange desc rspan.Key rspan.EndKey then none
  else some (kvError.RangeKeyMismatchError rspan.Key rspan.EndKey desc lease)

/-- `Replica.checkLease`: the returned lease status and error. -/
def checkLease (X : replicaExternals) (r : Replica) (ba : BatchRequest) :
    LeaseStatus × Option kvError :=
  let st := X.leaseStatusForRequest r ba
  if !ba.IsSingleSkipsLeaseCheckRequest &&
      decide (ba.ReadConsistency ≠ ReadConsistencyType.INCONSISTENT) then
    match X.leaseGoodToGoForStatus r ba st with
    | some err =>
      if !X.canServeFollowerRead r ba then (LeaseStatus.zero, some err)
      else (LeaseStatus.zero, none)
    | none => (st, none)
  else (st, none)

/-- `shouldWaitForPendingMerge`; `Except.error` is `log.Fatal`, `none` the nil
error. -/
def shouldWaitForPendingMerge (X : replicaExternals) (ba : BatchRequest)
    (desc : RangeDescriptor) (mergeInProgress : Bool) (mergeTxnID : Nat) :
    Except String (Option kvError) :=
  if !mergeInProgress then
    Except.error ("programming error: shouldWaitForPendingMerge should" ++
      " only be called when a range merge is in progress")
  else if ba.IsSingleSubsumeRequest then Except.ok none
  else
    match ba.Txn with
    | some txn =>
      if txn.ID = mergeTxnID then
        match ba.Requests with
        | [Request.Refresh key] =>
          if key = X.RangeDescriptorKey desc.StartKey then Except.ok none
          else Except.ok (some kvError.mergeTxnBatchAfterSubsumption)
        | _ => Except.ok (some kvError.mergeTxnBatchAfterSubsumption)
      else Except.ok (some kvError.MergeInProgressError)
    | none => Except.ok (some kvError.MergeInProgressError)

/-! ## The gates in sequence -/

/-- `Replica.checkExecutionCanProceedBeforeStorageSnapshot`; `holdingLatches` is
`g.HoldingLatches()`. -/
def checkExecutionCanProceedBeforeStorageSnapshot (X : replicaExternals) (r : Replica)
    (ba : BatchRequest) (holdingLatches : Bool) :
    Except String (LeaseStatus × Option kvError) :=
  match X.keysRange ba.Requests with
  | Except.error err => Except.ok (LeaseStatus.zero, some err)
  | Except.ok rSpan =>
    if !r.IsInitialized then Except.ok (LeaseStatus.zero, some kvError.notInitialized)
    else
      match r.destroyStatusErr with
      | some err => Except.ok (LeaseStatus.zero, some err)
      | none =>
        match checkSpanInRange X rSpan r.desc r.lease with
        | some err => Except.ok (LeaseStatus.zero, some err)
        | none =>
          match checkLease X r ba with
          | (_, some err) => Except.ok (LeaseStatus.zero, some err)
          | (st, none) =>
            if r.mergeInProgress && holdingLatches then
              match shouldWaitForPendingMerge X ba r.desc r.mergeInProgress r.mergeTxnID with
              | Except.error msg => Except.error msg
              | Except.ok (some err) => Except.ok (LeaseStatus.zero, some err)
              | Except.ok none => Except.ok (st, none)
            else Except.ok (st, none)

/-- `Replica.checkExecutionCanProceedAfterStorageSnapshot`; `none` is the nil
error. -/
def checkExecutionCanProceedAfterStorageSnapshot (X : replicaExternals) (r : Replica)
    (ba : BatchRequest) (st : LeaseStatus) : Option kvError :=
  match X.keysRange ba.Requests with
  | Except.error err => some err
  | Except.ok rSpan =>
    match checkSpanInRange X rSpan r.desc r.lease with
    | some err => some err
    | none =>
      checkTSAboveGCThreshold X r (X.EarliestActiveTimestamp ba) st (X.IsAdmin ba) rSpan
        r.spanConfigExplicitlySet r.IgnoreStrictEnforcement r.GCThreshold r.cachedProtectedTS
        r.confTTL r.desc r.confSpan r.ExcludeDataFromBackup

/-- `Replica.checkExecutionCanProceedRWOrAdmin`. -/
def checkExecutionCanProceedRWOrAdmin (X : replicaExternals) (r : Replica)
    (ba : BatchRequest) (holdingLatches : Bool) :
    Except String (LeaseStatus × Option kvError) :=
  match checkExecutionCanProceedBeforeStorageSnapshot X r ba holdingLatches with
  | Except.error msg => Except.error msg
  | Except.ok (_, some err) => Except.ok (LeaseStatus.zero, some err)
  | Except.ok (st, none) =>
    match checkExecutionCanProceedAfterStorageSnapshot X r ba st with
    | some err => Except.ok (LeaseStatus.zero, some err)
    | none => Except.ok (st, none)

/-! ## Leaderless watcher -/

/-- The fields of `leaderlessWatcher.mu`. A `time.Time` is a number of
nanoseconds, `0` being the zero time (`IsZero`). -/
structure leaderlessWatcher where
  leaderlessTimestamp : Int
  unavailable : Bool
  err : Option kvError
deriving DecidableEq, Repr

/-- `newLeaderlessWatcher`. -/
def newLeaderlessWatcher : leaderlessWatcher :=
  { leaderlessTimestamp := 0, unavailable := false, err := none }

/-- `leaderlessWatcher.resetLocked`. -/
def leaderlessWatcher.resetLocked (_lw : leaderlessWatcher) : leaderlessWatcher :=
  { leaderlessTimestamp := 0, unavailable := false, err := none }

/-- The constant `raft.None`. -/
def raftNone : Nat := 0

/-- `leaderlessWatcher.refreshUnavailableState`; `threshold` is the value of the
setting `ReplicaLeaderlessUnavailableThreshold`, a duration in nanoseconds. -/
def leaderlessWatcher.refreshUnavailableState (lw : leaderlessWatcher) (postTickLead : Nat)
    (nowPhysicalTime : Int) (threshold : Int)
    (newReplicaUnavailableError : kvError → Option kvError) : leaderlessWatcher :=
  if threshold = 0 then lw.resetLocked
  else if postTickLead ≠ raftNone then lw.resetLocked
  else if lw.leaderlessTimestamp = 0 then { lw with leaderlessTimestamp := nowPhysicalTime }
  else if !lw.unavailable then
    let durationSinceLeaderless := nowPhysicalTime - lw.leaderlessTimestamp
    if durationSinceLeaderless ≥ threshold then
      { lw with
        unavailable := true
        err := newReplicaUnavailableError (kvError.leaderlessFor threshold) }
    else lw
  else lw

/-- `leaderlessWatcher.IsUnavailable`; `none` is the panic of the sanity check. -/
def leaderlessWatcher.IsUnavailable (lw : leaderlessWatcher) : Option Bool :=
  if lw.unavailable = lw.err.isNone then none else some lw.unavailable

/-! ## The gates as a list, and example data -/

/-- The first error of a list of gate results, `none` when every gate passed. -/
def firstError : List (Option kvError) → Option kvError
  | [] => none
  | some err :: _ => some err
  | none :: rest => firstError rest

/-- The initialization gate on its own. -/
def initializationGate (r : Replica) : Option kvError :=
  if r.IsInitialized then none else some kvError.notInitialized

/-- The merge gate on its own: the error of `shouldWaitForPendingMerge` when a
merge is in progress and the caller holds latches. -/
def mergeGate (X : replicaExternals) (r : Replica) (ba : BatchRequest)
    (holdingLatches : Bool) : Option kvError :=
  if r.mergeInProgress && holdingLatches then
    match shouldWaitForPendingMerge X ba r.desc r.mergeInProgress r.mergeTxnID with
    | Except.ok err => err
    | Except.error _ => none
  else none

/-- The GC-threshold gate on its own, for the lease status `st` and the span
`rSpan` of the batch. -/
def gcThresholdGate (X : replicaExternals) (r : Replica) (ba : BatchRequest)
    (st : LeaseStatus) (rSpan : Span) : Option kvError :=
  checkTSAboveGCThreshold X r (X.EarliestActiveTimestamp ba) st (X.IsAdmin ba) rSpan
    r.spanConfigExplicitlySet r.IgnoreStrictEnforcement r.GCThreshold r.cachedProtectedTS
    r.confTTL r.desc r.confSpan r.ExcludeDataFromBackup

/-- Externals for the examples: every span is in range, the lease status and the
verdict of the lease check are given, no follower reads, no admin requests, a
threshold `readAt - TTL` on the wall time and a predecessor on the logical
counter. `excludeReplicaFromBackup` follows `entireSpanExcludedFromBackup`:
false when `ExcludeDataFromBackup` is unset, when the span of the config is
empty or when it does not contain the span of the request. -/
def sampleExternals (st : LeaseStatus) (leaseErr : Option kvError) : replicaExternals where
  keysRange := fun _ => Except.ok { Key := [1], EndKey := [2] }
  ContainsKeyRange := fun _ _ _ => true
  leaseStatusForRequest := fun _ _ => st
  leaseGoodToGoForStatus := fun _ _ _ => leaseErr
  canServeFollowerRead := fun _ _ => false
  IsAdmin := fun _ => false
  EarliestActiveTimestamp := fun ba => ba.Timestamp
  CalculateThreshold := fun now ttl => { WallTime := now.WallTime - ttl, Logical := now.Logical }
  Prev := fun t =>
    if t.Logical > 0 then { WallTime := t.WallTime, Logical := t.Logical - 1 }
    else { WallTime := t.WallTime - 1, Logical := 2147483647 }
  excludeReplicaFromBackup := fun rspan b confSpan =>
    if b = true then
      if confSpan = { Key := [], EndKey := [] } then false
      else if ¬ (confSpan.Key ≤ rspan.Key ∧ rspan.EndKey ≤ confSpan.EndKey) then false
      else b
    else b
  RangeDescriptorKey := fun k => 1 :: k

/-- A lease status in the given state, for the examples. -/
def sampleLeaseStatus (state : LeaseState) : LeaseStatus :=
  { Lease := { Start := ⟨100, 0⟩, Sequence := 7, holder := 1 }, Now := ⟨500, 0⟩,
    RequestTime := ⟨500, 0⟩, State := state }

/-- An initialized, live replica of the range `[1], [9]` with the given GC
threshold and merge state, for the examples. -/
def sampleReplica (gcThreshold : Timestamp) (mergeInProgress : Bool) : Replica :=
  { IsInitialized := true
    destroyStatusErr := none
    desc := { RangeID := 3, StartKey := [1], EndKey := [9] }
    mergeInProgress := mergeInProgress
    mergeTxnID := 42
    lease := { Start := ⟨100, 0⟩, Sequence := 7, holder := 1 }
    spanConfigExplicitlySet := true
    IgnoreStrictEnforcement := false
    GCThreshold := gcThreshold
    cachedProtectedTS := { readAt := ⟨400, 0⟩, earliestProtectionTimestamp := ⟨0, 0⟩ }
    confTTL := 100
    confSpan := { Key := [1], EndKey := [9] }
    ExcludeDataFromBackup := false
    StrictGCEnforcement := true
    TestingKnobs := none }

end kvserver

/-! # Writes of the Pebble engine (`pkg/storage/pebble.go`)

The underlying `*pebble.DB` is the list of the writes applied to it, oldest
first; a write may fail, in which case nothing is applied. Every write of this
file is made with `pebble.Sync`, which is left out. -/

namespace storage

/-- Go: `EngineKey`, a key and a version suffix. -/
structure EngineKey where
  Key : kvserver.Key
  Version : List Nat
deriving DecidableEq, Repr

/-- Go: `MVCCKey`, a key and a timestamp. -/
structure MVCCKey where
  Key : kvserver.Key
  Timestamp : kvserver.Timestamp
deriving DecidableEq, Repr

/-- Modelled from the spec: `MVCCValue`, "header (local timestamp, value-header
flags), tombstone bit, raw bytes". -/
structure MVCCValue where
  LocalTimestamp : kvserver.Timestamp
  RawBytes : List Nat
deriving DecidableEq, Repr

/-- Go: `ClearOptions`. -/
structure ClearOptions where
  ValueSizeKnown : Bool
  ValueSize : Nat
deriving DecidableEq, Repr

/-- The encoded form of a key, kept as the call that produces it:
`key.Encode()` for an `EngineKey`, `EncodeMVCCKey(key)` for an `MVCCKey`. -/
inductive encodedKey where
  | Encode (key : EngineKey)
  | EncodeMVCCKey (key : MVCCKey)
deriving DecidableEq, Repr

/-- The write methods of `*pebble.DB` this file calls, with their arguments. -/
inductive dbWrite where
  | Set (key : encodedKey) (value : List Nat)
  | Delete (key : encodedKey)
  | DeleteSized (key : encodedKey) (valueSize : Nat)
  | SingleDelete (key : encodedKey)
  | DeleteRange (start finish : encodedKey)
  | RangeKeyDelete (start finish : encodedKey)
  | Merge (key : encodedKey) (value : List Nat)
  | RangeKeySet (start finish : encodedKey) (suffix value : List Nat)
  | RangeKeyUnset (start finish : encodedKey) (suffix : List Nat)
deriving DecidableEq, Repr

/-- The errors of the write path. -/
inductive pebbleError where
  /-- `emptyKeyError()`. -/
  | emptyKeyError
  /-- `errors.AssertionFailedf(msg)`. -/
  | AssertionFailed (msg : String)
  /-- An error of the underlying database or of a function outside the given
  sources. -/
  | external (msg : String)
deriving DecidableEq, Repr

/-- The engine: the writes applied to `p.db`, oldest first. -/
structure Pebble where
  db : List dbWrite
deriving DecidableEq, Repr

/-- What the write path takes from outside: whether the database refuses a
write, and `EncodeMVCCValue`. -/
structure pebbleExternals where
  dbError : dbWrite → Option pebbleError
  EncodeMVCCValue : MVCCValue → Except pebbleError (List Nat)

/-- A call `p.db.<write>(...)`: the error returned and the engine afterwards. -/
def Pebble.dbCall (X : pebbleExternals) (p : Pebble) (w : dbWrite) :
    Option pebbleError × Pebble :=
  match X.dbError w with
  | some err => (some err, p)
  | none => (none, { p with db := p.db ++ [w] })

/-- `Pebble.clear`. -/
def Pebble.clear (X : pebbleExternals) (p : Pebble) (key : MVCCKey) (opts : ClearOptions) :
    Option pebbleError × Pebble :=
  if key.Key.length = 0 then (some pebbleError.emptyKeyError, p)
  else if !opts.ValueSizeKnown then p.dbCall X (dbWrite.Delete (encodedKey.EncodeMVCCKey key))
  else p.dbCall X (dbWrite.DeleteSized (encodedKey.EncodeMVCCKey key) opts.ValueSize)

/-- `Pebble.ClearMVCC`. -/
def Pebble.ClearMVCC (X : pebbleExternals) (p : Pebble) (key : MVCCKey) (opts : ClearOptions) :
    Option pebbleError × Pebble :=
  if key.Timestamp.IsEmpty then
    (some (pebbleError.AssertionFailed "ClearMVCC timestamp is empty"), p)
  else p.clear X key opts

/-- `Pebble.ClearUnversioned`. -/
def Pebble.ClearUnversioned (X : pebbleExternals) (p : Pebble) (key : kvserver.Key)
    (opts : ClearOptions) : Option pebbleError × Pebble :=
  p.clear X { Key := key, Timestamp := ⟨0, 0⟩ } opts

/-- `Pebble.ClearEngineKey`. -/
def Pebble.ClearEngineKey (X : pebbleExternals) (p : Pebble) (key : EngineKey)
    (opts : ClearOptions) : Option pebbleError × Pebble :=
  if key.Key.length = 0 then (some pebbleError.emptyKeyError, p)
  else if !opts.ValueSizeKnown then p.dbCall X (dbWrite.Delete (encodedKey.Encode key))
  else p.dbCall X (dbWrite.DeleteSized (encodedKey.Encode key) opts.ValueSize)

/-- `Pebble.SingleClearEngineKey`. -/
def Pebble.SingleClearEngineKey (X : pebbleExternals) (p : Pebble) (key : EngineKey) :
    Option pebbleError × Pebble :=
  if key.Key.length = 0 then (some pebbleError.emptyKeyError, p)
  else p.dbCall X (dbWrite.SingleDelete (encodedKey.Encode key))

/-- `Pebble.ClearRawRange`. -/
def Pebble.ClearRawRange (X : pebbleExternals) (p : Pebble) (start finish : kvserver.Key)
    (pointKeys rangeKeys : Bool) : Option pebbleError × Pebble :=
  let startRaw := encodedKey.Encode { Key := start, Version := [] }
  let endRaw := encodedKey.Encode { Key := finish, Version := [] }
  let r1 := if pointKeys then p.dbCall X (dbWrite.DeleteRange startRaw endRaw) else (none, p)
  match r1 with
  | (some err, p1) => (some err, p1)
  | (none, p1) =>
    if rangeKeys then
      match p1.dbCall X (dbWrite.RangeKeyDelete startRaw endRaw) with
      | (some err, p2) => (some err, p2)
      | (none, p2) => (none, p2)
    else (none, p1)

/-- `Pebble.Merge`. -/
def Pebble.Merge (X : pebbleExternals) (p : Pebble) (key : MVCCKey) (value : List Nat) :
    Option pebbleError × Pebble :=
  if key.Key.length = 0 then (some pebbleError.emptyKeyError, p)
  else p.dbCall X (dbWrite.Merge (encodedKey.EncodeMVCCKey key) value)

/-- `Pebble.put`. -/
def Pebble.put (X : pebbleExternals) (p : Pebble) (key : MVCCKey) (value : List Nat) :
    Option pebbleError × Pebble :=
  if key.Key.length = 0 then (some pebbleError.emptyKeyError, p)
  else p.dbCall X (dbWrite.Set (encodedKey.EncodeMVCCKey key) value)

/-- `Pebble.PutMVCC`. -/
def Pebble.PutMVCC (X : pebbleExternals) (p : Pebble) (key : MVCCKey) (value : MVCCValue) :
    Option pebbleError × Pebble :=
  if key.Timestamp.IsEmpty then
    (some (pebbleError.AssertionFailed "PutMVCC timestamp is empty"), p)
  else
    match X.EncodeMVCCValue value with
    | Except.error err => (some err, p)
    | Except.ok encValue => p.put X key encValue

/-- `Pebble.PutRawMVCC`. -/
def Pebble.PutRawMVCC (X : pebbleExternals) (p : Pebble) (key : MVCCKey) (value : List Nat) :
    Option pebbleError × Pebble :=
  if key.Timestamp.IsEmpty then
    (some (pebbleError.AssertionFailed "PutRawMVCC timestamp is empty"), p)
  else p.put X key value

/-- `Pebble.PutUnversioned`. -/
def Pebble.PutUnversioned (X : pebbleExternals) (p : Pebble) (key : kvserver.Key)
    (value : List Nat) : Option pebbleError × Pebble :=
  p.put X { Key := key, Timestamp := ⟨0, 0⟩ } value

/-- `Pebble.PutEngineKey`. -/
def Pebble.PutEngineKey (X : pebbleExternals) (p : Pebble) (key : EngineKey)
    (value : List Nat) : Option pebbleError × Pebble :=
  if key.Key.length = 0 then (some pebbleError.emptyKeyError, p)
  else p.dbCall X (dbWrite.Set (encodedKey.Encode key) value)

/-- `Pebble.PutEngineRangeKey`. -/
def Pebble.PutEngineRangeKey (X : pebbleExternals) (p : Pebble) (start finish : kvserver.Key)
    (suffix value : List Nat) : Option pebbleError × Pebble :=
  p.dbCall X (dbWrite.RangeKeySet (encodedKey.Encode { Key := start, Version := [] })
    (encodedKey.Encode { Key := finish, Version := [] }) suffix value)

/-- `Pebble.ClearEngineRangeKey`. -/
def Pebble.ClearEngineRangeKey (X : pebbleExternals) (p : Pebble)
    (start finish : kvserver.Key) (suffix : List Nat) : Option pebbleError × Pebble :=
  p.dbCall X (dbWrite.RangeKeyUnset (encodedKey.Encode { Key := start, Version := [] })
    (encodedKey.Encode { Key := finish, Version := [] }) suffix)

/-- A database that accepts every write, and a value encoding that returns the
raw bytes: the externals used in the examples. -/
def acceptingExternals : pebbleExternals where
  dbError := fun _ => none
  EncodeMVCCValue := fun v => Except.ok v.RawBytes

end storage

/-! # Token granter, disk error correction and sequences of granter calls
(`pkg/util/admission/granter.go`) -/

namespace admission

open WorkClass StoreWorkType

/-- The fields of `tokenGranter`, without the coordinator and the requester.
The field `cpuOverload` is an interface value declared outside the given
sources: what `tg.cpuOverload.isOverloaded()` answers at the time of a call is
an argument of `tokenGranter.tryGetLocked`. -/
structure tokenGranter where
  workKind : WorkKind
  availableBurstTokens : Int
  maxBurstTokens : Int
  skipTokenEnforcement : Bool
deriving DecidableEq, Repr

/-- `tokenGranter.tryGetLocked`: the result and the granter after the call. -/
def tokenGranter.tryGetLocked (isOverloaded : Bool) (count : Int) (tg : tokenGranter) :
    grantResult × tokenGranter :=
  if isOverloaded = true then (grantResult.grantFailDueToSharedResource, tg)
  else if tg.availableBurstTokens > 0 ∨ tg.skipTokenEnforcement = true then
    (grantResult.grantSuccess,
      { tg with availableBurstTokens := tg.availableBurstTokens - count })
  else (grantResult.grantFailLocal, tg)

/-- Go `a - b` on two `uint64` values: the difference modulo `2^64`. -/
def uint64Sub (a b : Nat) : Nat :=
  (a % 18446744073709551616 + (18446744073709551616 - b % 18446744073709551616)) %
    18446744073709551616

/-- Go `int64(x)` for a `uint64` value `x`: the two's complement reading, which
is `x - 2^64` from `2^63` on. -/
def int64OfUint64 (x : Nat) : Int :=
  if x % 18446744073709551616 < 9223372036854775808 then
    ((x % 18446744073709551616 : Nat) : Int)
  else ((x % 18446744073709551616 : Nat) : Int) - 18446744073709551616

/-- The value an `int64` operation stores for the exact result `x`: `x` reduced
to the range from `-2^63` to `2^63 - 1` (two's complement wrap-around). -/
def int64Wrap (x : Int) : Int :=
  (x + 9223372036854775808) % 18446744073709551616 - 9223372036854775808

/-- `adjustDiskTokenErrorLocked`; `readBytes` and `writeBytes` are `uint64`
counters, and the subtractions on `int64` values wrap around. The cell
`diskTokensAvailable.writeByteTokens`, assigned twice, is followed as a local
value. -/
def adjustDiskTokenErrorLocked (readBytes writeBytes : Nat) (sg : kvStoreTokenGranter) :
    kvStoreTokenGranter :=
  let intWrites := int64OfUint64 (uint64Sub writeBytes sg.diskTokensError.prevObservedWrites)
  let intReads := int64OfUint64 (uint64Sub readBytes sg.diskTokensError.prevObservedReads)
  let writeError := int64Wrap (intWrites - sg.diskTokensError.diskWriteTokensAlreadyDeducted)
  let disk1 :=
    if writeError > 0 then int64Wrap (sg.diskTokensAvailable.writeByteTokens - writeError)
    else sg.diskTokensAvailable.writeByteTokens
  let readError := int64Wrap (intReads - sg.diskTokensError.diskReadTokensAlreadyDeducted)
  let disk2 := if readError > 0 then int64Wrap (disk1 - readError) else disk1
  { sg with
    diskTokensAvailable := { sg.diskTokensAvailable with writeByteTokens := disk2 }
    diskTokensError :=
      { prevObservedWrites := writeBytes
        prevObservedReads := readBytes
        diskWriteTokensAlreadyDeducted := 0
        diskReadTokensAlreadyDeducted := 0 } }

/-- The sum over the work types of `diskTokensUsed[wt].writeByteTokens`. -/
def diskWriteTokensUsedSum (used : storeWorkTypeArray diskTokens) : Int :=
  used.regular.writeByteTokens + used.snapshotIngest.writeByteTokens +
    used.elastic.writeByteTokens

/-- One call on the granter between two ticks: the three calls of the granter
interface and the late correction `storeReplicatedWorkAdmittedLocked`, as the
child granter makes it (`canGrantAnother = false`). -/
inductive intervalCall where
  | tryGet (count : Int) (wt : StoreWorkType)
  | returnGrant (count : Int) (wt : StoreWorkType)
  | tookWithoutPermission (count : Int) (wt : StoreWorkType)
  | storeReplicatedWorkAdmitted (wt : StoreWorkType) (originalTokens : Int)
      (admittedInfo : storeReplicatedWorkAdmittedInfo)
deriving DecidableEq, Repr

/-- The work type a call is made for. -/
def intervalCall.workType : intervalCall → StoreWorkType
  | tryGet _ wt => wt
  | returnGrant _ wt => wt
  | tookWithoutPermission _ wt => wt
  | storeReplicatedWorkAdmitted wt _ _ => wt

/-- The number of IO tokens a call asks to deduct, from its arguments and the
state it is made in: `count` for a `tryGetLocked` that returns true and for
`tookWithoutPermissionLocked`, `-count` for `returnGrantLocked` (nothing for
snapshot ingest, which uses no IO tokens), and the returned
`additionalL0TokensNeeded` for the late correction. -/
def intervalCall.ioTokens (now : Int) (c : intervalCall) (sg : kvStoreTokenGranter) : Int :=
  match c with
  | tryGet count wt =>
    if wt ≠ SnapshotIngestStoreWorkType ∧ (tryGetLocked now count wt sg).1 = true then count
    else 0
  | returnGrant count wt => if wt ≠ SnapshotIngestStoreWorkType then -count else 0
  | tookWithoutPermission count wt => if wt ≠ SnapshotIngestStoreWorkType then count else 0
  | storeReplicatedWorkAdmitted _ originalTokens admittedInfo =>
    sg.l0WriteLM.applyLinearModel admittedInfo.WriteBytes +
      sg.l0IngestLM.applyLinearModel admittedInfo.IngestedBytes - originalTokens

/-- Run one call at time `now`. The late correction is made with
`canGrantAnother = false`, so it runs no grant loop and the requesters `R`,
their state `env` and the bound `0` do not influence it. -/
def runIntervalCall {ρ : Type} (R : storeRequesters ρ) (env : ρ) (now : Int)
    (c : intervalCall) (sg : kvStoreTokenGranter) : kvStoreTokenGranter :=
  match c with
  | intervalCall.tryGet count wt => (tryGetLocked now count wt sg).2
  | intervalCall.returnGrant count wt => returnGrantLocked now count wt sg
  | intervalCall.tookWithoutPermission count wt => tookWithoutPermissionLocked now count wt sg
  | intervalCall.storeReplicatedWorkAdmitted wt originalTokens admittedInfo =>
    match storeReplicatedWorkAdmittedLocked R 0 now wt originalTokens admittedInfo false sg env with
    | some r => r.2.1
    | none => sg

/-- Running totals over a sequence of calls: the IO tokens deducted by all
calls, and those deducted by calls for elastic store work. -/
structure intervalTally where
  ioTokens : Int
  ioTokensByElastic : Int
deriving DecidableEq, Repr

/-- Run a sequence of timed calls, adding each call to the totals. -/
def runIntervalCalls {ρ : Type} (R : storeRequesters ρ) (env : ρ) :
    List (Int × intervalCall) → intervalTally × kvStoreTokenGranter →
      intervalTally × kvStoreTokenGranter
  | [], p => p
  | c :: rest, p =>
    runIntervalCalls R env rest
      ({ ioTokens := p.1.ioTokens + c.2.ioTokens c.1 p.2
         ioTokensByElastic :=
          p.1.ioTokensByElastic +
            (if c.2.workType = ElasticStoreWorkType then c.2.ioTokens c.1 p.2 else 0) },
        runIntervalCall R env c.1 c.2 p.2)

/-- Requesters that always report waiting requests: the regular requester
declines every grant (`granted` returns `0`), the snapshot requester takes one
token for every grant, the elastic requester never waits. They have no state. -/
def decliningRegularRequesters : storeRequesters Unit where
  regularRequester := { hasWaitingRequests := fun _ => true, granted := fun _ _ => (0, ()) }
  elasticRequester := { hasWaitingRequests := fun _ => false, granted := fun _ _ => (0, ()) }
  snapshotRequester := { hasWaitingRequests := fun _ => true, granted := fun _ _ => (1, ()) }

/-- Requesters that always report waiting requests and take one token for
every grant. They have no state. -/
def insatiableRequesters : storeRequesters Unit where
  regularRequester := { hasWaitingRequests := fun _ => true, granted := fun _ _ => (1, ()) }
  elasticRequester := { hasWaitingRequests := fun _ => true, granted := fun _ _ => (1, ()) }
  snapshotRequester := { hasWaitingRequests := fun _ => true, granted := fun _ _ => (1, ()) }

end admission

/-! # Sequences of watcher refreshes (`pkg/kv/kvserver/replica.go`) -/

namespace kvserver

/-- The arguments of one call of `refreshUnavailableState`: the leader after
the tick, the time, and the value of the threshold setting at that time. -/
structure refreshCall where
  postTickLead : Nat
  nowPhysicalTime : Int
  threshold : Int
deriving DecidableEq, Repr

/-- A sequence of `refreshUnavailableState` calls, oldest first, with the error
constructor `newReplicaUnavailableError` of the replica. -/
def leaderlessWatcher.refreshAll (newReplicaUnavailableError : kvError → Option kvError)
    (calls : List refreshCall) (lw : leaderlessWatcher) : leaderlessWatcher :=
  calls.foldl
    (fun w c =>
      w.refreshUnavailableState c.postTickLead c.nowPhysicalTime c.threshold
        newReplicaUnavailableError)
    lw

end kvserver

/-! # Compression settings, span policies and the compaction concurrency override
(`pkg/storage/pebble.go`)

Byte strings are lists of numbers below 256. -/

namespace storage

/-! ## Compression settings -/

/-- The constants of type `SSTableCompressionProfile` (an `int64`). -/
def SSTableCompressionSnappy : Int := 1
/-- See `SSTableCompressionSnappy`. -/
def SSTableCompressionZstd : Int := 2
/-- See `SSTableCompressionSnappy`. -/
def SSTableCompressionNone : Int := 3
/-- See `SSTableCompressionSnappy`. -/
def SSTableCompressionMinLZ : Int := 4
/-- See `SSTableCompressionSnappy`. -/
def SSTableCompressionFastest : Int := 5
/-- See `SSTableCompressionSnappy`. -/
def SSTableCompressionFast : Int := 6
/-- See `SSTableCompressionSnappy`. -/
def SSTableCompressionBalanced : Int := 7
/-- See `SSTableCompressionSnappy`. -/
def SSTableCompressionGood : Int := 8

/-- The map `sstableCompressionProfileToString`, as the list of its entries in
the order of the source. -/
def sstableCompressionProfileToString : List (Int × String) :=
  [(SSTableCompressionSnappy, "snappy"),
   (SSTableCompressionMinLZ, "minlz"),
   (SSTableCompressionNone, "none"),
   (SSTableCompressionZstd, "zstd"),
   (SSTableCompressionFastest, "fastest"),
   (SSTableCompressionFast, "fast"),
   (SSTableCompressionBalanced, "balanced"),
   (SSTableCompressionGood, "good")]

/-- The constants of type `StoreCompressionSetting` (an `int64`). -/
def StoreCompressionSnappy : Int := 1
/-- See `StoreCompressionSnappy`. -/
def StoreCompressionZstd : Int := 2
/-- See `StoreCompressionSnappy`. -/
def StoreCompressionNone : Int := 3
/-- See `StoreCompressionSnappy`. -/
def StoreCompressionMinLZ : Int := 4
/-- See `StoreCompressionSnappy`. -/
def StoreCompressionFastest : Int := 5
/-- See `StoreCompressionSnappy`. -/
def StoreCompressionBalanced : Int := 6
/-- See `StoreCompressionSnappy`. -/
def StoreCompressionGood : Int := 7

/-- The map `storeCompressionSettingToString`, as the list of its entries in
the order of the source. -/
def storeCompressionSettingToString : List (Int × String) :=
  [(StoreCompressionSnappy, "snappy"),
   (StoreCompressionMinLZ, "minlz"),
   (StoreCompressionNone, "none"),
   (StoreCompressionZstd, "zstd"),
   (StoreCompressionFastest, "fastest"),
   (StoreCompressionBalanced, "balanced"),
   (StoreCompressionGood, "good")]

/-- Modelled from the spec: `settings.RegisterEnumSetting` is declared outside
the given sources. A setting is "enumerated" over the map of values it is
registered with: it has a key, a default and the map from numeric values to
value names. -/
structure EnumSetting where
  key : String
  defaultValue : String
  enumValues : List (Int × String)
deriving DecidableEq, Repr

/-- Modelled from the spec: the value names an enumerated setting accepts are
the names of its map. -/
def EnumSetting.accepts (s : EnumSetting) (name : String) : Bool :=
  (s.enumValues.map Prod.snd).contains name

/-- Modelled from the spec: the numeric value a value name stands for, `none`
for a name that is not accepted. -/
def EnumSetting.parse (s : EnumSetting) (name : String) : Option Int :=
  (s.enumValues.find? (fun e => e.2 == name)).map Prod.fst

/-- `SSTableCompressionProfile.String`; `none` is the panic on a value without
a name. -/
def SSTableCompressionProfileString (c : Int) : Option String :=
  (sstableCompressionProfileToString.find? (fun e => e.1 == c)).map Prod.snd

/-- `StoreCompressionSetting.String`; `none` is the panic on a value without a
name. -/
def StoreCompressionSettingString (c : Int) : Option String :=
  (storeCompressionSettingToString.find? (fun e => e.1 == c)).map Prod.snd

/-- The setting `CompressionAlgorithmStorage`. -/
def CompressionAlgorithmStorage : EnumSetting :=
  { key := "storage.sstable.compression_algorithm"
    defaultValue := (StoreCompressionSettingString StoreCompressionFastest).getD ""
    enumValues := storeCompressionSettingToString }

/-- The setting `CompressionAlgorithmBackupStorage`. -/
def CompressionAlgorithmBackupStorage : EnumSetting :=
  { key := "storage.sstable.compression_algorithm_backup_storage"
    defaultValue := (SSTableCompressionProfileString SSTableCompressionFastest).getD ""
    enumValues := sstableCompressionProfileToString }

/-- The setting `CompressionAlgorithmBackupTransport`. -/
def CompressionAlgorithmBackupTransport : EnumSetting :=
  { key := "storage.sstable.compression_algorithm_backup_transport"
    defaultValue := (SSTableCompressionProfileString SSTableCompressionFastest).getD ""
    enumValues := sstableCompressionProfileToString }

/-- The value names of the specification: "snappy, minlz, none, zstd, fastest,
fast, balanced, good". -/
def compressionValueNames : List String :=
  ["snappy", "minlz", "none", "zstd", "fastest", "fast", "balanced", "good"]

/-! ## The compaction concurrency override -/

/-- The type `compactionConcurrencyOverride`: an `atomic.Uint32`. -/
structure compactionConcurrencyOverride where
  override : Nat
deriving DecidableEq, Repr

/-- `compactionConcurrencyOverride.Set`; `value` is a `uint32`. -/
def compactionConcurrencyOverride.Set (_cco : compactionConcurrencyOverride) (value : Nat) :
    compactionConcurrencyOverride :=
  { override := value }

/-- `compactionConcurrencyOverride.Wrap`: the wrapped range function. A Go
`func() (lower, upper int)` is a function from `Unit` to a pair. -/
def compactionConcurrencyOverride.Wrap (cco : compactionConcurrencyOverride)
    (compactionConcurrencyRange : Unit → Int × Int) : Unit → Int × Int :=
  fun _ =>
    if cco.override > 0 then ((cco.override : Int), (cco.override : Int))
    else compactionConcurrencyRange ()

/-- `Pebble.SetCompactionConcurrency`, on the field `cco` of the engine; `n` is
a `uint64` and `uint32(n)` keeps its low 32 bits. -/
def SetCompactionConcurrency (n : Nat) (cco : compactionConcurrencyOverride) :
    compactionConcurrencyOverride :=
  cco.Set (n % 4294967296)

/-! ## Span policies -/

/-- Modelled from the spec: `pebble.ValueStoragePolicy` is declared outside the
given sources; the default (zero) value, "low-read-latency placement" and
"tolerant value-storage placement". -/
inductive ValueStoragePolicy where
  | ValueStorageDefault
  | ValueStorageLowReadLatency
  | ValueStorageLatencyTolerant
deriving DecidableEq, Repr

/-- Modelled from the spec: `pebble.SpanPolicy` is declared outside the given
sources; the fields `spanPolicyFunc` assigns. -/
structure SpanPolicy where
  PreferFastCompression : Bool
  DisableValueSeparationBySuffix : Bool
  ValueStoragePolicy : storage.ValueStoragePolicy
deriving DecidableEq, Repr

/-- The zero value `pebble.SpanPolicy{}`. -/
def SpanPolicy.zero : SpanPolicy :=
  { PreferFastCompression := false
    DisableValueSeparationBySuffix := false
    ValueStoragePolicy := ValueStoragePolicy.ValueStorageDefault }

/-- What `spanPolicyFunc` and its key variables take from outside the given
sources: three key constants of package `keys`, `PrefixEnd`, the encoding
`EncodeMVCCKey` of a key without timestamp, and `cockroachkvs.Compare`. -/
structure spanPolicyExternals where
  LocalPrefix : List Nat
  LocalRangeIDPrefix : List Nat
  LocalRangeLockTablePrefix : List Nat
  PrefixEnd : List Nat → List Nat
  EncodeMVCCKey : List Nat → List Nat
  Compare : List Nat → List Nat → Int

/-- The variable `spanPolicyLocalRangeIDEndKey`. -/
def spanPolicyLocalRangeIDEndKey (K : spanPolicyExternals) : List Nat :=
  K.EncodeMVCCKey (K.PrefixEnd K.LocalRangeIDPrefix)

/-- The variable `spanPolicyLockTableStartKey`. -/
def spanPolicyLockTableStartKey (K : spanPolicyExternals) : List Nat :=
  K.EncodeMVCCKey K.LocalRangeLockTablePrefix

/-- The variable `spanPolicyLockTableEndKey`. -/
def spanPolicyLockTableEndKey (K : spanPolicyExternals) : List Nat :=
  K.EncodeMVCCKey (K.PrefixEnd K.LocalRangeLockTablePrefix)

/-- The variable `spanPolicyLocalEndKey`. -/
def spanPolicyLocalEndKey (K : spanPolicyExternals) : List Nat :=
  K.EncodeMVCCKey (K.PrefixEnd K.LocalPrefix)

/-- `spanPolicyFunc`: the policy, the end key (`none` is `nil`) and the error. -/
def spanPolicyFunc (K : spanPolicyExternals) (startKey : List Nat) :
    SpanPolicy × Option (List Nat) × Option pebbleError :=
  if ¬ (K.LocalPrefix.isPrefixOf startKey = true) then (SpanPolicy.zero, none, none)
  else
    let policy := { SpanPolicy.zero with PreferFastCompression := true }
    if K.Compare startKey (spanPolicyLocalRangeIDEndKey K) < 0 then
      if ¬ (K.LocalRangeIDPrefix.isPrefixOf startKey = true) then
        (SpanPolicy.zero, none,
          some (pebbleError.AssertionFailed "startKey is not a Range-ID key"))
      else
        ({ policy with ValueStoragePolicy := ValueStoragePolicy.ValueStorageLatencyTolerant },
          some (spanPolicyLocalRangeIDEndKey K), none)
    else if K.Compare startKey (spanPolicyLockTableEndKey K) ≥ 0 then
      (policy, some (spanPolicyLocalEndKey K), none)
    else if K.Compare startKey (spanPolicyLockTableStartKey K) < 0 then
      (policy, some (spanPolicyLockTableStartKey K), none)
    else
      ({ policy with
          DisableValueSeparationBySuffix := true
          ValueStoragePolicy := ValueStoragePolicy.ValueStorageLowReadLatency },
        some (spanPolicyLockTableEndKey K), none)

/-- Byte-wise comparison of two byte strings (`bytes.Compare`): negative, zero
or positive. -/
def bytesCompare : List Nat → List Nat → Int
  | [], [] => 0
  | [], _ :: _ => -1
  | _ :: _, [] => 1
  | a :: as, b :: bs => if a < b then -1 else if b < a then 1 else bytesCompare as bs

/-- Modelled from the spec: `Key.PrefixEnd` is declared outside the given
sources. The key after every key with the given prefix: the last byte below
255 is increased and what follows it is dropped; a key of bytes 255 only is
returned as it is. -/
def prefixEnd (k : List Nat) : List Nat :=
  match (k.reverse.dropWhile (fun b => b == 255)) with
  | [] => k
  | b :: rest => (rest.reverse ++ [b + 1])

/-- Modelled from the spec: the constants of package `keys` and the key
encoding are declared outside the given sources. Local keys start with the
byte 1, range-ID keys with the bytes 1 and 105 (`i`), lock-table keys with the
bytes 1 and 122 (`z`); a key without timestamp is encoded as the key followed
by the sentinel byte 0 ("a sentinel byte separates key from suffix"), and on
such keys the comparison is that of the bytes. -/
def cockroachKeys : spanPolicyExternals where
  LocalPrefix := [1]
  LocalRangeIDPrefix := [1, 105]
  LocalRangeLockTablePrefix := [1, 122]
  PrefixEnd := prefixEnd
  EncodeMVCCKey := fun k => k ++ [0]
  Compare := bytesCompare

end storage

/-! ## Shared lemmas on the IO buckets -/

namespace admission

open WorkClass StoreWorkType

theorem subtractTokensLockedForWorkClass_availableIOTokens (now : Int) (wc : WorkClass)
    (count : Int) (b : Bool) (sg : kvStoreTokenGranter) :
    (subtractTokensLockedForWorkClass now wc count b sg).availableIOTokens =
      sg.availableIOTokens.set wc (sg.availableIOTokens.get wc - count) := by
  unfold subtractTokensLockedForWorkClass
  simp only []
  split_ifs <;> rfl

theorem subtractIOTokensLocked_availableIOTokens (now count elasticCount : Int) (b : Bool)
    (sg : kvStoreTokenGranter) :
    (subtractIOTokensLocked now count elasticCount b sg).availableIOTokens =
      { regular := sg.availableIOTokens.regular - count,
        elastic := sg.availableIOTokens.elastic - elasticCount } := by
  have h : ∀ s : kvStoreTokenGranter,
      (subtractIOTokensLocked now count elasticCount b s).availableIOTokens =
        (subtractTokensLockedForWorkClass now ElasticWorkClass elasticCount b
          (subtractTokensLockedForWorkClass now RegularWorkClass count b s)).availableIOTokens := by
    intro s
    unfold subtractIOTokensLocked
    simp only []
    split_ifs <;> rfl
  rw [h, subtractTokensLockedForWorkClass_availableIOTokens,
    subtractTokensLockedForWorkClass_availableIOTokens]
  rfl

/-- The fields `subtractTokensLockedForWorkClass` does not write. -/
theorem subtractTokensLockedForWorkClass_frame (now : Int) (wc : WorkClass) (count : Int)
    (b : Bool) (sg : kvStoreTokenGranter) :
    let sg' := subtractTokensLockedForWorkClass now wc count b sg
    sg'.AlwaysTryGrantWhenAdmitted = sg.AlwaysTryGrantWhenAdmitted ∧
    sg'.elasticIOTokensUsedByElastic = sg.elasticIOTokensUsedByElastic ∧
    sg'.diskTokensAvailable = sg.diskTokensAvailable ∧
    sg'.diskTokensError = sg.diskTokensError ∧
    sg'.diskTokensUsed = sg.diskTokensUsed ∧
    sg'.startingIOTokens = sg.startingIOTokens ∧
    sg'.l0WriteLM = sg.l0WriteLM ∧ sg'.l0IngestLM = sg.l0IngestLM ∧
    sg'.ingestLM = sg.ingestLM ∧ sg'.writeAmpLM = sg.writeAmpLM := by
  unfold subtractTokensLockedForWorkClass
  simp only []
  split_ifs <;> simp

/-- The fields `subtractIOTokensLocked` does not write. -/
theorem subtractIOTokensLocked_frame (now count elasticCount : Int) (b : Bool)
    (sg : kvStoreTokenGranter) :
    let sg' := subtractIOTokensLocked now count elasticCount b sg
    sg'.AlwaysTryGrantWhenAdmitted = sg.AlwaysTryGrantWhenAdmitted ∧
    sg'.elasticIOTokensUsedByElastic = sg.elasticIOTokensUsedByElastic ∧
    sg'.diskTokensAvailable = sg.diskTokensAvailable ∧
    sg'.diskTokensError = sg.diskTokensError ∧
    sg'.diskTokensUsed = sg.diskTokensUsed ∧
    sg'.startingIOTokens = sg.startingIOTokens ∧
    sg'.l0WriteLM = sg.l0WriteLM ∧ sg'.l0IngestLM = sg.l0IngestLM ∧
    sg'.ingestLM = sg.ingestLM ∧ sg'.writeAmpLM = sg.writeAmpLM := by
  have h1 := subtractTokensLockedForWorkClass_frame now RegularWorkClass count b sg
  have h2 := subtractTokensLockedForWorkClass_frame now ElasticWorkClass elasticCount b
    (subtractTokensLockedForWorkClass now RegularWorkClass count b sg)
  simp only [] at h1 h2
  obtain ⟨a1, a2, a3, a4, a5, a6, a7, a8, a9, a10⟩ := h1
  obtain ⟨b1, b2, b3, b4, b5, b6, b7, b8, b9, b10⟩ := h2
  unfold subtractIOTokensLocked
  simp only []
  split_ifs <;>
    exact ⟨b1.trans a1, b2.trans a2, b3.trans a3, b4.trans a4, b5.trans a5, b6.trans a6,
      b7.trans a7, b8.trans a8, b9.trans a9, b10.trans a10⟩

@[simp] theorem deductDiskWriteTokens_availableIOTokens (wt : StoreWorkType) (n : Int)
    (sg : kvStoreTokenGranter) :
    (deductDiskWriteTokens wt n sg).availableIOTokens = sg.availableIOTokens := rfl

@[simp] theorem deductDiskWriteTokens_elasticIOTokensUsedByElastic (wt : StoreWorkType) (n : Int)
    (sg : kvStoreTokenGranter) :
    (deductDiskWriteTokens wt n sg).elasticIOTokensUsedByElastic =
      sg.elasticIOTokensUsedByElastic := rfl

@[simp] theorem deductDiskWriteTokens_writeByteTokens (wt : StoreWorkType) (n : Int)
    (sg : kvStoreTokenGranter) :
    (deductDiskWriteTokens wt n sg).diskTokensAvailable.writeByteTokens =
      sg.diskTokensAvailable.writeByteTokens - n := rfl

/-- The IO buckets after `subtractTokensForStoreWorkTypeLocked` for regular or
elastic work: both are lower by `count`. -/
theorem subtractTokensForStoreWorkTypeLocked_availableIOTokens (now : Int) (wt : StoreWorkType)
    (count : Int) (sg : kvStoreTokenGranter) (hwt : wt ≠ SnapshotIngestStoreWorkType) :
    (subtractTokensForStoreWorkTypeLocked now wt count sg).availableIOTokens =
      { regular := sg.availableIOTokens.regular - count,
        elastic := sg.availableIOTokens.elastic - count } := by
  cases wt with
  | SnapshotIngestStoreWorkType => exact absurd rfl hwt
  | RegularStoreWorkType =>
    simp [subtractTokensForStoreWorkTypeLocked, subtractIOTokensLocked_availableIOTokens]
  | ElasticStoreWorkType =>
    simp [subtractTokensForStoreWorkTypeLocked, subtractIOTokensLocked_availableIOTokens]

/-- The IO buckets after `tryGetLocked` for regular or elastic work: both are
lower by `count` when it returned true, unchanged when it returned false. -/
theorem tryGetLocked_availableIOTokens (now count : Int) (wt : StoreWorkType)
    (sg : kvStoreTokenGranter) (hwt : wt ≠ SnapshotIngestStoreWorkType) :
    (tryGetLocked now count wt sg).2.availableIOTokens =
      if (tryGetLocked now count wt sg).1 = true then
        { regular := sg.availableIOTokens.regular - count,
          elastic := sg.availableIOTokens.elastic - count }
      else sg.availableIOTokens := by
  cases wt with
  | SnapshotIngestStoreWorkType => exact absurd rfl hwt
  | RegularStoreWorkType =>
    unfold tryGetLocked
    simp only []
    split_ifs <;> simp_all [subtractIOTokensLocked_availableIOTokens]
  | ElasticStoreWorkType =>
    unfold tryGetLocked
    simp only []
    split_ifs <;> simp_all [subtractIOTokensLocked_availableIOTokens]

end admission

/-! ## Token conservation between ticks -/

namespace admission

open WorkClass StoreWorkType

/-- One call for regular or elastic work lowers each IO bucket by what it adds
to the totals. -/
theorem runStoreCall_conservation (now : Int) (c : storeCall)
    (p : tokenTally × kvStoreTokenGranter)
    (h : c.workType ≠ SnapshotIngestStoreWorkType) :
    (p.2.availableIOTokens.regular - (runStoreCall now c p).2.availableIOTokens.regular =
      ((runStoreCall now c p).1.granted - p.1.granted) +
        ((runStoreCall now c p).1.tookWithoutPermission - p.1.tookWithoutPermission) -
        ((runStoreCall now c p).1.returned - p.1.returned)) ∧
    (p.2.availableIOTokens.elastic - (runStoreCall now c p).2.availableIOTokens.elastic =
      ((runStoreCall now c p).1.granted - p.1.granted) +
        ((runStoreCall now c p).1.tookWithoutPermission - p.1.tookWithoutPermission) -
        ((runStoreCall now c p).1.returned - p.1.returned)) := by
  cases c with
  | tryGet count wt =>
    have hwt : wt ≠ SnapshotIngestStoreWorkType := h
    have hb := tryGetLocked_availableIOTokens now count wt p.2 hwt
    simp only [runStoreCall]
    rw [hb]
    split_ifs <;> simp
  | returnGrant count wt =>
    have hwt : wt ≠ SnapshotIngestStoreWorkType := h
    simp only [runStoreCall, returnGrantLocked,
      subtractTokensForStoreWorkTypeLocked_availableIOTokens now wt (-count) p.2 hwt]
    constructor <;> ring
  | tookWithoutPermission count wt =>
    have hwt : wt ≠ SnapshotIngestStoreWorkType := h
    simp only [runStoreCall, tookWithoutPermissionLocked,
      subtractTokensForStoreWorkTypeLocked_availableIOTokens now wt count p.2 hwt]
    constructor <;> ring

/-- Conservation over a sequence of calls, from any starting totals. -/
theorem foldl_runStoreCall_conservation (calls : List (Int × storeCall))
    (h : ∀ c ∈ calls, c.2.workType ≠ SnapshotIngestStoreWorkType)
    (p : tokenTally × kvStoreTokenGranter) :
    (p.2.availableIOTokens.regular -
        (calls.foldl (fun q c => runStoreCall c.1 c.2 q) p).2.availableIOTokens.regular =
      ((calls.foldl (fun q c => runStoreCall c.1 c.2 q) p).1.granted - p.1.granted) +
        ((calls.foldl (fun q c => runStoreCall c.1 c.2 q) p).1.tookWithoutPermission -
          p.1.tookWithoutPermission) -
        ((calls.foldl (fun q c => runStoreCall c.1 c.2 q) p).1.returned - p.1.returned)) ∧
    (p.2.availableIOTokens.elastic -
        (calls.foldl (fun q c => runStoreCall c.1 c.2 q) p).2.availableIOTokens.elastic =
      ((calls.foldl (fun q c => runStoreCall c.1 c.2 q) p).1.granted - p.1.granted) +
        ((calls.foldl (fun q c => runStoreCall c.1 c.2 q) p).1.tookWithoutPermission -
          p.1.tookWithoutPermission) -
        ((calls.foldl (fun q c => runStoreCall c.1 c.2 q) p).1.returned - p.1.returned)) := by
  induction calls generalizing p with
  | nil => simp
  | cons c rest ih =>
    have hc := runStoreCall_conservation c.1 c.2 p (h c (List.mem_cons_self _ _))
    have hr := ih (fun d hd => h d (List.mem_cons_of_mem _ hd)) (runStoreCall c.1 c.2 p)
    simp only [List.foldl_cons]
    obtain ⟨hc1, hc2⟩ := hc
    obtain ⟨hr1, hr2⟩ := hr
    constructor <;> linarith

/-- C1. Over any sequence of `tryGetLocked`, `returnGrantLocked` and
`tookWithoutPermissionLocked` calls for regular and elastic work (no
`setAvailableTokens` in between), each IO bucket satisfies
`initial - final = granted + tookWithoutPermission - returned`, where `granted`
sums the counts of the `tryGetLocked` calls that returned true. -/
theorem io_token_conservation (calls : List (Int × storeCall)) (sg : kvStoreTokenGranter)
    (h : ∀ c ∈ calls, c.2.workType ≠ SnapshotIngestStoreWorkType) :
    (sg.availableIOTokens.get RegularWorkClass -
        (runStoreCalls calls sg).2.availableIOTokens.get RegularWorkClass =
      (runStoreCalls calls sg).1.granted + (runStoreCalls calls sg).1.tookWithoutPermission -
        (runStoreCalls calls sg).1.returned) ∧
    (sg.availableIOTokens.get ElasticWorkClass -
        (runStoreCalls calls sg).2.availableIOTokens.get ElasticWorkClass =
      (runStoreCalls calls sg).1.granted + (runStoreCalls calls sg).1.tookWithoutPermission -
        (runStoreCalls calls sg).1.returned) := by
  have key := foldl_runStoreCall_conservation calls h
    ({ granted := 0, returned := 0, tookWithoutPermission := 0 }, sg)
  simp only [sub_zero] at key
  exact key

/-- Witness for C1: a run with a granted regular request, a granted elastic
request, an over-admission, a refused request and a returned grant. -/
theorem io_token_conservation_witness :
    (∀ c ∈ [((1 : Int), storeCall.tryGet 30 RegularStoreWorkType),
        (2, storeCall.tryGet 80 ElasticStoreWorkType),
        (3, storeCall.tookWithoutPermission 100 RegularStoreWorkType),
        (4, storeCall.tryGet 5 RegularStoreWorkType),
        (5, storeCall.returnGrant 30 ElasticStoreWorkType)],
      c.2.workType ≠ SnapshotIngestStoreWorkType) ∧
    (runStoreCalls [((1 : Int), storeCall.tryGet 30 RegularStoreWorkType),
        (2, storeCall.tryGet 80 ElasticStoreWorkType),
        (3, storeCall.tookWithoutPermission 100 RegularStoreWorkType),
        (4, storeCall.tryGet 5 RegularStoreWorkType),
        (5, storeCall.returnGrant 30 ElasticStoreWorkType)]
      (granterWith 100 90 10000 ⟨10, 1⟩)).1 =
      { granted := 110, returned := 30, tookWithoutPermission := 100 } ∧
    ((granterWith 100 90 10000 ⟨10, 1⟩).availableIOTokens.get RegularWorkClass -
        (runStoreCalls [((1 : Int), storeCall.tryGet 30 RegularStoreWorkType),
          (2, storeCall.tryGet 80 ElasticStoreWorkType),
          (3, storeCall.tookWithoutPermission 100 RegularStoreWorkType),
          (4, storeCall.tryGet 5 RegularStoreWorkType),
          (5, storeCall.returnGrant 30 ElasticStoreWorkType)]
          (granterWith 100 90 10000 ⟨10, 1⟩)).2.availableIOTokens.get RegularWorkClass =
      110 + 100 - 30) :=
  ⟨by decide, by decide,
    (io_token_conservation _ (granterWith 100 90 10000 ⟨10, 1⟩) (by decide)).1⟩

end admission

/-! ## Admission conditions of `tryGetLocked` -/

namespace admission

open WorkClass StoreWorkType

/-- `tryGetLocked` for regular work, branch by branch. -/
theorem tryGetLocked_regular_eq (now count : Int) (sg : kvStoreTokenGranter) :
    tryGetLocked now count RegularStoreWorkType sg =
      if sg.availableIOTokens.get RegularWorkClass > 0 then
        (true, deductDiskWriteTokens RegularStoreWorkType (sg.writeAmpLM.applyLinearModel count)
          (subtractIOTokensLocked now count count false sg))
      else (false, sg) := by
  simp [tryGetLocked]

/-- `tryGetLocked` for elastic work, branch by branch. -/
theorem tryGetLocked_elastic_eq (now count : Int) (sg : kvStoreTokenGranter) :
    tryGetLocked now count ElasticStoreWorkType sg =
      if sg.diskTokensAvailable.writeByteTokens > 0 ∧
          sg.availableIOTokens.get RegularWorkClass > 0 ∧
          sg.availableIOTokens.get ElasticWorkClass > 0 then
        (true, deductDiskWriteTokens ElasticStoreWorkType (sg.writeAmpLM.applyLinearModel count)
          { subtractIOTokensLocked now count count false sg with
            elasticIOTokensUsedByElastic :=
              (subtractIOTokensLocked now count count false sg).elasticIOTokensUsedByElastic +
                count })
      else (false, sg) := by
  simp [tryGetLocked]

/-- `tryGetLocked` for snapshot-ingest work, branch by branch. -/
theorem tryGetLocked_snapshotIngest_eq (now count : Int) (sg : kvStoreTokenGranter) :
    tryGetLocked now count SnapshotIngestStoreWorkType sg =
      if sg.diskTokensAvailable.writeByteTokens > 0 then
        (true, deductDiskWriteTokens SnapshotIngestStoreWorkType count sg)
      else (false, sg) := by
  simp [tryGetLocked]

/-- C2. `tryGetLocked(count, RegularStoreWorkType)` returns true if and only if
`availableIOTokens[Regular] > 0` (the elastic IO bucket and the disk-write
bucket play no part), and when it returns false the granter is unchanged. -/
theorem tryGetLocked_regular_admits_iff (now count : Int) (sg : kvStoreTokenGranter) :
    ((tryGetLocked now count RegularStoreWorkType sg).1 = true ↔
      sg.availableIOTokens.get RegularWorkClass > 0) ∧
    ((tryGetLocked now count RegularStoreWorkType sg).1 = false →
      (tryGetLocked now count RegularStoreWorkType sg).2 = sg) := by
  rw [tryGetLocked_regular_eq]
  split_ifs with h <;> simp [h]

/-- C3. `tryGetLocked(count, ElasticStoreWorkType)` returns false and leaves the
granter unchanged whenever the regular or the elastic IO bucket is `≤ 0`; it
returns true exactly when the regular IO bucket, the elastic IO bucket and the
disk-write bucket are all `> 0`; a false return never changes the granter. -/
theorem tryGetLocked_elastic_admits_iff (now count : Int) (sg : kvStoreTokenGranter) :
    ((sg.availableIOTokens.get RegularWorkClass ≤ 0 ∨
        sg.availableIOTokens.get ElasticWorkClass ≤ 0) →
      tryGetLocked now count ElasticStoreWorkType sg = (false, sg)) ∧
    ((tryGetLocked now count ElasticStoreWorkType sg).1 = true ↔
      (sg.availableIOTokens.get RegularWorkClass > 0 ∧
        sg.availableIOTokens.get ElasticWorkClass > 0 ∧
        sg.diskTokensAvailable.writeByteTokens > 0)) ∧
    ((tryGetLocked now count ElasticStoreWorkType sg).1 = false →
      (tryGetLocked now count ElasticStoreWorkType sg).2 = sg) := by
  rw [tryGetLocked_elastic_eq]
  split_ifs with h
  · obtain ⟨h1, h2, h3⟩ := h
    refine ⟨?_, ?_, ?_⟩
    · rintro (h' | h') <;> omega
    · simp [h1, h2, h3]
    · simp
  · refine ⟨fun _ => rfl, ?_, fun _ => rfl⟩
    constructor
    · intro hf
      simp at hf
    · rintro ⟨h1, h2, h3⟩
      exact absurd ⟨h3, h1, h2⟩ h

/-- C4. Snapshot-ingest work uses only disk-write tokens: `tryGetLocked`,
`returnGrantLocked` and `tookWithoutPermissionLocked` for
`SnapshotIngestStoreWorkType` leave both IO buckets and
`elasticIOTokensUsedByElastic` unchanged; `tryGetLocked` succeeds if and only if
the disk-write bucket is `> 0`, and then deducts exactly `count` disk-write
tokens, whatever the write-amplification model. -/
theorem snapshotIngest_uses_only_disk_write_tokens (now count : Int)
    (sg : kvStoreTokenGranter) :
    ((tryGetLocked now count SnapshotIngestStoreWorkType sg).2.availableIOTokens =
        sg.availableIOTokens ∧
      (tryGetLocked now count SnapshotIngestStoreWorkType sg).2.elasticIOTokensUsedByElastic =
        sg.elasticIOTokensUsedByElastic) ∧
    ((returnGrantLocked now count SnapshotIngestStoreWorkType sg).availableIOTokens =
        sg.availableIOTokens ∧
      (returnGrantLocked now count SnapshotIngestStoreWorkType sg).elasticIOTokensUsedByElastic =
        sg.elasticIOTokensUsedByElastic) ∧
    ((tookWithoutPermissionLocked now count SnapshotIngestStoreWorkType sg).availableIOTokens =
        sg.availableIOTokens ∧
      (tookWithoutPermissionLocked now count
          SnapshotIngestStoreWorkType sg).elasticIOTokensUsedByElastic =
        sg.elasticIOTokensUsedByElastic) ∧
    ((tryGetLocked now count SnapshotIngestStoreWorkType sg).1 = true ↔
      sg.diskTokensAvailable.writeByteTokens > 0) ∧
    ((tryGetLocked now count SnapshotIngestStoreWorkType sg).2.diskTokensAvailable.writeByteTokens =
      if sg.diskTokensAvailable.writeByteTokens > 0 then
        sg.diskTokensAvailable.writeByteTokens - count
      else sg.diskTokensAvailable.writeByteTokens) := by
  refine ⟨?_, ⟨rfl, rfl⟩, ⟨rfl, rfl⟩, ?_, ?_⟩
  · rw [tryGetLocked_snapshotIngest_eq]
    split_ifs <;> exact ⟨rfl, rfl⟩
  · rw [tryGetLocked_snapshotIngest_eq]
    split_ifs with h <;> simp [h]
  · rw [tryGetLocked_snapshotIngest_eq]
    split_ifs with h <;> simp

end admission

/-! ## The grant loop: one grant at most, in class order -/

namespace admission

open WorkClass StoreWorkType

/-- The loop of `tryGrantLockedOne`, from any point of the class order: the
classes are visited in order; a true result ends with the one accepted grant,
after classes that had nothing waiting or declined; a false result has no
accepted grant. -/
theorem tryGrantLockedOneLoop_spec {ρ : Type} (R : storeRequesters ρ) (now : Int)
    (wts : List StoreWorkType) (sg : kvStoreTokenGranter) (env : ρ) :
    ((tryGrantLockedOneLoop R now wts sg env).events.map grantEvent.workType <+: wts) ∧
    ((tryGrantLockedOneLoop R now wts sg env).res = true →
      ∃ pre wt n, (tryGrantLockedOneLoop R now wts sg env).events =
          pre ++ [grantEvent.accepted wt n] ∧ n ≠ 0 ∧
        ∀ e ∈ pre, e = grantEvent.notWaiting e.workType ∨ e = grantEvent.declined e.workType) ∧
    ((tryGrantLockedOneLoop R now wts sg env).res = false →
      ∀ e ∈ (tryGrantLockedOneLoop R now wts sg env).events, e.isAccepted = false) := by
  induction wts generalizing sg env with
  | nil =>
    refine ⟨?_, ?_, ?_⟩
    · simp [tryGrantLockedOneLoop]
    · intro h
      simp [tryGrantLockedOneLoop] at h
    · intro _ e he
      simp [tryGrantLockedOneLoop] at he
  | cons wt rest ih =>
    by_cases hw : (R.forWorkType wt).hasWaitingRequests env = true
    · by_cases hg : (tryGetLocked now 1 wt sg).1 = true
      · by_cases hz : ((R.forWorkType wt).granted noGrantChain env).1 = 0
        · -- declined: continue with the rest
          obtain ⟨i1, i2, i3⟩ := ih (returnGrantLocked now 1 wt (tryGetLocked now 1 wt sg).2)
            ((R.forWorkType wt).granted noGrantChain env).2
          simp only [tryGrantLockedOneLoop, hw, hg, hz, if_true]
          refine ⟨?_, ?_, ?_⟩
          · simpa [grantEvent.workType, List.cons_prefix_cons] using i1
          · intro h
            obtain ⟨pre, wt', n, e1, e2, e3⟩ := i2 h
            refine ⟨grantEvent.declined wt :: pre, wt', n, ?_, e2, ?_⟩
            · simp [e1]
            · intro e he
              rcases List.mem_cons.mp he with rfl | he
              · right; rfl
              · exact e3 e he
          · intro h e he
            rcases List.mem_cons.mp he with rfl | he
            · rfl
            · exact i3 h e he
        · -- accepted
          simp only [tryGrantLockedOneLoop, hw, hg, hz, if_true, if_false]
          refine ⟨?_, ?_, ?_⟩
          · simp [grantEvent.workType, List.cons_prefix_cons]
          · intro _
            exact ⟨[], wt, _, rfl, hz, by simp⟩
          · intro h
            simp at h
      · -- no token
        have hg' : (tryGetLocked now 1 wt sg).1 = false := by simpa using hg
        simp only [tryGrantLockedOneLoop, hw, hg', if_true, Bool.false_eq_true, if_false]
        refine ⟨?_, ?_, ?_⟩
        · simp [grantEvent.workType, List.cons_prefix_cons]
        · intro h
          simp at h
        · intro _ e he
          simp at he
          subst he
          rfl
    · -- nothing waiting: continue with the rest
      obtain ⟨i1, i2, i3⟩ := ih sg env
      simp only [tryGrantLockedOneLoop, hw, if_false]
      refine ⟨?_, ?_, ?_⟩
      · simpa [grantEvent.workType, List.cons_prefix_cons] using i1
      · intro h
        obtain ⟨pre, wt', n, e1, e2, e3⟩ := i2 h
        refine ⟨grantEvent.notWaiting wt :: pre, wt', n, ?_, e2, ?_⟩
        · simp [e1]
        · intro e he
          rcases List.mem_cons.mp he with rfl | he
          · left; rfl
          · exact e3 e he
      · intro h e he
        rcases List.mem_cons.mp he with rfl | he
        · rfl
        · exact i3 h e he

/-- C5. `tryGrantLockedOne` visits the classes in the order regular store-write,
snapshot ingest, elastic store-write, and grants to at most one request:
whenever it returns true, exactly one requester accepted a grant (`granted`
returned non-zero), it is the last class visited, and every class visited
before it either had no waiting requests or declined the grant offered to it;
when it returns false no requester accepted a grant. -/
theorem tryGrantLockedOne_grants_at_most_one {ρ : Type} (R : storeRequesters ρ) (now : Int)
    (sg : kvStoreTokenGranter) (env : ρ) :
    ((tryGrantLockedOne R now sg env).events.map grantEvent.workType <+:
      [RegularStoreWorkType, SnapshotIngestStoreWorkType, ElasticStoreWorkType]) ∧
    ((tryGrantLockedOne R now sg env).res = true →
      (tryGrantLockedOne R now sg env).events.countP grantEvent.isAccepted = 1 ∧
      ∃ pre wt n, (tryGrantLockedOne R now sg env).events =
          pre ++ [grantEvent.accepted wt n] ∧ n ≠ 0 ∧
        ∀ e ∈ pre, e = grantEvent.notWaiting e.workType ∨ e = grantEvent.declined e.workType) ∧
    ((tryGrantLockedOne R now sg env).res = false →
      (tryGrantLockedOne R now sg env).events.countP grantEvent.isAccepted = 0) := by
  obtain ⟨h1, h2, h3⟩ := tryGrantLockedOneLoop_spec R now storeWorkTypes sg env
  refine ⟨h1, ?_, ?_⟩
  · intro h
    obtain ⟨pre, wt, n, e1, e2, e3⟩ := h2 h
    refine ⟨?_, pre, wt, n, e1, e2, e3⟩
    unfold tryGrantLockedOne
    rw [e1, List.countP_append]
    have hpre : pre.countP grantEvent.isAccepted = 0 := by
      rw [List.countP_eq_zero]
      intro e he
      rcases e3 e he with h' | h' <;> rw [h'] <;> simp [grantEvent.isAccepted]
    simp [hpre, grantEvent.isAccepted]
  · intro h
    unfold tryGrantLockedOne
    rw [List.countP_eq_zero]
    intro e he
    simp [h3 h e he]

/-- Witness for C5: the regular requester declines, the snapshot requester takes
three tokens, so the call returns true after the events "regular declined,
snapshot ingest accepted 3". -/
theorem tryGrantLockedOne_grants_at_most_one_witness :
    (tryGrantLockedOne queueRequesters 5 (granterWith 10 100 1000 ⟨10, 1⟩)
        { regular := [0], snapshotIngest := [3], elastic := [7] }).events =
      [grantEvent.declined RegularStoreWorkType,
        grantEvent.accepted SnapshotIngestStoreWorkType 3] ∧
    (tryGrantLockedOne queueRequesters 5 (granterWith 10 100 1000 ⟨10, 1⟩)
        { regular := [0], snapshotIngest := [3], elastic := [7] }).events.countP
      grantEvent.isAccepted = 1 :=
  ⟨by decide,
    ((tryGrantLockedOne_grants_at_most_one queueRequesters 5 (granterWith 10 100 1000 ⟨10, 1⟩)
      { regular := [0], snapshotIngest := [3], elastic := [7] }).2.1 (by decide)).1⟩

end admission

/-! ## Class order and the early return; returning a grant -/

namespace admission

open WorkClass StoreWorkType

/-- Elastic work is refused whenever regular work or snapshot-ingest work is
refused: the part of the class-order argument that holds for every state. -/
theorem tryGetLocked_elastic_fails_of_more_important_fails (now count : Int)
    (wt : StoreWorkType) (sg : kvStoreTokenGranter)
    (h : (tryGetLocked now count wt sg).1 = false) :
    (tryGetLocked now count ElasticStoreWorkType sg).1 = false := by
  cases wt with
  | ElasticStoreWorkType => exact h
  | RegularStoreWorkType =>
    rw [tryGetLocked_regular_eq] at h
    by_cases h1 : sg.availableIOTokens.get RegularWorkClass > 0
    · rw [if_pos h1] at h
      exact absurd h (by simp)
    · rw [tryGetLocked_elastic_eq, if_neg (fun hc => h1 hc.2.1)]
  | SnapshotIngestStoreWorkType =>
    rw [tryGetLocked_snapshotIngest_eq] at h
    by_cases h1 : sg.diskTokensAvailable.writeByteTokens > 0
    · rw [if_pos h1] at h
      exact absurd h (by simp)
    · rw [tryGetLocked_elastic_eq, if_neg (fun hc => h1 hc.1)]

/-- C6, the code at the failing input: with the regular IO bucket at 0 and 1000
disk-write tokens, `tryGetLocked(1, RegularStoreWorkType)` fails while
`tryGetLocked(1, SnapshotIngestStoreWorkType)` succeeds in the same state; with
regular and snapshot-ingest work both waiting, `tryGrantLockedOne` returns
false after the regular class alone, so the snapshot ingest that could have
been granted is never offered a grant. -/
theorem tryGrantLockedOne_skips_grantable_snapshotIngest :
    (tryGetLocked 5 1 RegularStoreWorkType (granterWith 0 100 1000 ⟨10, 1⟩)).1 = false ∧
    (tryGetLocked 5 1 SnapshotIngestStoreWorkType (granterWith 0 100 1000 ⟨10, 1⟩)).1 = true ∧
    (tryGrantLockedOne queueRequesters 5 (granterWith 0 100 1000 ⟨10, 1⟩)
        { regular := [1], snapshotIngest := [1], elastic := [] }).res = false ∧
    (tryGrantLockedOne queueRequesters 5 (granterWith 0 100 1000 ⟨10, 1⟩)
        { regular := [1], snapshotIngest := [1], elastic := [] }).events =
      [grantEvent.noToken RegularStoreWorkType] := by
  decide

/-- The buckets after a successful `tryGetLocked(count, wt)` followed by
`returnGrantLocked(count, wt)`: the IO buckets are back at their values; the
disk-write bucket is back at its value for snapshot-ingest work and is lower by
twice the constant of the write-amplification model for regular and elastic
work, because the model is applied to `count` and to `-count`. -/
theorem tryGetLocked_returnGrantLocked_buckets (now1 now2 count : Int) (wt : StoreWorkType)
    (sg : kvStoreTokenGranter) (h : (tryGetLocked now1 count wt sg).1 = true) :
    (returnGrantLocked now2 count wt (tryGetLocked now1 count wt sg).2).availableIOTokens =
      sg.availableIOTokens ∧
    (returnGrantLocked now2 count wt
        (tryGetLocked now1 count wt sg).2).diskTokensAvailable.writeByteTokens =
      sg.diskTokensAvailable.writeByteTokens -
        (if wt = SnapshotIngestStoreWorkType then 0 else 2 * sg.writeAmpLM.constant) := by
  cases wt with
  | RegularStoreWorkType =>
    have h1 : sg.availableIOTokens.get RegularWorkClass > 0 := by
      by_contra hc
      rw [tryGetLocked_regular_eq, if_neg hc] at h
      exact absurd h (by simp)
    rw [tryGetLocked_regular_eq, if_pos h1]
    have f := subtractIOTokensLocked_frame now1 count count false sg
    simp only [] at f
    obtain ⟨-, -, f3, -, -, -, -, -, -, f10⟩ := f
    constructor
    · rw [returnGrantLocked,
        subtractTokensForStoreWorkTypeLocked_availableIOTokens _ _ _ _ (by decide)]
      simp [subtractIOTokensLocked_availableIOTokens]
    · have g := subtractIOTokensLocked_frame now2 (-count) (-count) false
        (deductDiskWriteTokens RegularStoreWorkType (sg.writeAmpLM.applyLinearModel count)
          (subtractIOTokensLocked now1 count count false sg))
      simp only [] at g
      obtain ⟨-, -, g3, -, -, -, -, -, -, g10⟩ := g
      simp only [returnGrantLocked, subtractTokensForStoreWorkTypeLocked, ne_eq, reduceCtorEq,
        not_false_eq_true, if_true, if_false, deductDiskWriteTokens_writeByteTokens, g3, g10]
      simp only [deductDiskWriteTokens, f3, f10, tokensLinearModel.applyLinearModel]
      ring
  | ElasticStoreWorkType =>
    have h1 : sg.diskTokensAvailable.writeByteTokens > 0 ∧
        sg.availableIOTokens.get RegularWorkClass > 0 ∧
        sg.availableIOTokens.get ElasticWorkClass > 0 := by
      by_contra hc
      rw [tryGetLocked_elastic_eq, if_neg hc] at h
      exact absurd h (by simp)
    rw [tryGetLocked_elastic_eq, if_pos h1]
    have f := subtractIOTokensLocked_frame now1 count count false sg
    simp only [] at f
    obtain ⟨-, -, f3, -, -, -, -, -, -, f10⟩ := f
    constructor
    · rw [returnGrantLocked,
        subtractTokensForStoreWorkTypeLocked_availableIOTokens _ _ _ _ (by decide)]
      simp [subtractIOTokensLocked_availableIOTokens]
    · have g := subtractIOTokensLocked_frame now2 (-count) (-count) false
        (deductDiskWriteTokens ElasticStoreWorkType (sg.writeAmpLM.applyLinearModel count)
          { subtractIOTokensLocked now1 count count false sg with
            elasticIOTokensUsedByElastic :=
              (subtractIOTokensLocked now1 count count false sg).elasticIOTokensUsedByElastic +
                count })
      simp only [] at g
      obtain ⟨-, -, g3, -, -, -, -, -, -, g10⟩ := g
      simp only [returnGrantLocked, subtractTokensForStoreWorkTypeLocked, ne_eq, reduceCtorEq,
        not_false_eq_true, if_true, if_false, deductDiskWriteTokens_writeByteTokens, g3, g10]
      simp only [deductDiskWriteTokens, f3, f10, tokensLinearModel.applyLinearModel]
      ring
  | SnapshotIngestStoreWorkType =>
    have h1 : sg.diskTokensAvailable.writeByteTokens > 0 := by
      by_contra hc
      rw [tryGetLocked_snapshotIngest_eq, if_neg hc] at h
      exact absurd h (by simp)
    rw [tryGetLocked_snapshotIngest_eq, if_pos h1]
    constructor
    · rfl
    · simp [returnGrantLocked, subtractTokensForStoreWorkTypeLocked]

/-- C7, the code at the failing input: under the write-amplification model
`10x + 1`, a regular `tryGetLocked(50)` succeeds and takes 501 disk-write tokens
(1000 to 499); the `returnGrantLocked(50)` that follows puts both IO buckets
back at 100 but gives back only 499 disk-write tokens, leaving 998 where the
pair of calls started from 1000. The same happens inside `tryGrantLockedOne`
when the requester declines the grant of one token. -/
theorem returnGrantLocked_does_not_restore_disk_write_tokens :
    (tryGetLocked 5 50 RegularStoreWorkType (granterWith 100 100 1000 ⟨10, 1⟩)).1 = true ∧
    (tryGetLocked 5 50 RegularStoreWorkType
        (granterWith 100 100 1000 ⟨10, 1⟩)).2.diskTokensAvailable.writeByteTokens = 499 ∧
    (returnGrantLocked 6 50 RegularStoreWorkType
        (tryGetLocked 5 50 RegularStoreWorkType
          (granterWith 100 100 1000 ⟨10, 1⟩)).2).availableIOTokens =
      { regular := 100, elastic := 100 } ∧
    (returnGrantLocked 6 50 RegularStoreWorkType
        (tryGetLocked 5 50 RegularStoreWorkType
          (granterWith 100 100 1000 ⟨10, 1⟩)).2).diskTokensAvailable.writeByteTokens = 998 ∧
    (tryGrantLockedOne queueRequesters 5 (granterWith 100 100 1000 ⟨10, 1⟩)
        { regular := [0], snapshotIngest := [], elastic := [] }).events =
      [grantEvent.declined RegularStoreWorkType,
        grantEvent.notWaiting SnapshotIngestStoreWorkType,
        grantEvent.notWaiting ElasticStoreWorkType] ∧
    (tryGrantLockedOne queueRequesters 5 (granterWith 100 100 1000 ⟨10, 1⟩)
        { regular := [0], snapshotIngest := [],
          elastic := [] }).sg.diskTokensAvailable.writeByteTokens = 998 := by
  decide

/-! ## Refill: `setAvailableTokens` -/

/-- The three buckets after `setAvailableTokens`. -/
theorem setAvailableTokens_buckets (now ioTokens elasticIOTokens diskWriteTokens diskReadTokens
    ioTokenCapacity elasticIOTokenCapacity diskWriteTokensCapacity : Int) (lastTick : Bool)
    (sg : kvStoreTokenGranter) :
    (setAvailableTokens now ioTokens elasticIOTokens diskWriteTokens diskReadTokens
        ioTokenCapacity elasticIOTokenCapacity diskWriteTokensCapacity lastTick
        sg).2.availableIOTokens.regular =
      min (sg.availableIOTokens.regular + ioTokens) ioTokenCapacity ∧
    (setAvailableTokens now ioTokens elasticIOTokens diskWriteTokens diskReadTokens
        ioTokenCapacity elasticIOTokenCapacity diskWriteTokensCapacity lastTick
        sg).2.availableIOTokens.elastic =
      (if lastTick = true then
        min (max (min (sg.availableIOTokens.elastic + elasticIOTokens) elasticIOTokenCapacity) 0)
          (min (sg.availableIOTokens.regular + ioTokens) ioTokenCapacity)
      else min (sg.availableIOTokens.elastic + elasticIOTokens) elasticIOTokenCapacity) ∧
    (setAvailableTokens now ioTokens elasticIOTokens diskWriteTokens diskReadTokens
        ioTokenCapacity elasticIOTokenCapacity diskWriteTokensCapacity lastTick
        sg).2.diskTokensAvailable.writeByteTokens =
      min ((if lastTick = true then max sg.diskTokensAvailable.writeByteTokens 0
        else sg.diskTokensAvailable.writeByteTokens) + diskWriteTokens)
        diskWriteTokensCapacity := by
  have f := subtractIOTokensLocked_frame now (-ioTokens) (-elasticIOTokens) true
    { sg with elasticIOTokensUsedByElastic := 0 }
  have a := subtractIOTokensLocked_availableIOTokens now (-ioTokens) (-elasticIOTokens) true
    { sg with elasticIOTokensUsedByElastic := 0 }
  simp only [] at f
  obtain ⟨-, -, f3, -, -, -, -, -, -, -⟩ := f
  simp only [setAvailableTokens, workClassArray.get, a, f3, sub_neg_eq_add]
  cases lastTick
  · simp only [Bool.false_eq_true, if_false]
    refine ⟨?_, ?_, ?_⟩
    · split_ifs <;> simp [min_def] <;> omega
    · split_ifs <;> simp [min_def] <;> omega
    · split_ifs <;> simp [min_def] <;> omega
  · simp only [if_true]
    refine ⟨?_, ?_, ?_⟩
    · split_ifs <;> simp [min_def] <;> omega
    · split_ifs <;> simp [min_def, max_def] <;> (try split_ifs) <;> omega
    · split_ifs <;> simp [min_def, max_def] <;> (try split_ifs) <;> omega

/-- C8, counterexample: a last tick that finds the regular IO bucket at -100 and
adds 10 tokens leaves the regular bucket at -90 and sets the elastic bucket to
-90 as well, which is not `≥ 0`. -/
theorem setAvailableTokens_lastTick_elastic_negative :
    (setAvailableTokens 7 10 10 5 0 1000 1000 1000 true
        (granterWith (-100) 50 (-3) ⟨10, 1⟩)).2.availableIOTokens =
      { regular := -90, elastic := -90 } ∧
    ¬ (0 ≤ (setAvailableTokens 7 10 10 5 0 1000 1000 1000 true
        (granterWith (-100) 50 (-3) ⟨10, 1⟩)).2.availableIOTokens.get ElasticWorkClass) := by
  decide

/-- C8, amended. After `setAvailableTokens` with `lastTick = true`, for every
prior state: the elastic IO bucket is at most the regular IO bucket and at
least `min 0 regular`, so it is `≥ 0` whenever the regular IO bucket is `≥ 0`
after the refill and equals the regular IO bucket when that is negative; and
for non-negative `diskWriteTokens` and `diskWriteTokensCapacity` the disk-write
bucket is `≥ 0`. -/
theorem setAvailableTokens_lastTick_clamps (now ioTokens elasticIOTokens diskWriteTokens
    diskReadTokens ioTokenCapacity elasticIOTokenCapacity diskWriteTokensCapacity : Int)
    (sg : kvStoreTokenGranter) :
    ((setAvailableTokens now ioTokens elasticIOTokens diskWriteTokens diskReadTokens
          ioTokenCapacity elasticIOTokenCapacity diskWriteTokensCapacity true
          sg).2.availableIOTokens.get ElasticWorkClass ≤
      (setAvailableTokens now ioTokens elasticIOTokens diskWriteTokens diskReadTokens
          ioTokenCapacity elasticIOTokenCapacity diskWriteTokensCapacity true
          sg).2.availableIOTokens.get RegularWorkClass) ∧
    (min 0 ((setAvailableTokens now ioTokens elasticIOTokens diskWriteTokens diskReadTokens
          ioTokenCapacity elasticIOTokenCapacity diskWriteTokensCapacity true
          sg).2.availableIOTokens.get RegularWorkClass) ≤
      (setAvailableTokens now ioTokens elasticIOTokens diskWriteTokens diskReadTokens
          ioTokenCapacity elasticIOTokenCapacity diskWriteTokensCapacity true
          sg).2.availableIOTokens.get ElasticWorkClass) ∧
    (0 ≤ (setAvailableTokens now ioTokens elasticIOTokens diskWriteTokens diskReadTokens
          ioTokenCapacity elasticIOTokenCapacity diskWriteTokensCapacity true
          sg).2.availableIOTokens.get RegularWorkClass →
      0 ≤ (setAvailableTokens now ioTokens elasticIOTokens diskWriteTokens diskReadTokens
          ioTokenCapacity elasticIOTokenCapacity diskWriteTokensCapacity true
          sg).2.availableIOTokens.get ElasticWorkClass) ∧
    ((setAvailableTokens now ioTokens elasticIOTokens diskWriteTokens diskReadTokens
          ioTokenCapacity elasticIOTokenCapacity diskWriteTokensCapacity true
          sg).2.availableIOTokens.get RegularWorkClass < 0 →
      (setAvailableTokens now ioTokens elasticIOTokens diskWriteTokens diskReadTokens
          ioTokenCapacity elasticIOTokenCapacity diskWriteTokensCapacity true
          sg).2.availableIOTokens.get ElasticWorkClass =
        (setAvailableTokens now ioTokens elasticIOTokens diskWriteTokens diskReadTokens
          ioTokenCapacity elasticIOTokenCapacity diskWriteTokensCapacity true
          sg).2.availableIOTokens.get RegularWorkClass) ∧
    (0 ≤ diskWriteTokens → 0 ≤ diskWriteTokensCapacity →
      0 ≤ (setAvailableTokens now ioTokens elasticIOTokens diskWriteTokens diskReadTokens
          ioTokenCapacity elasticIOTokenCapacity diskWriteTokensCapacity true
          sg).2.diskTokensAvailable.writeByteTokens) := by
  obtain ⟨hr, he, hd⟩ := setAvailableTokens_buckets now ioTokens elasticIOTokens diskWriteTokens
    diskReadTokens ioTokenCapacity elasticIOTokenCapacity diskWriteTokensCapacity true sg
  simp only [workClassArray.get, hr, he, hd, if_true]
  refine ⟨min_le_right _ _, ?_, ?_, ?_, ?_⟩
  · exact le_min (le_trans (min_le_left _ _) (le_max_right _ _)) (min_le_right _ _)
  · intro h
    exact le_min (le_max_right _ _) h
  · intro h
    exact min_eq_right (le_trans (le_of_lt h) (le_max_right _ _))
  · intro h1 h2
    exact le_min (add_nonneg (le_max_right _ _) h1) h2

/-- C9. `setAvailableTokens` with `lastTick = false` sets, for every prior state
(negative balances included), the regular IO bucket to
`min (old + ioTokens) ioTokenCapacity`, the elastic IO bucket to
`min (old + elasticIOTokens) elasticIOTokenCapacity` and the disk-write bucket to
`min (old + diskWriteTokens) diskWriteTokensCapacity`; no bucket ends above its
capacity. -/
theorem setAvailableTokens_refill (now ioTokens elasticIOTokens diskWriteTokens
    diskReadTokens ioTokenCapacity elasticIOTokenCapacity diskWriteTokensCapacity : Int)
    (sg : kvStoreTokenGranter) :
    ((setAvailableTokens now ioTokens elasticIOTokens diskWriteTokens diskReadTokens
          ioTokenCapacity elasticIOTokenCapacity diskWriteTokensCapacity false
          sg).2.availableIOTokens.get RegularWorkClass =
        min (sg.availableIOTokens.get RegularWorkClass + ioTokens) ioTokenCapacity ∧
      (setAvailableTokens now ioTokens elasticIOTokens diskWriteTokens diskReadTokens
          ioTokenCapacity elasticIOTokenCapacity diskWriteTokensCapacity false
          sg).2.availableIOTokens.get ElasticWorkClass =
        min (sg.availableIOTokens.get ElasticWorkClass + elasticIOTokens)
          elasticIOTokenCapacity ∧
      (setAvailableTokens now ioTokens elasticIOTokens diskWriteTokens diskReadTokens
          ioTokenCapacity elasticIOTokenCapacity diskWriteTokensCapacity false
          sg).2.diskTokensAvailable.writeByteTokens =
        min (sg.diskTokensAvailable.writeByteTokens + diskWriteTokens)
          diskWriteTokensCapacity) ∧
    ((setAvailableTokens now ioTokens elasticIOTokens diskWriteTokens diskReadTokens
          ioTokenCapacity elasticIOTokenCapacity diskWriteTokensCapacity false
          sg).2.availableIOTokens.get RegularWorkClass ≤ ioTokenCapacity ∧
      (setAvailableTokens now ioTokens elasticIOTokens diskWriteTokens diskReadTokens
          ioTokenCapacity elasticIOTokenCapacity diskWriteTokensCapacity false
          sg).2.availableIOTokens.get ElasticWorkClass ≤ elasticIOTokenCapacity ∧
      (setAvailableTokens now ioTokens elasticIOTokens diskWriteTokens diskReadTokens
          ioTokenCapacity elasticIOTokenCapacity diskWriteTokensCapacity false
          sg).2.diskTokensAvailable.writeByteTokens ≤ diskWriteTokensCapacity) := by
  obtain ⟨hr, he, hd⟩ := setAvailableTokens_buckets now ioTokens elasticIOTokens diskWriteTokens
    diskReadTokens ioTokenCapacity elasticIOTokenCapacity diskWriteTokensCapacity false sg
  simp only [workClassArray.get, hr, he, hd, Bool.false_eq_true, if_false]
  exact ⟨⟨trivial, trivial, trivial⟩, min_le_right _ _, min_le_right _ _, min_le_right _ _⟩

end admission

/-! ## Late correction: `storeReplicatedWorkAdmittedLocked` -/

namespace admission

open WorkClass StoreWorkType

/-- C10. For every state, work type, `originalTokens` and admitted info,
`storeReplicatedWorkAdmittedLocked` (called, as the child granter's method of
that name calls it, with `canGrantAnother = false`) returns
`additional = l0WriteLM(WriteBytes) + l0IngestLM(IngestedBytes) - originalTokens`,
leaves both IO buckets lower by exactly `additional`, and leaves the disk-write
bucket lower by
`writeAmpLM(l0WriteLM(WriteBytes) + ingestLM(IngestedBytes)) - writeAmpLM(originalTokens)`,
all with the models held by the granter at the call. With
`canGrantAnother = true` the same corrected state is the one the grant loop then
starts from, and the value returned is the same `additional`. -/
theorem storeReplicatedWorkAdmittedLocked_correction {ρ : Type} (R : storeRequesters ρ)
    (fuel : Nat) (now : Int) (wt : StoreWorkType) (originalTokens : Int)
    (admittedInfo : storeReplicatedWorkAdmittedInfo) (sg : kvStoreTokenGranter) (env : ρ) :
    ∃ sg' : kvStoreTokenGranter,
      storeReplicatedWorkAdmittedLocked R fuel now wt originalTokens admittedInfo false sg env =
        some (sg.l0WriteLM.applyLinearModel admittedInfo.WriteBytes +
          sg.l0IngestLM.applyLinearModel admittedInfo.IngestedBytes - originalTokens, sg', env) ∧
      sg'.availableIOTokens.get RegularWorkClass =
        sg.availableIOTokens.get RegularWorkClass -
          (sg.l0WriteLM.applyLinearModel admittedInfo.WriteBytes +
            sg.l0IngestLM.applyLinearModel admittedInfo.IngestedBytes - originalTokens) ∧
      sg'.availableIOTokens.get ElasticWorkClass =
        sg.availableIOTokens.get ElasticWorkClass -
          (sg.l0WriteLM.applyLinearModel admittedInfo.WriteBytes +
            sg.l0IngestLM.applyLinearModel admittedInfo.IngestedBytes - originalTokens) ∧
      sg'.diskTokensAvailable.writeByteTokens =
        sg.diskTokensAvailable.writeByteTokens -
          (sg.writeAmpLM.applyLinearModel
              (sg.l0WriteLM.applyLinearModel admittedInfo.WriteBytes +
                sg.ingestLM.applyLinearModel admittedInfo.IngestedBytes) -
            sg.writeAmpLM.applyLinearModel originalTokens) ∧
      ∀ canGrantAnother : Bool,
        storeReplicatedWorkAdmittedLocked R fuel now wt originalTokens admittedInfo
            canGrantAnother sg env =
          if canGrantAnother = true ∧
              sg.l0WriteLM.applyLinearModel admittedInfo.WriteBytes +
                sg.l0IngestLM.applyLinearModel admittedInfo.IngestedBytes - originalTokens < 0 ∧
              ((exhaustedFunc (WorkClassFromStoreWorkType wt) sg = true ∧
                  exhaustedFunc (WorkClassFromStoreWorkType wt) sg' = false) ∨
                sg'.AlwaysTryGrantWhenAdmitted = true) then
            (tryGrantLocked R now fuel sg' env).map
              (fun p => (sg.l0WriteLM.applyLinearModel admittedInfo.WriteBytes +
                sg.l0IngestLM.applyLinearModel admittedInfo.IngestedBytes - originalTokens,
                p.1, p.2))
          else
            some (sg.l0WriteLM.applyLinearModel admittedInfo.WriteBytes +
              sg.l0IngestLM.applyLinearModel admittedInfo.IngestedBytes - originalTokens,
              sg', env) := by
  have f := subtractIOTokensLocked_frame now
    (sg.l0WriteLM.applyLinearModel admittedInfo.WriteBytes +
      sg.l0IngestLM.applyLinearModel admittedInfo.IngestedBytes - originalTokens)
    (sg.l0WriteLM.applyLinearModel admittedInfo.WriteBytes +
      sg.l0IngestLM.applyLinearModel admittedInfo.IngestedBytes - originalTokens) false sg
  have a := subtractIOTokensLocked_availableIOTokens now
    (sg.l0WriteLM.applyLinearModel admittedInfo.WriteBytes +
      sg.l0IngestLM.applyLinearModel admittedInfo.IngestedBytes - originalTokens)
    (sg.l0WriteLM.applyLinearModel admittedInfo.WriteBytes +
      sg.l0IngestLM.applyLinearModel admittedInfo.IngestedBytes - originalTokens) false sg
  simp only [] at f
  obtain ⟨-, -, f3, -, -, -, -, -, f9, f10⟩ := f
  refine ⟨((storeReplicatedWorkAdmittedLocked R fuel now wt originalTokens admittedInfo false
    sg env).map (fun r => r.2.1)).getD sg, ?_⟩
  cases wt <;>
  · simp only [storeReplicatedWorkAdmittedLocked, Bool.false_eq_true, false_and, if_false,
      reduceCtorEq, if_true, Option.map_some', Option.getD_some]
    refine ⟨trivial, ?_, ?_, ?_, ?_⟩
    · simp only [workClassArray.get, a]
    · simp only [workClassArray.get, a]
    · simp only [f3, f9, f10]
    · intro canGrantAnother
      by_cases h1 : canGrantAnother = true ∧
          sg.l0WriteLM.applyLinearModel admittedInfo.WriteBytes +
            sg.l0IngestLM.applyLinearModel admittedInfo.IngestedBytes - originalTokens < 0
      · rw [if_pos h1]
        split_ifs with h2 h3 h3
        · rfl
        · exact absurd ⟨h1.1, h1.2, h2⟩ h3
        · exact absurd h3.2.2 h2
        · rfl
      · rw [if_neg h1, if_neg (fun hc => h1 ⟨hc.1, hc.2.1⟩)]

/-- Witness for C10, the worked example of the comment in `tryGetLocked`: 50
tokens admitted under the write-amplification model `10x + 1` deduct 501
disk-write tokens; with the model then `5x + 1` and 200 bytes actually written,
the correction returns `200 - 50 = 150` additional IO tokens, takes them from
both IO buckets and deducts `1001 - 251 = 750` more disk-write tokens. -/
theorem storeReplicatedWorkAdmittedLocked_correction_witness :
    (tryGetLocked 5 50 RegularStoreWorkType
        (granterWith 100 100 1000 ⟨10, 1⟩)).2.diskTokensAvailable.writeByteTokens =
      1000 - 501 ∧
    ∃ sg' : kvStoreTokenGranter,
      storeReplicatedWorkAdmittedLocked queueRequesters 0 9 RegularStoreWorkType 50
          { WriteBytes := 200, IngestedBytes := 0 } false
          (setLinearModels ⟨1, 0⟩ ⟨1, 0⟩ ⟨1, 0⟩ ⟨5, 1⟩
            (tryGetLocked 5 50 RegularStoreWorkType (granterWith 100 100 1000 ⟨10, 1⟩)).2)
          { regular := [], snapshotIngest := [], elastic := [] } =
        some (150, sg', { regular := [], snapshotIngest := [], elastic := [] }) ∧
      sg'.availableIOTokens.get RegularWorkClass = 50 - 150 ∧
      sg'.availableIOTokens.get ElasticWorkClass = 50 - 150 ∧
      sg'.diskTokensAvailable.writeByteTokens = 499 - 750 := by
  obtain ⟨sg', h1, h2, h3, h4, -⟩ :=
    storeReplicatedWorkAdmittedLocked_correction queueRequesters 0 9 RegularStoreWorkType 50
      { WriteBytes := 200, IngestedBytes := 0 }
      (setLinearModels ⟨1, 0⟩ ⟨1, 0⟩ ⟨1, 0⟩ ⟨5, 1⟩
        (tryGetLocked 5 50 RegularStoreWorkType (granterWith 100 100 1000 ⟨10, 1⟩)).2)
      { regular := [], snapshotIngest := [], elastic := [] }
  have e : (setLinearModels ⟨1, 0⟩ ⟨1, 0⟩ ⟨1, 0⟩ ⟨5, 1⟩
      (tryGetLocked 5 50 RegularStoreWorkType
        (granterWith 100 100 1000 ⟨10, 1⟩)).2).l0WriteLM.applyLinearModel 200 +
      (setLinearModels ⟨1, 0⟩ ⟨1, 0⟩ ⟨1, 0⟩ ⟨5, 1⟩
        (tryGetLocked 5 50 RegularStoreWorkType
          (granterWith 100 100 1000 ⟨10, 1⟩)).2).l0IngestLM.applyLinearModel 0 - 50 = 150 := by
    decide
  exact ⟨by decide, sg', h1.trans (by rw [e]), h2.trans (by decide), h3.trans (by decide),
    h4.trans (by decide)⟩

end admission

/-! ## Late correction and the grant that may follow it -/

namespace admission

open WorkClass StoreWorkType

/-- `storeReplicatedWorkAdmittedLocked` in two steps: the corrected state `sg'`
(the result for `canGrantAnother = false`), and, for any `canGrantAnother`, the
guarded call of `tryGrantLocked` on `sg'`. -/
theorem storeReplicatedWorkAdmittedLocked_unfold {ρ : Type} (R : storeRequesters ρ)
    (fuel : Nat) (now : Int) (wt : StoreWorkType) (originalTokens : Int)
    (admittedInfo : storeReplicatedWorkAdmittedInfo) (sg : kvStoreTokenGranter) (env : ρ) :
    ∃ sg' : kvStoreTokenGranter,
      storeReplicatedWorkAdmittedLocked R fuel now wt originalTokens admittedInfo false sg env =
        some (sg.l0WriteLM.applyLinearModel admittedInfo.WriteBytes +
          sg.l0IngestLM.applyLinearModel admittedInfo.IngestedBytes - originalTokens, sg', env) ∧
      sg'.availableIOTokens.get RegularWorkClass =
        sg.availableIOTokens.get RegularWorkClass -
          (sg.l0WriteLM.applyLinearModel admittedInfo.WriteBytes +
            sg.l0IngestLM.applyLinearModel admittedInfo.IngestedBytes - originalTokens) ∧
      sg'.availableIOTokens.get ElasticWorkClass =
        sg.availableIOTokens.get ElasticWorkClass -
          (sg.l0WriteLM.applyLinearModel admittedInfo.WriteBytes +
            sg.l0IngestLM.applyLinearModel admittedInfo.IngestedBytes - originalTokens) ∧
      sg'.diskTokensAvailable.writeByteTokens =
        sg.diskTokensAvailable.writeByteTokens -
          (sg.writeAmpLM.applyLinearModel
              (sg.l0WriteLM.applyLinearModel admittedInfo.WriteBytes +
                sg.ingestLM.applyLinearModel admittedInfo.IngestedBytes) -
            sg.writeAmpLM.applyLinearModel originalTokens) ∧
      ∀ canGrantAnother : Bool,
        storeReplicatedWorkAdmittedLocked R fuel now wt originalTokens admittedInfo
            canGrantAnother sg env =
          if canGrantAnother = true ∧
              sg.l0WriteLM.applyLinearModel admittedInfo.WriteBytes +
                sg.l0IngestLM.applyLinearModel admittedInfo.IngestedBytes - originalTokens < 0 ∧
              ((exhaustedFunc (WorkClassFromStoreWorkType wt) sg = true ∧
                  exhaustedFunc (WorkClassFromStoreWorkType wt) sg' = false) ∨
                sg'.AlwaysTryGrantWhenAdmitted = true) then
            (tryGrantLocked R now fuel sg' env).map
              (fun p => (sg.l0WriteLM.applyLinearModel admittedInfo.WriteBytes +
                sg.l0IngestLM.applyLinearModel admittedInfo.IngestedBytes - originalTokens,
                p.1, p.2))
          else
            some (sg.l0WriteLM.applyLinearModel admittedInfo.WriteBytes +
              sg.l0IngestLM.applyLinearModel admittedInfo.IngestedBytes - originalTokens,
              sg', env) := by
  have f := subtractIOTokensLocked_frame now
    (sg.l0WriteLM.applyLinearModel admittedInfo.WriteBytes +
      sg.l0IngestLM.applyLinearModel admittedInfo.IngestedBytes - originalTokens)
    (sg.l0WriteLM.applyLinearModel admittedInfo.WriteBytes +
      sg.l0IngestLM.applyLinearModel admittedInfo.IngestedBytes - originalTokens) false sg
  have a := subtractIOTokensLocked_availableIOTokens now
    (sg.l0WriteLM.applyLinearModel admittedInfo.WriteBytes +
      sg.l0IngestLM.applyLinearModel admittedInfo.IngestedBytes - originalTokens)
    (sg.l0WriteLM.applyLinearModel admittedInfo.WriteBytes +
      sg.l0IngestLM.applyLinearModel admittedInfo.IngestedBytes - originalTokens) false sg
  simp only [] at f
  obtain ⟨-, -, f3, -, -, -, -, -, f9, f10⟩ := f
  refine ⟨((storeReplicatedWorkAdmittedLocked R fuel now wt originalTokens admittedInfo false
    sg env).map (fun r => r.2.1)).getD sg, ?_⟩
  cases wt <;>
  · simp only [storeReplicatedWorkAdmittedLocked, Bool.false_eq_true, false_and, if_false,
      reduceCtorEq, if_true, Option.map_some', Option.getD_some]
    refine ⟨trivial, ?_, ?_, ?_, ?_⟩
    · simp only [workClassArray.get, a]
    · simp only [workClassArray.get, a]
    · simp only [f3, f9, f10]
    · intro canGrantAnother
      by_cases h1 : canGrantAnother = true ∧
          sg.l0WriteLM.applyLinearModel admittedInfo.WriteBytes +
            sg.l0IngestLM.applyLinearModel admittedInfo.IngestedBytes - originalTokens < 0
      · rw [if_pos h1]
        split_ifs with h2 h3 h3
        · rfl
        · exact absurd ⟨h1.1, h1.2, h2⟩ h3
        · exact absurd h3.2.2 h2
        · rfl
      · rw [if_neg h1, if_neg (fun hc => h1 ⟨hc.1, hc.2.1⟩)]

/-- C11, counterexample: elastic work is corrected while only the disk-write
bucket is exhausted (-10, with 100 regular and 100 elastic IO tokens). With
`l0IngestLM = x + 5`, `ingestLM = x + 1`, `writeAmpLM = 10x + 1`, 3 original
tokens and no bytes, the correction needs 2 more IO tokens
(`additionalL0TokensNeeded = 2`) but credits 20 disk-write tokens, so the
granter goes from exhausted to non-exhausted for elastic work. Called with
`canGrantAnother = true` and an elastic request waiting, it returns without
entering `tryGrantLocked` (the bound 0 on the grant loop is never reached and
the waiting request is still queued), although `tryGrantLockedOne` would have
granted it. -/
theorem storeWriteDone_no_grant_after_disk_only_credit :
    exhaustedFunc ElasticWorkClass
        (setLinearModels ⟨1, 0⟩ ⟨1, 5⟩ ⟨1, 1⟩ ⟨10, 1⟩ (granterWith 100 100 (-10) ⟨10, 1⟩)) =
      true ∧
    (∃ sg' : kvStoreTokenGranter,
      storeReplicatedWorkAdmittedLocked queueRequesters 0 9 ElasticStoreWorkType 3
          { WriteBytes := 0, IngestedBytes := 0 } true
          (setLinearModels ⟨1, 0⟩ ⟨1, 5⟩ ⟨1, 1⟩ ⟨10, 1⟩ (granterWith 100 100 (-10) ⟨10, 1⟩))
          { regular := [], snapshotIngest := [], elastic := [1] } =
        some (2, sg', { regular := [], snapshotIngest := [], elastic := [1] }) ∧
      sg'.availableIOTokens = { regular := 98, elastic := 98 } ∧
      sg'.diskTokensAvailable.writeByteTokens = 10 ∧
      exhaustedFunc ElasticWorkClass sg' = false ∧
      (tryGrantLockedOne queueRequesters 9 sg'
          { regular := [], snapshotIngest := [], elastic := [1] }).res = true) ∧
    tryGrantLocked queueRequesters 9 0
        (setLinearModels ⟨1, 0⟩ ⟨1, 5⟩ ⟨1, 1⟩ ⟨10, 1⟩ (granterWith 100 100 (-10) ⟨10, 1⟩))
        { regular := [], snapshotIngest := [], elastic := [1] } = none := by
  refine ⟨by decide, ⟨((storeReplicatedWorkAdmittedLocked queueRequesters 0 9
    ElasticStoreWorkType 3 { WriteBytes := 0, IngestedBytes := 0 } true
    (setLinearModels ⟨1, 0⟩ ⟨1, 5⟩ ⟨1, 1⟩ ⟨10, 1⟩ (granterWith 100 100 (-10) ⟨10, 1⟩))
    { regular := [], snapshotIngest := [], elastic := [1] }).map (fun r => r.2.1)).getD
    (granterWith 0 0 0 ⟨0, 0⟩), ?_⟩, rfl⟩
  decide

/-- C11, amended. In `storeReplicatedWorkAdmittedLocked` called with
`canGrantAnother = true`, let `sg'` be the granter after the correction. When
the correction returns IO tokens (`additionalL0TokensNeeded < 0`) and takes the
granter from exhausted to non-exhausted for the work's class, `tryGrantLocked`
is invoked on `sg'`. This covers every such transition in which an IO bucket
was exhausted before the call (regular IO `≤ 0`, or elastic IO `≤ 0` for
elastic-class work). When `additionalL0TokensNeeded ≥ 0`, `tryGrantLocked` is
not invoked. -/
theorem storeWriteDone_tryGrant_after_io_credit {ρ : Type} (R : storeRequesters ρ)
    (fuel : Nat) (now : Int) (wt : StoreWorkType) (originalTokens : Int)
    (admittedInfo : storeReplicatedWorkAdmittedInfo) (sg : kvStoreTokenGranter) (env : ρ) :
    ∃ sg' : kvStoreTokenGranter,
      storeReplicatedWorkAdmittedLocked R fuel now wt originalTokens admittedInfo false sg env =
        some (sg.l0WriteLM.applyLinearModel admittedInfo.WriteBytes +
          sg.l0IngestLM.applyLinearModel admittedInfo.IngestedBytes - originalTokens, sg', env) ∧
      (sg.l0WriteLM.applyLinearModel admittedInfo.WriteBytes +
            sg.l0IngestLM.applyLinearModel admittedInfo.IngestedBytes - originalTokens < 0 →
        exhaustedFunc (WorkClassFromStoreWorkType wt) sg = true →
        exhaustedFunc (WorkClassFromStoreWorkType wt) sg' = false →
        storeReplicatedWorkAdmittedLocked R fuel now wt originalTokens admittedInfo true sg env =
          (tryGrantLocked R now fuel sg' env).map
            (fun p => (sg.l0WriteLM.applyLinearModel admittedInfo.WriteBytes +
              sg.l0IngestLM.applyLinearModel admittedInfo.IngestedBytes - originalTokens,
              p.1, p.2))) ∧
      ((sg.availableIOTokens.get RegularWorkClass ≤ 0 ∨
          (WorkClassFromStoreWorkType wt = ElasticWorkClass ∧
            sg.availableIOTokens.get ElasticWorkClass ≤ 0)) →
        exhaustedFunc (WorkClassFromStoreWorkType wt) sg' = false →
        storeReplicatedWorkAdmittedLocked R fuel now wt originalTokens admittedInfo true sg env =
          (tryGrantLocked R now fuel sg' env).map
            (fun p => (sg.l0WriteLM.applyLinearModel admittedInfo.WriteBytes +
              sg.l0IngestLM.applyLinearModel admittedInfo.IngestedBytes - originalTokens,
              p.1, p.2))) ∧
      (¬ (sg.l0WriteLM.applyLinearModel admittedInfo.WriteBytes +
            sg.l0IngestLM.applyLinearModel admittedInfo.IngestedBytes - originalTokens < 0) →
        storeReplicatedWorkAdmittedLocked R fuel now wt originalTokens admittedInfo true sg env =
          some (sg.l0WriteLM.applyLinearModel admittedInfo.WriteBytes +
            sg.l0IngestLM.applyLinearModel admittedInfo.IngestedBytes - originalTokens,
            sg', env)) := by
  obtain ⟨sg', h0, hr, he, -, hc⟩ :=
    storeReplicatedWorkAdmittedLocked_unfold R fuel now wt originalTokens admittedInfo sg env
  have key : sg.l0WriteLM.applyLinearModel admittedInfo.WriteBytes +
        sg.l0IngestLM.applyLinearModel admittedInfo.IngestedBytes - originalTokens < 0 →
      exhaustedFunc (WorkClassFromStoreWorkType wt) sg = true →
      exhaustedFunc (WorkClassFromStoreWorkType wt) sg' = false →
      storeReplicatedWorkAdmittedLocked R fuel now wt originalTokens admittedInfo true sg env =
        (tryGrantLocked R now fuel sg' env).map
          (fun p => (sg.l0WriteLM.applyLinearModel admittedInfo.WriteBytes +
            sg.l0IngestLM.applyLinearModel admittedInfo.IngestedBytes - originalTokens,
            p.1, p.2)) := by
    intro h1 h2 h3
    rw [hc true, if_pos ⟨rfl, h1, Or.inl ⟨h2, h3⟩⟩]
  refine ⟨sg', h0, key, ?_, ?_⟩
  · intro hb ha
    have ha' := ha
    simp only [exhaustedFunc, Bool.or_eq_false_iff, Bool.and_eq_false_imp,
      decide_eq_false_iff_not, decide_eq_true_eq, not_le] at ha'
    obtain ⟨ha1, ha2⟩ := ha'
    rcases hb with hb | ⟨hb1, hb2⟩
    · refine key ?_ ?_ ha
      · rw [hr] at ha1
        omega
      · simp [exhaustedFunc, hb]
    · refine key ?_ ?_ ha
      · have ha3 := (ha2 hb1).2
        rw [he] at ha3
        omega
      · simp [exhaustedFunc, hb1, hb2]
  · intro hn
    rw [hc true, if_neg (fun hx => hn hx.2.1)]

/-- Witness for C11: a credit of 40 IO tokens takes the regular bucket from -5
to 35 while a regular request waits. With `canGrantAnother = true` the grant
loop is entered (with the bound 0 the result is "bound reached") and, given
room, grants the waiting request one token. -/
theorem storeWriteDone_tryGrant_after_io_credit_witness :
    storeReplicatedWorkAdmittedLocked queueRequesters 0 9 RegularStoreWorkType 50
        { WriteBytes := 10, IngestedBytes := 0 } true (granterWith (-5) 100 1000 ⟨10, 1⟩)
        { regular := [1], snapshotIngest := [], elastic := [] } = none ∧
    (storeReplicatedWorkAdmittedLocked queueRequesters 3 9 RegularStoreWorkType 50
        { WriteBytes := 10, IngestedBytes := 0 } true (granterWith (-5) 100 1000 ⟨10, 1⟩)
        { regular := [1], snapshotIngest := [], elastic := [] }).map
      (fun r => (r.1, r.2.1.availableIOTokens.regular, r.2.2)) =
      some (-40, 34, { regular := [], snapshotIngest := [], elastic := [] }) := by
  obtain ⟨sg', h0, h1, -, -⟩ :=
    storeWriteDone_tryGrant_after_io_credit queueRequesters 0 9 RegularStoreWorkType 50
      { WriteBytes := 10, IngestedBytes := 0 } (granterWith (-5) 100 1000 ⟨10, 1⟩)
      { regular := [1], snapshotIngest := [], elastic := [] }
  have hs : sg' = ((storeReplicatedWorkAdmittedLocked queueRequesters 0 9 RegularStoreWorkType 50
      { WriteBytes := 10, IngestedBytes := 0 } false (granterWith (-5) 100 1000 ⟨10, 1⟩)
      { regular := [1], snapshotIngest := [], elastic := [] }).map
      (fun r => r.2.1)).getD (granterWith 0 0 0 ⟨0, 0⟩) := by
    rw [h0]
    rfl
  have h := h1 (by decide) (by decide) (by rw [hs]; decide)
  refine ⟨?_, by decide⟩
  rw [h]
  rfl

end admission

/-! ## Timestamps -/

namespace kvserver

theorem Timestamp.Less_irrefl (t : Timestamp) : t.Less t = false := by
  simp [Timestamp.Less]

theorem Timestamp.Less_asymm (t s : Timestamp) (h : t.Less s = true) : s.Less t = false := by
  simp only [Timestamp.Less, Bool.or_eq_true, Bool.and_eq_true, decide_eq_true_eq] at h
  simp only [Timestamp.Less, Bool.or_eq_false_iff, Bool.and_eq_false_imp,
    decide_eq_false_iff_not, decide_eq_true_eq]
  constructor
  · rcases h with h | ⟨h, -⟩ <;> omega
  · intro h1
    rcases h with h | ⟨-, h⟩ <;> omega

/-- `Forward` is the maximum: the result is not below either argument and is one
of them. -/
theorem Timestamp.Forward_max (t s : Timestamp) :
    (t.Forward s).Less s = false ∧ (t.Forward s).Less t = false ∧
      (t.Forward s = t ∨ t.Forward s = s) := by
  unfold Timestamp.Forward
  by_cases h : t.Less s = true
  · rw [if_pos h]
    exact ⟨Timestamp.Less_irrefl s, Timestamp.Less_asymm t s h, Or.inr rfl⟩
  · rw [if_neg h]
    exact ⟨by simpa using h, Timestamp.Less_irrefl t, Or.inl rfl⟩

end kvserver

/-! ## The order of the request gates -/

namespace kvserver

/-- While a merge is in progress `shouldWaitForPendingMerge` never reaches
`log.Fatal`. -/
theorem shouldWaitForPendingMerge_ok (X : replicaExternals) (ba : BatchRequest)
    (desc : RangeDescriptor) (mergeTxnID : Nat) :
    ∃ e, shouldWaitForPendingMerge X ba desc true mergeTxnID = Except.ok e := by
  unfold shouldWaitForPendingMerge
  simp only [Bool.not_true, Bool.false_eq_true, if_false]
  split_ifs
  · exact ⟨_, rfl⟩
  · split
    · split_ifs
      · split
        · split_ifs <;> exact ⟨_, rfl⟩
        · exact ⟨_, rfl⟩
      · exact ⟨_, rfl⟩
    · exact ⟨_, rfl⟩

/-- C12, counterexample: a write below the GC threshold (timestamp 200,
threshold 450) arrives while a merge is in progress and latches are held.
Taken alone, the merge gate fails with `MergeInProgressError` and the
GC-threshold gate fails with `BatchTimestampBeforeGCError`;
`checkExecutionCanProceedRWOrAdmin` returns the merge error. -/
theorem checkExecutionCanProceedRWOrAdmin_merge_before_gc :
    mergeGate (sampleExternals (sampleLeaseStatus LeaseState.LeaseState_VALID) none)
        (sampleReplica ⟨450, 0⟩ true)
        { Requests := [Request.Other "Put"], Txn := none,
          ReadConsistency := ReadConsistencyType.CONSISTENT, Timestamp := ⟨200, 0⟩ } true =
      some kvError.MergeInProgressError ∧
    gcThresholdGate (sampleExternals (sampleLeaseStatus LeaseState.LeaseState_VALID) none)
        (sampleReplica ⟨450, 0⟩ true)
        { Requests := [Request.Other "Put"], Txn := none,
          ReadConsistency := ReadConsistencyType.CONSISTENT, Timestamp := ⟨200, 0⟩ }
        (sampleLeaseStatus LeaseState.LeaseState_VALID) { Key := [1], EndKey := [2] } =
      some (kvError.BatchTimestampBeforeGCError ⟨200, 0⟩ ⟨450, 0⟩ false 3 [1] [9]) ∧
    checkExecutionCanProceedRWOrAdmin
        (sampleExternals (sampleLeaseStatus LeaseState.LeaseState_VALID) none)
        (sampleReplica ⟨450, 0⟩ true)
        { Requests := [Request.Other "Put"], Txn := none,
          ReadConsistency := ReadConsistencyType.CONSISTENT, Timestamp := ⟨200, 0⟩ } true =
      Except.ok (LeaseStatus.zero, some kvError.MergeInProgressError) := by
  refine ⟨by decide, by decide, rfl⟩

/-- C12, amended. On the read-write/admin path the gates are applied in the
order initialization, destroy, span-in-range, lease, merge, GC threshold (the
GC-threshold gate runs after the storage snapshot, hence after the merge gate):
once the span of the batch is known, `checkExecutionCanProceedRWOrAdmin`
returns the error of the first failing gate in this order with a zero lease
status, and the status of the lease check when every gate passes. -/
theorem checkExecutionCanProceedRWOrAdmin_gate_order (X : replicaExternals) (r : Replica)
    (ba : BatchRequest) (holdingLatches : Bool) :
    checkExecutionCanProceedRWOrAdmin X r ba holdingLatches =
      match X.keysRange ba.Requests with
      | Except.error err => Except.ok (LeaseStatus.zero, some err)
      | Except.ok rSpan =>
        Except.ok
          (match firstError
              [initializationGate r, r.destroyStatusErr,
                checkSpanInRange X rSpan r.desc r.lease, (checkLease X r ba).2,
                mergeGate X r ba holdingLatches,
                gcThresholdGate X r ba (checkLease X r ba).1 rSpan] with
          | some err => (LeaseStatus.zero, some err)
          | none => ((checkLease X r ba).1, none)) := by
  cases h1 : X.keysRange ba.Requests with
  | error err =>
    simp [checkExecutionCanProceedRWOrAdmin, checkExecutionCanProceedBeforeStorageSnapshot, h1]
  | ok rSpan =>
    by_cases hI : r.IsInitialized = true
    · cases hd : r.destroyStatusErr with
      | some err =>
        simp [checkExecutionCanProceedRWOrAdmin, checkExecutionCanProceedBeforeStorageSnapshot,
          h1, hI, hd, firstError, initializationGate]
      | none =>
        cases hs : checkSpanInRange X rSpan r.desc r.lease with
        | some err =>
          simp [checkExecutionCanProceedRWOrAdmin, checkExecutionCanProceedBeforeStorageSnapshot,
            h1, hI, hd, hs, firstError, initializationGate]
        | none =>
          rcases hl : checkLease X r ba with ⟨st, _ | err⟩
          · by_cases hm : (r.mergeInProgress && holdingLatches) = true
            · have hmp : r.mergeInProgress = true := by
                simp only [Bool.and_eq_true] at hm
                exact hm.1
              obtain ⟨e, he⟩ := shouldWaitForPendingMerge_ok X ba r.desc r.mergeTxnID
              rw [← hmp] at he
              cases e with
              | some err =>
                simp [checkExecutionCanProceedRWOrAdmin,
                  checkExecutionCanProceedBeforeStorageSnapshot, h1, hI, hd, hs, hl, hm, he,
                  firstError, initializationGate, mergeGate]
              | none =>
                cases hg : gcThresholdGate X r ba st rSpan with
                | some err =>
                  have hg' := hg
                  unfold gcThresholdGate at hg'
                  simp [checkExecutionCanProceedRWOrAdmin,
                    checkExecutionCanProceedBeforeStorageSnapshot,
                    checkExecutionCanProceedAfterStorageSnapshot, h1, hI, hd, hs, hl, hm, he,
                    hg, hg', firstError, initializationGate, mergeGate]
                | none =>
                  have hg' := hg
                  unfold gcThresholdGate at hg'
                  simp [checkExecutionCanProceedRWOrAdmin,
                    checkExecutionCanProceedBeforeStorageSnapshot,
                    checkExecutionCanProceedAfterStorageSnapshot, h1, hI, hd, hs, hl, hm, he,
                    hg, hg', firstError, initializationGate, mergeGate]
            · cases hg : gcThresholdGate X r ba st rSpan with
              | some err =>
                have hg' := hg
                unfold gcThresholdGate at hg'
                simp [checkExecutionCanProceedRWOrAdmin,
                  checkExecutionCanProceedBeforeStorageSnapshot,
                  checkExecutionCanProceedAfterStorageSnapshot, h1, hI, hd, hs, hl, hm,
                  hg, hg', firstError, initializationGate, mergeGate]
              | none =>
                have hg' := hg
                unfold gcThresholdGate at hg'
                simp [checkExecutionCanProceedRWOrAdmin,
                  checkExecutionCanProceedBeforeStorageSnapshot,
                  checkExecutionCanProceedAfterStorageSnapshot, h1, hI, hd, hs, hl, hm,
                  hg, hg', firstError, initializationGate, mergeGate]
          · simp [checkExecutionCanProceedRWOrAdmin, checkExecutionCanProceedBeforeStorageSnapshot,
              h1, hI, hd, hs, hl, firstError, initializationGate]
    · simp [checkExecutionCanProceedRWOrAdmin, checkExecutionCanProceedBeforeStorageSnapshot,
        h1, hI, firstError, initializationGate]

end kvserver

/-! ## The GC-threshold gate -/

namespace kvserver

/-- C13. A read accepted by `checkTSAboveGCThreshold` at timestamp `T` has
`threshold < T`, where `threshold` is the value of `getImpliedGCThreshold`; so
`T > threshold` under strict enforcement, and in particular `T ≥ threshold`
(`T` is not below it) when the request is admin or the range opts out. Every
request whose timestamp is not above the threshold, in particular every
request below it, is rejected with a `BatchTimestampBeforeGCError` carrying
that timestamp and threshold. -/
theorem checkTSAboveGCThreshold_accepts_iff_above (X : replicaExternals) (r : Replica)
    (ts : Timestamp) (st : LeaseStatus) (isAdmin : Bool) (rspan : Span)
    (spanConfigExplicitlySet ignoreStrictEnforcement : Bool) (gcThreshold : Timestamp)
    (cachedProtectedTS : cachedProtectedTimestampState) (confTTL : Int)
    (desc : RangeDescriptor) (confSpan : Span) (excludeDataFromBackup : Bool) :
    (checkTSAboveGCThreshold X r ts st isAdmin rspan spanConfigExplicitlySet
          ignoreStrictEnforcement gcThreshold cachedProtectedTS confTTL desc confSpan
          excludeDataFromBackup = none ↔
      (getImpliedGCThreshold X r st isAdmin spanConfigExplicitlySet ignoreStrictEnforcement
        gcThreshold cachedProtectedTS confTTL).Less ts = true) ∧
    (checkTSAboveGCThreshold X r ts st isAdmin rspan spanConfigExplicitlySet
          ignoreStrictEnforcement gcThreshold cachedProtectedTS confTTL desc confSpan
          excludeDataFromBackup = none →
      ts.Less (getImpliedGCThreshold X r st isAdmin spanConfigExplicitlySet
        ignoreStrictEnforcement gcThreshold cachedProtectedTS confTTL) = false) ∧
    ((getImpliedGCThreshold X r st isAdmin spanConfigExplicitlySet ignoreStrictEnforcement
          gcThreshold cachedProtectedTS confTTL).Less ts = false →
      checkTSAboveGCThreshold X r ts st isAdmin rspan spanConfigExplicitlySet
          ignoreStrictEnforcement gcThreshold cachedProtectedTS confTTL desc confSpan
          excludeDataFromBackup =
        some (kvError.BatchTimestampBeforeGCError ts
          (getImpliedGCThreshold X r st isAdmin spanConfigExplicitlySet ignoreStrictEnforcement
            gcThreshold cachedProtectedTS confTTL)
          (X.excludeReplicaFromBackup rspan excludeDataFromBackup confSpan)
          desc.RangeID desc.StartKey desc.EndKey)) ∧
    (ts.Less (getImpliedGCThreshold X r st isAdmin spanConfigExplicitlySet
          ignoreStrictEnforcement gcThreshold cachedProtectedTS confTTL) = true →
      checkTSAboveGCThreshold X r ts st isAdmin rspan spanConfigExplicitlySet
          ignoreStrictEnforcement gcThreshold cachedProtectedTS confTTL desc confSpan
          excludeDataFromBackup =
        some (kvError.BatchTimestampBeforeGCError ts
          (getImpliedGCThreshold X r st isAdmin spanConfigExplicitlySet ignoreStrictEnforcement
            gcThreshold cachedProtectedTS confTTL)
          (X.excludeReplicaFromBackup rspan excludeDataFromBackup confSpan)
          desc.RangeID desc.StartKey desc.EndKey)) := by
  have rej : (getImpliedGCThreshold X r st isAdmin spanConfigExplicitlySet
        ignoreStrictEnforcement gcThreshold cachedProtectedTS confTTL).Less ts = false →
      checkTSAboveGCThreshold X r ts st isAdmin rspan spanConfigExplicitlySet
          ignoreStrictEnforcement gcThreshold cachedProtectedTS confTTL desc confSpan
          excludeDataFromBackup =
        some (kvError.BatchTimestampBeforeGCError ts
          (getImpliedGCThreshold X r st isAdmin spanConfigExplicitlySet ignoreStrictEnforcement
            gcThreshold cachedProtectedTS confTTL)
          (X.excludeReplicaFromBackup rspan excludeDataFromBackup confSpan)
          desc.RangeID desc.StartKey desc.EndKey) := by
    intro h
    simp [checkTSAboveGCThreshold, h]
  have acc : checkTSAboveGCThreshold X r ts st isAdmin rspan spanConfigExplicitlySet
        ignoreStrictEnforcement gcThreshold cachedProtectedTS confTTL desc confSpan
        excludeDataFromBackup = none ↔
      (getImpliedGCThreshold X r st isAdmin spanConfigExplicitlySet ignoreStrictEnforcement
        gcThreshold cachedProtectedTS confTTL).Less ts = true := by
    constructor
    · intro h
      by_contra hc
      have hc' : (getImpliedGCThreshold X r st isAdmin spanConfigExplicitlySet
          ignoreStrictEnforcement gcThreshold cachedProtectedTS confTTL).Less ts = false := by
        simpa using hc
      rw [rej hc'] at h
      exact absurd h (by simp)
    · intro h
      simp [checkTSAboveGCThreshold, h]
  refine ⟨acc, ?_, rej, ?_⟩
  · intro h
    exact Timestamp.Less_asymm _ _ (acc.mp h)
  · intro h
    exact rej (Timestamp.Less_asymm _ _ h)

/-- C14, counterexample: the request is not admin, strict GC enforcement is
enabled, the span config is explicitly set, `IgnoreStrictEnforcement` is false,
the lease status is VALID and the cached protected-timestamp state was read
(at 400) after the lease start (100), so none of the conditions the claim
lists holds; the TTL is 100 and there is no protection record, so
`m = readAt - TTL = 300` and `max(gcThreshold, m) = 300`, which is what the
replica without testing knobs returns. With the store testing knob
`IgnoreStrictGCEnforcement` set, `getImpliedGCThreshold` returns the on-disk
threshold 50 instead. -/
theorem getImpliedGCThreshold_testing_knob :
    (sampleReplica ⟨50, 0⟩ false).StrictGCEnforcement = true ∧
    (sampleLeaseStatus LeaseState.LeaseState_VALID).State = LeaseState.LeaseState_VALID ∧
    Timestamp.Less ⟨400, 0⟩ (sampleLeaseStatus LeaseState.LeaseState_VALID).Lease.Start =
      false ∧
    getImpliedGCThreshold (sampleExternals (sampleLeaseStatus LeaseState.LeaseState_VALID) none)
        (sampleReplica ⟨50, 0⟩ false) (sampleLeaseStatus LeaseState.LeaseState_VALID)
        false true false ⟨50, 0⟩
        { readAt := ⟨400, 0⟩, earliestProtectionTimestamp := ⟨0, 0⟩ } 100 = ⟨300, 0⟩ ∧
    getImpliedGCThreshold (sampleExternals (sampleLeaseStatus LeaseState.LeaseState_VALID) none)
        { sampleReplica ⟨50, 0⟩ false with
          TestingKnobs := some { IgnoreStrictGCEnforcement := true } }
        (sampleLeaseStatus LeaseState.LeaseState_VALID)
        false true false ⟨50, 0⟩
        { readAt := ⟨400, 0⟩, earliestProtectionTimestamp := ⟨0, 0⟩ } 100 = ⟨50, 0⟩ := by
  decide

/-- C14, amended. `getImpliedGCThreshold` returns the on-disk GC threshold
unchanged when the request is admin, when strict GC enforcement is disabled,
when the range opts out (span config not explicitly set, the store testing
knob `IgnoreStrictGCEnforcement`, or `IgnoreStrictEnforcement`), when the lease
status is not VALID, or when the cached protected-timestamp state was read
before the lease start. Otherwise it returns the maximum (`Forward`) of the GC threshold and
`m`, where `m` is `CalculateThreshold(readAt, TTL)`, lowered to
`earliestProtectionTimestamp.Prev()` when a protection record exists and that
is smaller. In every case the result is not below the on-disk GC threshold. -/
theorem getImpliedGCThreshold_cases (X : replicaExternals) (r : Replica) (st : LeaseStatus)
    (isAdmin spanConfigExplicitlySet ignoreStrictEnforcement : Bool) (gcThreshold : Timestamp)
    (cachedProtectedTS : cachedProtectedTimestampState) (confTTL : Int) :
    getImpliedGCThreshold X r st isAdmin spanConfigExplicitlySet ignoreStrictEnforcement
        gcThreshold cachedProtectedTS confTTL =
      (if isAdmin = true ∨ r.StrictGCEnforcement = false ∨ spanConfigExplicitlySet = false ∨
          r.TestingKnobs.map (fun k => k.IgnoreStrictGCEnforcement) = some true ∨
          ignoreStrictEnforcement = true ∨ st.State ≠ LeaseState.LeaseState_VALID ∨
          cachedProtectedTS.readAt.Less st.Lease.Start = true then
        gcThreshold
      else
        (if cachedProtectedTS.earliestProtectionTimestamp.IsEmpty = false ∧
            (X.Prev cachedProtectedTS.earliestProtectionTimestamp).Less
              (X.CalculateThreshold cachedProtectedTS.readAt confTTL) = true then
          X.Prev cachedProtectedTS.earliestProtectionTimestamp
        else X.CalculateThreshold cachedProtectedTS.readAt confTTL).Forward gcThreshold) ∧
    (getImpliedGCThreshold X r st isAdmin spanConfigExplicitlySet ignoreStrictEnforcement
        gcThreshold cachedProtectedTS confTTL).Less gcThreshold = false := by
  have shape : getImpliedGCThreshold X r st isAdmin spanConfigExplicitlySet
        ignoreStrictEnforcement gcThreshold cachedProtectedTS confTTL =
      (if isAdmin = true ∨ r.StrictGCEnforcement = false ∨ spanConfigExplicitlySet = false ∨
          r.TestingKnobs.map (fun k => k.IgnoreStrictGCEnforcement) = some true ∨
          ignoreStrictEnforcement = true ∨ st.State ≠ LeaseState.LeaseState_VALID ∨
          cachedProtectedTS.readAt.Less st.Lease.Start = true then
        gcThreshold
      else
        (if cachedProtectedTS.earliestProtectionTimestamp.IsEmpty = false ∧
            (X.Prev cachedProtectedTS.earliestProtectionTimestamp).Less
              (X.CalculateThreshold cachedProtectedTS.readAt confTTL) = true then
          X.Prev cachedProtectedTS.earliestProtectionTimestamp
        else X.CalculateThreshold cachedProtectedTS.readAt confTTL).Forward gcThreshold) := by
    unfold getImpliedGCThreshold shouldIgnoreStrictGCEnforcement
    cases isAdmin <;> cases hS : r.StrictGCEnforcement <;> cases spanConfigExplicitlySet <;>
      cases ignoreStrictEnforcement <;> rcases hK : r.TestingKnobs with _ | ⟨_ | _⟩ <;>
      cases hE : cachedProtectedTS.earliestProtectionTimestamp.IsEmpty <;>
      by_cases hV : st.State = LeaseState.LeaseState_VALID <;>
      by_cases hL : cachedProtectedTS.readAt.Less st.Lease.Start = true <;>
      by_cases hP : (X.Prev cachedProtectedTS.earliestProtectionTimestamp).Less
        (X.CalculateThreshold cachedProtectedTS.readAt confTTL) = true <;>
      simp [hV, hL, hP]
  refine ⟨shape, ?_⟩
  rw [shape]
  split_ifs
  · exact Timestamp.Less_irrefl gcThreshold
  · exact (Timestamp.Forward_max _ _).1
  · exact (Timestamp.Forward_max _ _).1

end kvserver

/-! ## The merge gate and the lease gate -/

namespace kvserver

/-- The result of `shouldWaitForPendingMerge` while a merge is in progress, case
by case. -/
theorem shouldWaitForPendingMerge_eq (X : replicaExternals) (ba : BatchRequest)
    (desc : RangeDescriptor) (mergeTxnID : Nat) :
    shouldWaitForPendingMerge X ba desc true mergeTxnID =
      Except.ok
        (if ba.Requests = [Request.Subsume] then none
        else if ba.Txn.map (fun txn => txn.ID) = some mergeTxnID then
          (if ba.Requests = [Request.Refresh (X.RangeDescriptorKey desc.StartKey)] then none
          else some kvError.mergeTxnBatchAfterSubsumption)
        else some kvError.MergeInProgressError) := by
  rcases ba with ⟨reqs, txn, rc, t⟩
  rcases reqs with _ | ⟨q, _ | ⟨q2, rest⟩⟩ <;> rcases txn with _ | ⟨id⟩ <;> (try cases q) <;>
    simp [shouldWaitForPendingMerge, BatchRequest.IsSingleSubsumeRequest] <;>
    (try split_ifs) <;> simp_all

/-- C15. While a merge is in progress, `shouldWaitForPendingMerge` lets a batch
proceed (returns nil) exactly in two cases: the batch is a single Subsume
request, or the batch belongs to the active merge transaction and is a single
Refresh request whose key is the range's local range-descriptor key. Any other
batch of the merge transaction gets the (non-MergeInProgress) error "merge
transaction attempting to issue batch ... after subsumption", and every other
batch gets `MergeInProgressError`. -/
theorem shouldWaitForPendingMerge_cases (X : replicaExternals) (ba : BatchRequest)
    (desc : RangeDescriptor) (mergeTxnID : Nat) :
    (shouldWaitForPendingMerge X ba desc true mergeTxnID = Except.ok none ↔
      (ba.Requests = [Request.Subsume] ∨
        (ba.Txn.map (fun txn => txn.ID) = some mergeTxnID ∧
          ba.Requests = [Request.Refresh (X.RangeDescriptorKey desc.StartKey)]))) ∧
    (shouldWaitForPendingMerge X ba desc true mergeTxnID =
        Except.ok (some kvError.mergeTxnBatchAfterSubsumption) ↔
      (ba.Txn.map (fun txn => txn.ID) = some mergeTxnID ∧ ba.Requests ≠ [Request.Subsume] ∧
        ba.Requests ≠ [Request.Refresh (X.RangeDescriptorKey desc.StartKey)])) ∧
    (shouldWaitForPendingMerge X ba desc true mergeTxnID =
        Except.ok (some kvError.MergeInProgressError) ↔
      (ba.Txn.map (fun txn => txn.ID) ≠ some mergeTxnID ∧
        ba.Requests ≠ [Request.Subsume])) := by
  rw [shouldWaitForPendingMerge_eq]
  by_cases h1 : ba.Requests = [Request.Subsume]
  · simp [h1]
  · by_cases h2 : ba.Txn.map (fun txn => txn.ID) = some mergeTxnID
    · by_cases h3 : ba.Requests = [Request.Refresh (X.RangeDescriptorKey desc.StartKey)]
      · simp [h2, h3]
      · simp [h1, h2, h3]
    · simp [h1, h2]

/-- C16, the code at the failing input: a single `RequestLease` request skips the
lease check, yet `checkLease` hands back, with a nil error, the status computed
by `leaseStatusForRequest`; here that status is EXPIRED, which is neither the
zero `LeaseStatus` nor in state VALID.
`checkExecutionCanProceedBeforeStorageSnapshot` returns the same status. The
same happens for an INCONSISTENT read. -/
theorem checkLease_bypass_returns_computed_status :
    checkLease
        (sampleExternals (sampleLeaseStatus LeaseState.LeaseState_EXPIRED)
          (some (kvError.external "NotLeaseHolderError")))
        (sampleReplica ⟨50, 0⟩ false)
        { Requests := [Request.RequestLease], Txn := none,
          ReadConsistency := ReadConsistencyType.CONSISTENT, Timestamp := ⟨200, 0⟩ } =
      (sampleLeaseStatus LeaseState.LeaseState_EXPIRED, none) ∧
    sampleLeaseStatus LeaseState.LeaseState_EXPIRED ≠ LeaseStatus.zero ∧
    (sampleLeaseStatus LeaseState.LeaseState_EXPIRED).State ≠ LeaseState.LeaseState_VALID ∧
    checkExecutionCanProceedBeforeStorageSnapshot
        (sampleExternals (sampleLeaseStatus LeaseState.LeaseState_EXPIRED)
          (some (kvError.external "NotLeaseHolderError")))
        (sampleReplica ⟨50, 0⟩ false)
        { Requests := [Request.RequestLease], Txn := none,
          ReadConsistency := ReadConsistencyType.CONSISTENT, Timestamp := ⟨200, 0⟩ } false =
      Except.ok (sampleLeaseStatus LeaseState.LeaseState_EXPIRED, none) ∧
    checkLease
        (sampleExternals (sampleLeaseStatus LeaseState.LeaseState_EXPIRED)
          (some (kvError.external "NotLeaseHolderError")))
        (sampleReplica ⟨50, 0⟩ false)
        { Requests := [Request.Other "Get"], Txn := none,
          ReadConsistency := ReadConsistencyType.INCONSISTENT, Timestamp := ⟨200, 0⟩ } =
      (sampleLeaseStatus LeaseState.LeaseState_EXPIRED, none) := by
  refine ⟨by decide, by decide, by decide, rfl, by decide⟩

/-- When the lease is checked (the batch neither skips the lease check nor is an
INCONSISTENT read), a nil error of `checkLease` comes with the zero status
(follower read) or with a status that `leaseGoodToGoForStatus` accepted. -/
theorem checkLease_checked (X : replicaExternals) (r : Replica) (ba : BatchRequest)
    (hskip : ba.IsSingleSkipsLeaseCheckRequest = false)
    (hrc : ba.ReadConsistency ≠ ReadConsistencyType.INCONSISTENT)
    (h : (checkLease X r ba).2 = none) :
    (checkLease X r ba).1 = LeaseStatus.zero ∨
      ((checkLease X r ba).1 = X.leaseStatusForRequest r ba ∧
        X.leaseGoodToGoForStatus r ba (X.leaseStatusForRequest r ba) = none) := by
  unfold checkLease at h ⊢
  simp only [hskip, hrc, Bool.not_false, ne_eq, not_false_eq_true, decide_True, Bool.and_self,
    if_true] at h ⊢
  cases hg : X.leaseGoodToGoForStatus r ba (X.leaseStatusForRequest r ba) with
  | none => simp
  | some err =>
    rw [hg] at h
    simp only [] at h ⊢
    split_ifs at h ⊢ with hf
    exact Or.inl rfl

end kvserver

/-! ## The leaderless watcher -/

namespace kvserver

/-- C17, failing input: a watcher that recorded the leaderless timestamp 1000
and is not yet unavailable is refreshed at time 1060 with the threshold 60 and
no leader. The leaderless duration equals the threshold and does not exceed
it, yet the watcher is marked unavailable and the error is cached. -/
theorem refreshUnavailableState_marks_at_threshold :
    leaderlessWatcher.refreshUnavailableState
        { leaderlessTimestamp := 1000, unavailable := false, err := none } raftNone 1060 60
        (fun e => some (kvError.ReplicaUnavailableError e)) =
      { leaderlessTimestamp := 1000, unavailable := true,
        err := some (kvError.ReplicaUnavailableError (kvError.leaderlessFor 60)) } ∧
    ¬ ((1060 : Int) - 1000 > 60) := by
  decide

/-- What the test `durationSinceLeaderless >= threshold` does. With a non-zero
threshold and no known leader, `refreshUnavailableState` marks a watcher that
is not yet unavailable as unavailable (and caches the error built by
`newReplicaUnavailableError`) if and only if a leaderless timestamp was
recorded by an earlier refresh and the leaderless duration
`now - leaderlessTimestamp` is at least the threshold; the first leaderless
refresh only records the timestamp; a watcher that is already unavailable is
left as it is. -/
theorem refreshUnavailableState_leaderless (lw : leaderlessWatcher)
    (nowPhysicalTime threshold : Int) (newReplicaUnavailableError : kvError → Option kvError)
    (ht : threshold ≠ 0) :
    (lw.unavailable = false →
      ((lw.refreshUnavailableState raftNone nowPhysicalTime threshold
          newReplicaUnavailableError).unavailable = true ↔
        (lw.leaderlessTimestamp ≠ 0 ∧
          nowPhysicalTime - lw.leaderlessTimestamp ≥ threshold))) ∧
    (lw.unavailable = false → lw.leaderlessTimestamp ≠ 0 →
      nowPhysicalTime - lw.leaderlessTimestamp ≥ threshold →
      lw.refreshUnavailableState raftNone nowPhysicalTime threshold
          newReplicaUnavailableError =
        { lw with
          unavailable := true
          err := newReplicaUnavailableError (kvError.leaderlessFor threshold) }) ∧
    (lw.unavailable = false → lw.leaderlessTimestamp ≠ 0 →
      nowPhysicalTime - lw.leaderlessTimestamp < threshold →
      lw.refreshUnavailableState raftNone nowPhysicalTime threshold
          newReplicaUnavailableError = lw) ∧
    (lw.leaderlessTimestamp = 0 →
      lw.refreshUnavailableState raftNone nowPhysicalTime threshold
          newReplicaUnavailableError =
        { lw with leaderlessTimestamp := nowPhysicalTime }) ∧
    (lw.unavailable = true → lw.leaderlessTimestamp ≠ 0 →
      lw.refreshUnavailableState raftNone nowPhysicalTime threshold
          newReplicaUnavailableError = lw) := by
  refine ⟨?_, ?_, ?_, ?_, ?_⟩
  · intro hu
    by_cases hz : lw.leaderlessTimestamp = 0
    · simp [leaderlessWatcher.refreshUnavailableState, ht, hz, hu]
    · by_cases hd : nowPhysicalTime - lw.leaderlessTimestamp ≥ threshold
      · simp [leaderlessWatcher.refreshUnavailableState, ht, hz, hu, hd]
      · simp [leaderlessWatcher.refreshUnavailableState, ht, hz, hu, hd]
  · intro hu hz hd
    simp [leaderlessWatcher.refreshUnavailableState, ht, hz, hu, hd]
  · intro hu hz hd
    have hd' : ¬ nowPhysicalTime - lw.leaderlessTimestamp ≥ threshold := by omega
    simp [leaderlessWatcher.refreshUnavailableState, ht, hz, hu, hd']
  · intro hz
    simp [leaderlessWatcher.refreshUnavailableState, ht, hz]
  · intro hu hz
    simp [leaderlessWatcher.refreshUnavailableState, ht, hz, hu]

/-- The three refreshes of a leaderless replica with the threshold 60: the
first (at time 1000) only records the timestamp; a refresh at 1059 changes
nothing; a refresh at 1060 marks the watcher unavailable and caches the
error. -/
theorem refreshUnavailableState_leaderless_witness :
    (60 : Int) ≠ 0 ∧
    newLeaderlessWatcher.refreshUnavailableState raftNone 1000 60
        (fun e => some (kvError.ReplicaUnavailableError e)) =
      { newLeaderlessWatcher with leaderlessTimestamp := 1000 } ∧
    ({ leaderlessTimestamp := 1000, unavailable := false, err := none } :
        leaderlessWatcher).refreshUnavailableState raftNone 1059 60
        (fun e => some (kvError.ReplicaUnavailableError e)) =
      { leaderlessTimestamp := 1000, unavailable := false, err := none } ∧
    ({ leaderlessTimestamp := 1000, unavailable := false, err := none } :
        leaderlessWatcher).refreshUnavailableState raftNone 1060 60
        (fun e => some (kvError.ReplicaUnavailableError e)) =
      { leaderlessTimestamp := 1000, unavailable := true,
        err := some (kvError.ReplicaUnavailableError (kvError.leaderlessFor 60)) } :=
  ⟨by decide,
    (refreshUnavailableState_leaderless newLeaderlessWatcher 1000 60
      (fun e => some (kvError.ReplicaUnavailableError e)) (by decide)).2.2.2.1 rfl,
    (refreshUnavailableState_leaderless
      { leaderlessTimestamp := 1000, unavailable := false, err := none } 1059 60
      (fun e => some (kvError.ReplicaUnavailableError e)) (by decide)).2.2.1 rfl (by decide)
      (by decide),
    (refreshUnavailableState_leaderless
      { leaderlessTimestamp := 1000, unavailable := false, err := none } 1060 60
      (fun e => some (kvError.ReplicaUnavailableError e)) (by decide)).2.1 rfl (by decide)
      (by decide)⟩

/-- C18. For every state of the leaderless watcher (one already marked
unavailable included), `refreshUnavailableState` called while the threshold is 0
resets it: afterwards `unavailable` is false, the cached error is nil and the
leaderless timestamp is zero, whatever the leader and clock arguments; the same
reset happens for any threshold when a leader is known. -/
theorem refreshUnavailableState_resets (lw : leaderlessWatcher) (postTickLead : Nat)
    (nowPhysicalTime threshold : Int) (newReplicaUnavailableError : kvError → Option kvError) :
    lw.refreshUnavailableState postTickLead nowPhysicalTime 0 newReplicaUnavailableError =
      { leaderlessTimestamp := 0, unavailable := false, err := none } ∧
    (postTickLead ≠ raftNone →
      lw.refreshUnavailableState postTickLead nowPhysicalTime threshold
          newReplicaUnavailableError =
        { leaderlessTimestamp := 0, unavailable := false, err := none }) := by
  constructor
  · simp [leaderlessWatcher.refreshUnavailableState, leaderlessWatcher.resetLocked]
  · intro hl
    by_cases ht : threshold = 0
    · simp [leaderlessWatcher.refreshUnavailableState, leaderlessWatcher.resetLocked, ht]
    · simp [leaderlessWatcher.refreshUnavailableState, leaderlessWatcher.resetLocked, ht, hl]

end kvserver

/-! ## Writes with an empty key -/

namespace storage

/-- C19, counterexample: the range operations have no empty-key check. With an
empty start key, `ClearRawRange`, `PutEngineRangeKey` and `ClearEngineRangeKey`
return nil and the write reaches the underlying database. -/
theorem range_writes_accept_empty_start_key :
    Pebble.ClearRawRange acceptingExternals { db := [] } [] [5] true false =
      (none,
        { db := [dbWrite.DeleteRange (encodedKey.Encode { Key := [], Version := [] })
          (encodedKey.Encode { Key := [5], Version := [] })] }) ∧
    Pebble.PutEngineRangeKey acceptingExternals { db := [] } [] [5] [7] [8] =
      (none,
        { db := [dbWrite.RangeKeySet (encodedKey.Encode { Key := [], Version := [] })
          (encodedKey.Encode { Key := [5], Version := [] }) [7] [8]] }) ∧
    Pebble.ClearEngineRangeKey acceptingExternals { db := [] } [] [5] [7] =
      (none,
        { db := [dbWrite.RangeKeyUnset (encodedKey.Encode { Key := [], Version := [] })
          (encodedKey.Encode { Key := [5], Version := [] }) [7]] }) := by
  decide

/-- C19, amended. Every point write of the Pebble engine called with an empty key
performs no write on the underlying database and returns an error: the "empty
key" error for `ClearUnversioned`, `ClearEngineKey`, `SingleClearEngineKey`,
`Merge`, `PutUnversioned` and `PutEngineKey` (and the helpers `clear` and `put`);
for `ClearMVCC`, `PutRawMVCC` and `PutMVCC` the "empty key" error too, unless the
timestamp is empty (then the timestamp assertion) or, for `PutMVCC`, the value
fails to encode (then that error). The range operations are not covered. -/
theorem point_writes_reject_empty_key (X : pebbleExternals) (p : Pebble) (version : List Nat)
    (ts : kvserver.Timestamp) (value : List Nat) (mvccValue : MVCCValue)
    (opts : ClearOptions) :
    p.ClearUnversioned X [] opts = (some pebbleError.emptyKeyError, p) ∧
    p.ClearEngineKey X { Key := [], Version := version } opts =
      (some pebbleError.emptyKeyError, p) ∧
    p.SingleClearEngineKey X { Key := [], Version := version } =
      (some pebbleError.emptyKeyError, p) ∧
    p.Merge X { Key := [], Timestamp := ts } value = (some pebbleError.emptyKeyError, p) ∧
    p.PutUnversioned X [] value = (some pebbleError.emptyKeyError, p) ∧
    p.PutEngineKey X { Key := [], Version := version } value =
      (some pebbleError.emptyKeyError, p) ∧
    p.clear X { Key := [], Timestamp := ts } opts = (some pebbleError.emptyKeyError, p) ∧
    p.put X { Key := [], Timestamp := ts } value = (some pebbleError.emptyKeyError, p) ∧
    p.ClearMVCC X { Key := [], Timestamp := ts } opts =
      (some (if ts.IsEmpty = true then pebbleError.AssertionFailed "ClearMVCC timestamp is empty"
        else pebbleError.emptyKeyError), p) ∧
    p.PutRawMVCC X { Key := [], Timestamp := ts } value =
      (some (if ts.IsEmpty = true then pebbleError.AssertionFailed "PutRawMVCC timestamp is empty"
        else pebbleError.emptyKeyError), p) ∧
    p.PutMVCC X { Key := [], Timestamp := ts } mvccValue =
      (some (if ts.IsEmpty = true then pebbleError.AssertionFailed "PutMVCC timestamp is empty"
        else
          match X.EncodeMVCCValue mvccValue with
          | Except.error err => err
          | Except.ok _ => pebbleError.emptyKeyError), p) := by
  refine ⟨rfl, rfl, rfl, rfl, rfl, rfl, rfl, rfl, ?_, ?_, ?_⟩
  · unfold Pebble.ClearMVCC
    split_ifs <;> rfl
  · unfold Pebble.PutRawMVCC
    split_ifs <;> rfl
  · unfold Pebble.PutMVCC
    split_ifs
    · rfl
    · cases X.EncodeMVCCValue mvccValue <;> rfl

end storage

/-! ## The slot granter -/

namespace admission

/-- C20. `slotGranter.tryGetLocked(1)` returns `grantSuccess` if and only if
`usedSlots < totalSlots` or `skipSlotEnforcement` is set, and then increases
`usedSlots` by exactly one; otherwise it leaves the granter (so `usedSlots`)
unchanged and returns the shared-resource failure when the work kind is `KVWork`
and the local failure for every other work kind. Any count other than 1
panics. -/
theorem slotGranter_tryGetLocked_cases (now count : Int) (sg : slotGranter) :
    ((sg.tryGetLocked now 1).map (fun r => r.1) = some grantResult.grantSuccess ↔
      (sg.usedSlots < sg.totalSlots ∨ sg.skipSlotEnforcement = true)) ∧
    ((sg.usedSlots < sg.totalSlots ∨ sg.skipSlotEnforcement = true) →
      ∃ sg' : slotGranter, sg.tryGetLocked now 1 = some (grantResult.grantSuccess, sg') ∧
        sg'.usedSlots = sg.usedSlots + 1 ∧ sg'.totalSlots = sg.totalSlots ∧
        sg'.skipSlotEnforcement = sg.skipSlotEnforcement ∧ sg'.workKind = sg.workKind) ∧
    (¬ (sg.usedSlots < sg.totalSlots ∨ sg.skipSlotEnforcement = true) →
      sg.tryGetLocked now 1 =
        some (if sg.workKind = WorkKind.KVWork then grantResult.grantFailDueToSharedResource
          else grantResult.grantFailLocal, sg)) ∧
    (count ≠ 1 → sg.tryGetLocked now count = none) := by
  refine ⟨?_, ?_, ?_, ?_⟩
  · by_cases h : sg.usedSlots < sg.totalSlots ∨ sg.skipSlotEnforcement = true
    · simp [slotGranter.tryGetLocked, h]
    · by_cases hk : sg.workKind = WorkKind.KVWork
      · simp [slotGranter.tryGetLocked, h, hk]
      · simp [slotGranter.tryGetLocked, h, hk]
  · intro h
    refine ⟨{ sg with
      usedSlots := sg.usedSlots + 1
      exhaustedStart := if sg.usedSlots + 1 = sg.totalSlots then now else sg.exhaustedStart
      usedSlotsMetric := sg.usedSlots + 1 }, ?_, rfl, rfl, rfl, rfl⟩
    simp [slotGranter.tryGetLocked, h]
  · intro h
    by_cases hk : sg.workKind = WorkKind.KVWork
    · simp [slotGranter.tryGetLocked, h, hk]
    · simp [slotGranter.tryGetLocked, h, hk]
  · intro h
    simp [slotGranter.tryGetLocked, h]

end admission

/-! ## The token granter -/

namespace admission

/-- C21. `tokenGranter.tryGetLocked` grants nothing while the CPU-overload
indicator reports overload: for every granter state and count, when
`isOverloaded()` is true it returns `grantFailDueToSharedResource` and leaves
the granter (so `availableBurstTokens`) unchanged; when it is false the call
returns `grantSuccess` if and only if `availableBurstTokens > 0` or
`skipTokenEnforcement` is set, a success deducts `count` from
`availableBurstTokens` and changes nothing else, and a failure is
`grantFailLocal` and changes nothing. -/
theorem tokenGranter_tryGetLocked_cases (isOverloaded : Bool) (count : Int)
    (tg : tokenGranter) :
    (isOverloaded = true →
      tg.tryGetLocked isOverloaded count = (grantResult.grantFailDueToSharedResource, tg)) ∧
    (isOverloaded = false →
      ((tg.tryGetLocked isOverloaded count).1 = grantResult.grantSuccess ↔
        (tg.availableBurstTokens > 0 ∨ tg.skipTokenEnforcement = true)) ∧
      ((tg.tryGetLocked isOverloaded count).1 = grantResult.grantSuccess →
        (tg.tryGetLocked isOverloaded count).2 =
          { tg with availableBurstTokens := tg.availableBurstTokens - count }) ∧
      ((tg.tryGetLocked isOverloaded count).1 ≠ grantResult.grantSuccess →
        tg.tryGetLocked isOverloaded count = (grantResult.grantFailLocal, tg))) := by
  refine ⟨?_, ?_⟩
  · intro h
    simp [tokenGranter.tryGetLocked, h]
  · intro h
    by_cases hc : tg.availableBurstTokens > 0 ∨ tg.skipTokenEnforcement = true
    · simp [tokenGranter.tryGetLocked, h, hc]
    · simp [tokenGranter.tryGetLocked, h, hc]

end admission

/-! ## The compaction concurrency override -/

namespace storage

/-- The range in force after `SetCompactionConcurrency(n)`, for every `n`: the
override is the low 32 bits of `n`. -/
theorem SetCompactionConcurrency_Wrap (n : Nat) (cco : compactionConcurrencyOverride)
    (compactionConcurrencyRange : Unit → Int × Int) :
    (SetCompactionConcurrency n cco).Wrap compactionConcurrencyRange () =
      if n % 4294967296 > 0 then (((n % 4294967296 : Nat) : Int), ((n % 4294967296 : Nat) : Int))
      else compactionConcurrencyRange () := by
  simp [SetCompactionConcurrency, compactionConcurrencyOverride.Set,
    compactionConcurrencyOverride.Wrap]

/-- C22, failing input: `SetCompactionConcurrency(4294967296)` (`n = 2^32 > 0`)
on an engine whose override is 7 and whose configured range is `(1, 4)`:
`uint32(n)` is 0, so the override is removed and the range in force is `(1, 4)`,
not `(n, n)`; and `SetCompactionConcurrency(4294967299)` gives `(3, 3)`. -/
theorem SetCompactionConcurrency_truncates :
    (SetCompactionConcurrency 4294967296 { override := 7 }).Wrap (fun _ => (1, 4)) () = (1, 4) ∧
    (SetCompactionConcurrency 4294967299 { override := 7 }).Wrap (fun _ => (1, 4)) () =
      (3, 3) := by
  constructor <;> rfl

/-- Below `2^32` the function does what its comment says: for every `n` below
`2^32`, every earlier override and every configured range function, after
`SetCompactionConcurrency(n)` the function
produced by `compactionConcurrencyOverride.Wrap` returns `(n, n)` when `n > 0`
and the result of the configured range function when `n = 0`. -/
theorem SetCompactionConcurrency_range (n : Nat) (cco : compactionConcurrencyOverride)
    (compactionConcurrencyRange : Unit → Int × Int) (hn : n < 4294967296) :
    (0 < n →
      (SetCompactionConcurrency n cco).Wrap compactionConcurrencyRange () =
        ((n : Int), (n : Int))) ∧
    (n = 0 →
      (SetCompactionConcurrency n cco).Wrap compactionConcurrencyRange () =
        compactionConcurrencyRange ()) := by
  have hmod : n % 4294967296 = n := Nat.mod_eq_of_lt hn
  rw [SetCompactionConcurrency_Wrap, hmod]
  refine ⟨?_, ?_⟩
  · intro h
    rw [if_pos h]
  · intro h
    rw [if_neg (by omega)]

/-- `SetCompactionConcurrency(3)` on an engine without override and with the
configured range `(1, 4)` gives `(3, 3)`. -/
theorem SetCompactionConcurrency_range_witness :
    (SetCompactionConcurrency 3 { override := 0 }).Wrap (fun _ => (1, 4)) () = (3, 3) :=
  (SetCompactionConcurrency_range 3 { override := 0 } (fun _ => (1, 4)) (by decide)).1
    (by decide)

end storage

/-! ## The compression settings -/

namespace storage

/-- A setting accepts the names of its map. -/
theorem EnumSetting.accepts_iff_mem (s : EnumSetting) (name : String) :
    s.accepts name = true ↔ name ∈ s.enumValues.map Prod.snd := by
  simp [EnumSetting.accepts]

/-- C23, counterexample: the setting `storage.sstable.compression_algorithm` is
registered with the map `storeCompressionSettingToString`, which has no entry
named `fast`: the name is not accepted and has no numeric value, while both
backup settings accept it. -/
theorem CompressionAlgorithmStorage_rejects_fast :
    CompressionAlgorithmStorage.accepts "fast" = false ∧
    CompressionAlgorithmStorage.parse "fast" = none ∧
    CompressionAlgorithmBackupStorage.accepts "fast" = true ∧
    CompressionAlgorithmBackupTransport.accepts "fast" = true := by
  decide

/-- C23, amended. The settings
`storage.sstable.compression_algorithm_backup_storage` and
`storage.sstable.compression_algorithm_backup_transport` accept exactly the
value names snappy, minlz, none, zstd, fastest, fast, balanced, good; the
setting `storage.sstable.compression_algorithm` accepts exactly the seven
names other than fast; in each setting every accepted name has a numeric
value and distinct accepted names have distinct numeric values. -/
theorem compression_settings_value_names (name : String) :
    (CompressionAlgorithmBackupStorage.accepts name = true ↔ name ∈ compressionValueNames) ∧
    (CompressionAlgorithmBackupTransport.accepts name = true ↔
      name ∈ compressionValueNames) ∧
    (CompressionAlgorithmStorage.accepts name = true ↔
      (name ∈ compressionValueNames ∧ name ≠ "fast")) ∧
    (∀ s ∈ [CompressionAlgorithmStorage, CompressionAlgorithmBackupStorage,
        CompressionAlgorithmBackupTransport],
      (s.accepts name = true → ∃ v, s.parse name = some v) ∧
      ∀ other : String, s.accepts name = true → s.accepts other = true → name ≠ other →
        s.parse name ≠ s.parse other) := by
  have hB : ∀ x : String,
      CompressionAlgorithmBackupStorage.accepts x = true ↔ x ∈ compressionValueNames := by
    intro x
    rw [EnumSetting.accepts_iff_mem]
    simp [CompressionAlgorithmBackupStorage, sstableCompressionProfileToString,
      compressionValueNames]
  have hT : ∀ x : String,
      CompressionAlgorithmBackupTransport.accepts x = true ↔ x ∈ compressionValueNames := by
    intro x
    rw [EnumSetting.accepts_iff_mem]
    simp [CompressionAlgorithmBackupTransport, sstableCompressionProfileToString,
      compressionValueNames]
  have hS : ∀ x : String,
      CompressionAlgorithmStorage.accepts x = true ↔
        (x ∈ compressionValueNames ∧ x ≠ "fast") := by
    intro x
    rw [EnumSetting.accepts_iff_mem]
    simp only [CompressionAlgorithmStorage, storeCompressionSettingToString,
      compressionValueNames, List.map_cons, List.map_nil, List.mem_cons, List.mem_singleton,
      List.not_mem_nil, or_false]
    constructor
    · rintro (h | h | h | h | h | h | h) <;> subst h <;> decide
    · rintro ⟨h | h | h | h | h | h | h | h, hne⟩
      all_goals first
        | exact absurd h hne
        | simp [h]
  refine ⟨hB name, hT name, hS name, ?_⟩
  intro s hs
  simp only [List.mem_cons, List.mem_singleton, List.not_mem_nil, or_false] at hs
  rcases hs with rfl | rfl | rfl
  · refine ⟨fun ha => ?_, fun other ha ho hne => ?_⟩
    · have h1 := ((hS name).mp ha).1
      simp only [compressionValueNames, List.mem_cons, List.mem_singleton, List.not_mem_nil,
        or_false] at h1
      have h2 := ((hS name).mp ha).2
      rcases h1 with h | h | h | h | h | h | h | h
      all_goals first
        | exact absurd h h2
        | (subst h; exact ⟨_, rfl⟩)
    · have h1 := ((hS name).mp ha).1
      have h2 := ((hS name).mp ha).2
      have o1 := ((hS other).mp ho).1
      have o2 := ((hS other).mp ho).2
      simp only [compressionValueNames, List.mem_cons, List.mem_singleton, List.not_mem_nil,
        or_false] at h1 o1
      rcases h1 with h | h | h | h | h | h | h | h <;>
        rcases o1 with o | o | o | o | o | o | o | o
      all_goals first
        | exact absurd h h2
        | exact absurd o o2
        | exact absurd (h.trans o.symm) hne
        | (subst h; subst o; decide)
  · refine ⟨fun ha => ?_, fun other ha ho hne => ?_⟩
    · have h1 := (hB name).mp ha
      simp only [compressionValueNames, List.mem_cons, List.mem_singleton, List.not_mem_nil,
        or_false] at h1
      rcases h1 with h | h | h | h | h | h | h | h <;> (subst h; exact ⟨_, rfl⟩)
    · have h1 := (hB name).mp ha
      have o1 := (hB other).mp ho
      simp only [compressionValueNames, List.mem_cons, List.mem_singleton, List.not_mem_nil,
        or_false] at h1 o1
      rcases h1 with h | h | h | h | h | h | h | h <;>
        rcases o1 with o | o | o | o | o | o | o | o
      all_goals first
        | exact absurd (h.trans o.symm) hne
        | (subst h; subst o; decide)
  · refine ⟨fun ha => ?_, fun other ha ho hne => ?_⟩
    · have h1 := (hT name).mp ha
      simp only [compressionValueNames, List.mem_cons, List.mem_singleton, List.not_mem_nil,
        or_false] at h1
      rcases h1 with h | h | h | h | h | h | h | h <;> (subst h; exact ⟨_, rfl⟩)
    · have h1 := (hT name).mp ha
      have o1 := (hT other).mp ho
      simp only [compressionValueNames, List.mem_cons, List.mem_singleton, List.not_mem_nil,
        or_false] at h1 o1
      rcases h1 with h | h | h | h | h | h | h | h <;>
        rcases o1 with o | o | o | o | o | o | o | o
      all_goals first
        | exact absurd (h.trans o.symm) hne
        | (subst h; subst o; decide)

end storage

/-! ## Span policies -/

namespace storage

/-- C24, counterexample: with the key constants of package `keys`, the encoded
start key `01 61 00` (the local prefix, the byte `a`, the sentinel) is in the
local keyspace, sorts before the end of the range-ID keyspace (`01 6a 00`) and
does not start with the range-ID prefix `01 69`: `spanPolicyFunc` returns the
assertion error. The same constants classify a range-ID key, a key between the
range-ID keys and the lock table, a lock-table key and a non-local key without
error. -/
theorem spanPolicyFunc_local_key_error :
    cockroachKeys.LocalPrefix.isPrefixOf [1, 97, 0] = true ∧
    spanPolicyFunc cockroachKeys [1, 97, 0] =
      (SpanPolicy.zero, none,
        some (pebbleError.AssertionFailed "startKey is not a Range-ID key")) ∧
    spanPolicyFunc cockroachKeys [1, 105, 7, 0] =
      ({ PreferFastCompression := true, DisableValueSeparationBySuffix := false,
         ValueStoragePolicy := ValueStoragePolicy.ValueStorageLatencyTolerant },
        some [1, 106, 0], none) ∧
    spanPolicyFunc cockroachKeys [1, 107, 7, 0] =
      ({ PreferFastCompression := true, DisableValueSeparationBySuffix := false,
         ValueStoragePolicy := ValueStoragePolicy.ValueStorageDefault },
        some [1, 122, 0], none) ∧
    spanPolicyFunc cockroachKeys [1, 122, 7, 0] =
      ({ PreferFastCompression := true, DisableValueSeparationBySuffix := true,
         ValueStoragePolicy := ValueStoragePolicy.ValueStorageLowReadLatency },
        some [1, 123, 0], none) ∧
    spanPolicyFunc cockroachKeys [2, 7, 0] = (SpanPolicy.zero, none, none) := by
  decide

/-- C24, amended. `spanPolicyFunc` classifies every start key, for every value
of the key constants and of the comparison:
a key without the local prefix gets the zero policy, no end key and no error;
a local key that sorts before the end of the range-ID keyspace and has the
range-ID prefix gets fast compression with latency-tolerant value storage and
ends at the end of the range-ID keyspace;
a local key that sorts before the end of the range-ID keyspace without having
the range-ID prefix gets the assertion error (with the zero policy and no end
key), and this is the only case with an error;
a local key from the start to the end of the lock table gets fast compression,
value separation by suffix disabled and low-read-latency value storage, and
ends at the end of the lock table;
every other local key gets fast compression with the default value separation
and value storage, ending at the end of the local keyspace (after the lock
table) or at the start of the lock table (before it). -/
theorem spanPolicyFunc_cases (K : spanPolicyExternals) (startKey : List Nat) :
    (K.LocalPrefix.isPrefixOf startKey = false →
      spanPolicyFunc K startKey = (SpanPolicy.zero, none, none)) ∧
    (K.LocalPrefix.isPrefixOf startKey = true →
      K.Compare startKey (spanPolicyLocalRangeIDEndKey K) < 0 →
      K.LocalRangeIDPrefix.isPrefixOf startKey = true →
      spanPolicyFunc K startKey =
        ({ PreferFastCompression := true, DisableValueSeparationBySuffix := false,
           ValueStoragePolicy := ValueStoragePolicy.ValueStorageLatencyTolerant },
          some (spanPolicyLocalRangeIDEndKey K), none)) ∧
    (K.LocalPrefix.isPrefixOf startKey = true →
      K.Compare startKey (spanPolicyLocalRangeIDEndKey K) < 0 →
      K.LocalRangeIDPrefix.isPrefixOf startKey = false →
      spanPolicyFunc K startKey =
        (SpanPolicy.zero, none,
          some (pebbleError.AssertionFailed "startKey is not a Range-ID key"))) ∧
    (K.LocalPrefix.isPrefixOf startKey = true →
      0 ≤ K.Compare startKey (spanPolicyLocalRangeIDEndKey K) →
      0 ≤ K.Compare startKey (spanPolicyLockTableStartKey K) →
      K.Compare startKey (spanPolicyLockTableEndKey K) < 0 →
      spanPolicyFunc K startKey =
        ({ PreferFastCompression := true, DisableValueSeparationBySuffix := true,
           ValueStoragePolicy := ValueStoragePolicy.ValueStorageLowReadLatency },
          some (spanPolicyLockTableEndKey K), none)) ∧
    (K.LocalPrefix.isPrefixOf startKey = true →
      0 ≤ K.Compare startKey (spanPolicyLocalRangeIDEndKey K) →
      0 ≤ K.Compare startKey (spanPolicyLockTableEndKey K) →
      spanPolicyFunc K startKey =
        ({ PreferFastCompression := true, DisableValueSeparationBySuffix := false,
           ValueStoragePolicy := ValueStoragePolicy.ValueStorageDefault },
          some (spanPolicyLocalEndKey K), none)) ∧
    (K.LocalPrefix.isPrefixOf startKey = true →
      0 ≤ K.Compare startKey (spanPolicyLocalRangeIDEndKey K) →
      K.Compare startKey (spanPolicyLockTableEndKey K) < 0 →
      K.Compare startKey (spanPolicyLockTableStartKey K) < 0 →
      spanPolicyFunc K startKey =
        ({ PreferFastCompression := true, DisableValueSeparationBySuffix := false,
           ValueStoragePolicy := ValueStoragePolicy.ValueStorageDefault },
          some (spanPolicyLockTableStartKey K), none)) ∧
    ((spanPolicyFunc K startKey).2.2 ≠ none ↔
      (K.LocalPrefix.isPrefixOf startKey = true ∧
        K.Compare startKey (spanPolicyLocalRangeIDEndKey K) < 0 ∧
        K.LocalRangeIDPrefix.isPrefixOf startKey = false)) := by
  refine ⟨?_, ?_, ?_, ?_, ?_, ?_, ?_⟩
  · intro h
    simp [spanPolicyFunc, h]
  · intro h1 h2 h3
    simp [spanPolicyFunc, h1, h2, h3, SpanPolicy.zero]
  · intro h1 h2 h3
    simp [spanPolicyFunc, h1, h2, h3]
  · intro h1 h2 h3 h4
    simp [spanPolicyFunc, h1, not_lt.mpr h2, not_lt.mpr h3, h4, SpanPolicy.zero]
  · intro h1 h2 h3
    simp [spanPolicyFunc, h1, not_lt.mpr h2, h3, SpanPolicy.zero]
  · intro h1 h2 h3 h4
    simp [spanPolicyFunc, h1, not_lt.mpr h2, h3, h4, SpanPolicy.zero]
  · unfold spanPolicyFunc
    by_cases h1 : K.LocalPrefix.isPrefixOf startKey = true
    · by_cases h2 : K.Compare startKey (spanPolicyLocalRangeIDEndKey K) < 0
      · by_cases h3 : K.LocalRangeIDPrefix.isPrefixOf startKey = true
        · simp [h1, h2, h3]
        · simp [h1, h2, h3]
      · simp only [h1, h2, not_true_eq_false, if_false, false_and, and_false, iff_false,
          true_and, not_not]
        split_ifs <;> rfl
    · simp [h1]

end storage

/-! ## The watcher's cached error -/

namespace kvserver

/-- One `refreshUnavailableState` keeps "`unavailable` iff the error is set". -/
theorem refreshUnavailableState_keeps_err_iff (lw : leaderlessWatcher) (c : refreshCall)
    (newReplicaUnavailableError : kvError → Option kvError)
    (hnew : ∀ e, newReplicaUnavailableError e ≠ none)
    (h : lw.unavailable = true ↔ lw.err ≠ none) :
    (lw.refreshUnavailableState c.postTickLead c.nowPhysicalTime c.threshold
        newReplicaUnavailableError).unavailable = true ↔
      (lw.refreshUnavailableState c.postTickLead c.nowPhysicalTime c.threshold
        newReplicaUnavailableError).err ≠ none := by
  unfold leaderlessWatcher.refreshUnavailableState
  split_ifs
  · simp [leaderlessWatcher.resetLocked]
  · simp [leaderlessWatcher.resetLocked]
  · exact h
  · simp only []
    split_ifs
    · simp [hnew]
    · exact h
  · exact h

/-- C27. In every state reachable from `newLeaderlessWatcher` through a
sequence of `refreshUnavailableState` calls, with an error constructor that
never returns nil, `unavailable` is true if and only if the cached error is
set, and `IsUnavailable` returns `unavailable` without panicking. -/
theorem leaderlessWatcher_unavailable_iff_err
    (newReplicaUnavailableError : kvError → Option kvError)
    (hnew : ∀ e, newReplicaUnavailableError e ≠ none) (calls : List refreshCall) :
    ((newLeaderlessWatcher.refreshAll newReplicaUnavailableError calls).unavailable = true ↔
      (newLeaderlessWatcher.refreshAll newReplicaUnavailableError calls).err ≠ none) ∧
    (newLeaderlessWatcher.refreshAll newReplicaUnavailableError calls).IsUnavailable =
      some (newLeaderlessWatcher.refreshAll newReplicaUnavailableError calls).unavailable := by
  have inv : ∀ (cs : List refreshCall) (lw : leaderlessWatcher),
      (lw.unavailable = true ↔ lw.err ≠ none) →
      ((lw.refreshAll newReplicaUnavailableError cs).unavailable = true ↔
        (lw.refreshAll newReplicaUnavailableError cs).err ≠ none) := by
    intro cs
    induction cs with
    | nil => intro lw h; exact h
    | cons c rest ih =>
      intro lw h
      exact ih _ (refreshUnavailableState_keeps_err_iff lw c newReplicaUnavailableError hnew h)
  have h := inv calls newLeaderlessWatcher (by simp [newLeaderlessWatcher])
  refine ⟨h, ?_⟩
  unfold leaderlessWatcher.IsUnavailable
  rw [if_neg]
  intro hc
  cases hu : (newLeaderlessWatcher.refreshAll newReplicaUnavailableError calls).unavailable
  · rw [hu] at hc h
    have : (newLeaderlessWatcher.refreshAll newReplicaUnavailableError calls).err ≠ none := by
      intro he
      rw [he] at hc
      simp at hc
    exact absurd (h.mpr this) (by simp)
  · rw [hu] at hc h
    have he := h.mp rfl
    cases hz : (newLeaderlessWatcher.refreshAll newReplicaUnavailableError calls).err with
    | none => exact he hz
    | some e => rw [hz] at hc; simp at hc

/-- Witness for C27: the replica loses its leader at time 100 and is still
leaderless at 200, with a threshold of 50; the error constructor wraps its
cause. After the two refreshes the watcher is unavailable and `IsUnavailable`
returns the flag without panicking. -/
theorem leaderlessWatcher_unavailable_iff_err_witness :
    (newLeaderlessWatcher.refreshAll (fun e => some (kvError.ReplicaUnavailableError e))
        [⟨0, 100, 50⟩, ⟨0, 200, 50⟩]).unavailable = true ∧
    (newLeaderlessWatcher.refreshAll (fun e => some (kvError.ReplicaUnavailableError e))
        [⟨0, 100, 50⟩, ⟨0, 200, 50⟩]).IsUnavailable =
      some (newLeaderlessWatcher.refreshAll (fun e => some (kvError.ReplicaUnavailableError e))
        [⟨0, 100, 50⟩, ⟨0, 200, 50⟩]).unavailable :=
  ⟨by decide,
    (leaderlessWatcher_unavailable_iff_err (fun e => some (kvError.ReplicaUnavailableError e))
      (fun _ => by simp) [⟨0, 100, 50⟩, ⟨0, 200, 50⟩]).2⟩

end kvserver

/-! ## Disk error correction -/

namespace admission

open WorkClass StoreWorkType

/-- The signed difference computed by `int64(a - b)` on `uint64` counters is the
increase `a - b` when the counter did not decrease and grew by less than `2^63`. -/
theorem int64OfUint64_uint64Sub (a b : Nat) (h : b ≤ a)
    (hb : a - b < 9223372036854775808) :
    int64OfUint64 (uint64Sub a b) = ((a - b : Nat) : Int) := by
  have e : uint64Sub a b = a - b := by
    unfold uint64Sub
    omega
  rw [e]
  unfold int64OfUint64
  have e2 : (a - b) % 18446744073709551616 = a - b := Nat.mod_eq_of_lt (by omega)
  rw [e2, if_pos hb]

/-- An exact result within the `int64` range is stored as it is. -/
theorem int64Wrap_of_range (x : Int) (h1 : -9223372036854775808 ≤ x)
    (h2 : x < 9223372036854775808) : int64Wrap x = x := by
  unfold int64Wrap
  omega

/-- C28, failing input. The write counter goes from 0 to `2^63` (it does not
decrease) with nothing deducted at admission: `int64(writeBytes - 0)` is
`-2^63`, the write error is negative and the disk-write bucket stays at 1000,
where the claim has it decrease by `2^63`. Second input: one snapshot-ingest
token is returned (`diskWriteTokensAlreadyDeducted = -1`, bucket 1001) and the
write counter goes from 0 to `2^63 - 1`: the conversion is exact, the `int64`
subtraction `intWrites - (-1)` wraps to `-2^63`, and the bucket stays at 1001. -/
theorem adjustDiskTokenErrorLocked_wraps_at_int64 :
    (granterWith 0 0 1000 ⟨1, 0⟩).diskTokensError.prevObservedWrites ≤ 9223372036854775808 ∧
    int64OfUint64 (uint64Sub 9223372036854775808 0) = -9223372036854775808 ∧
    (adjustDiskTokenErrorLocked 0 9223372036854775808
      (granterWith 0 0 1000 ⟨1, 0⟩)).diskTokensAvailable.writeByteTokens = 1000 ∧
    (returnGrantLocked 5 1 SnapshotIngestStoreWorkType
      (granterWith 0 0 1000 ⟨1, 0⟩)).diskTokensError.diskWriteTokensAlreadyDeducted = -1 ∧
    (returnGrantLocked 5 1 SnapshotIngestStoreWorkType
      (granterWith 0 0 1000 ⟨1, 0⟩)).diskTokensAvailable.writeByteTokens = 1001 ∧
    int64OfUint64 (uint64Sub 9223372036854775807 0) = 9223372036854775807 ∧
    int64Wrap (9223372036854775807 - (-1)) = -9223372036854775808 ∧
    (adjustDiskTokenErrorLocked 0 9223372036854775807
      (returnGrantLocked 5 1 SnapshotIngestStoreWorkType
        (granterWith 0 0 1000 ⟨1, 0⟩))).diskTokensAvailable.writeByteTokens = 1001 := by
  decide

/-- Within the `int64` range the function does what its comment says: for
cumulative disk counters that do not decrease, when the increases of the
counters, the already-deducted counters and the bucket are all below `2^60` in
absolute value, `adjustDiskTokenErrorLocked(readBytes, writeBytes)` decreases
the disk-write bucket by exactly
`max(0, dW - diskWriteTokensAlreadyDeducted) +
max(0, dR - diskReadTokensAlreadyDeducted)`, where `dW` and `dR` are the
increases of the counters since the previous call; it never increases the
bucket, resets both already-deducted counters to 0 and records the new counter
values. -/
theorem adjustDiskTokenErrorLocked_charges_overshoot (readBytes writeBytes : Nat)
    (sg : kvStoreTokenGranter)
    (hw : sg.diskTokensError.prevObservedWrites ≤ writeBytes)
    (hr : sg.diskTokensError.prevObservedReads ≤ readBytes)
    (hwb : writeBytes - sg.diskTokensError.prevObservedWrites < 1152921504606846976)
    (hrb : readBytes - sg.diskTokensError.prevObservedReads < 1152921504606846976)
    (hdw : -1152921504606846976 < sg.diskTokensError.diskWriteTokensAlreadyDeducted ∧
      sg.diskTokensError.diskWriteTokensAlreadyDeducted < 1152921504606846976)
    (hdr : -1152921504606846976 < sg.diskTokensError.diskReadTokensAlreadyDeducted ∧
      sg.diskTokensError.diskReadTokensAlreadyDeducted < 1152921504606846976)
    (hd : -1152921504606846976 < sg.diskTokensAvailable.writeByteTokens ∧
      sg.diskTokensAvailable.writeByteTokens < 1152921504606846976) :
    (adjustDiskTokenErrorLocked readBytes writeBytes sg).diskTokensAvailable.writeByteTokens =
      sg.diskTokensAvailable.writeByteTokens -
        (max 0 (((writeBytes - sg.diskTokensError.prevObservedWrites : Nat) : Int) -
            sg.diskTokensError.diskWriteTokensAlreadyDeducted) +
          max 0 (((readBytes - sg.diskTokensError.prevObservedReads : Nat) : Int) -
            sg.diskTokensError.diskReadTokensAlreadyDeducted)) ∧
    (adjustDiskTokenErrorLocked readBytes writeBytes sg).diskTokensAvailable.writeByteTokens ≤
      sg.diskTokensAvailable.writeByteTokens ∧
    (adjustDiskTokenErrorLocked readBytes writeBytes sg).diskTokensError =
      { prevObservedWrites := writeBytes
        prevObservedReads := readBytes
        diskWriteTokensAlreadyDeducted := 0
        diskReadTokensAlreadyDeducted := 0 } := by
  have e1 := int64OfUint64_uint64Sub writeBytes sg.diskTokensError.prevObservedWrites hw
    (by omega)
  have e2 := int64OfUint64_uint64Sub readBytes sg.diskTokensError.prevObservedReads hr
    (by omega)
  have w1 := int64Wrap_of_range
    (((writeBytes - sg.diskTokensError.prevObservedWrites : Nat) : Int) -
      sg.diskTokensError.diskWriteTokensAlreadyDeducted) (by omega) (by omega)
  have w2 := int64Wrap_of_range
    (((readBytes - sg.diskTokensError.prevObservedReads : Nat) : Int) -
      sg.diskTokensError.diskReadTokensAlreadyDeducted) (by omega) (by omega)
  have w3 := int64Wrap_of_range
    (sg.diskTokensAvailable.writeByteTokens -
      (((writeBytes - sg.diskTokensError.prevObservedWrites : Nat) : Int) -
        sg.diskTokensError.diskWriteTokensAlreadyDeducted)) (by omega) (by omega)
  have w4 := int64Wrap_of_range
    (sg.diskTokensAvailable.writeByteTokens -
      (((readBytes - sg.diskTokensError.prevObservedReads : Nat) : Int) -
        sg.diskTokensError.diskReadTokensAlreadyDeducted)) (by omega) (by omega)
  have w5 := int64Wrap_of_range
    (sg.diskTokensAvailable.writeByteTokens -
      (((writeBytes - sg.diskTokensError.prevObservedWrites : Nat) : Int) -
        sg.diskTokensError.diskWriteTokensAlreadyDeducted) -
      (((readBytes - sg.diskTokensError.prevObservedReads : Nat) : Int) -
        sg.diskTokensError.diskReadTokensAlreadyDeducted)) (by omega) (by omega)
  simp only [adjustDiskTokenErrorLocked, e1, e2, w1, w2]
  refine ⟨?_, ?_, trivial⟩
  · split_ifs <;> simp only [w3, w4, w5, max_def] <;> split_ifs <;> omega
  · split_ifs <;> (try simp only [w3, w4, w5]) <;> omega

/-- The function at values within the `int64` range: the write counter goes from
100 to 200 with 30 tokens deducted at admission (write error 70), the read
counter from 50 to 100 with 80 read tokens deducted (no read error): the
bucket goes from 1000 to 930. -/
theorem adjustDiskTokenErrorLocked_charges_overshoot_witness :
    (adjustDiskTokenErrorLocked 100 200
      { granterWith 0 0 1000 ⟨1, 0⟩ with
        diskTokensError :=
          { prevObservedWrites := 100, prevObservedReads := 50,
            diskWriteTokensAlreadyDeducted := 30,
            diskReadTokensAlreadyDeducted := 80 } }).diskTokensAvailable.writeByteTokens =
      930 :=
  (adjustDiskTokenErrorLocked_charges_overshoot 100 200
    { granterWith 0 0 1000 ⟨1, 0⟩ with
      diskTokensError :=
        { prevObservedWrites := 100, prevObservedReads := 50,
          diskWriteTokensAlreadyDeducted := 30,
          diskReadTokensAlreadyDeducted := 80 } }
    (by decide) (by decide) (by decide) (by decide) (by decide) (by decide)
    (by decide)).1.trans (by decide)

end admission

/-! ## The start of an exhaustion -/

namespace admission

open WorkClass StoreWorkType

/-- A subtraction that takes a bucket from above zero to zero or below stamps
`exhaustedStart` with the time of the call. -/
theorem subtractTokensLockedForWorkClass_stamps (now : Int) (wc : WorkClass) (count : Int)
    (b : Bool) (sg : kvStoreTokenGranter) (h1 : sg.availableIOTokens.get wc > 0)
    (h2 : sg.availableIOTokens.get wc - count ≤ 0) :
    (subtractTokensLockedForWorkClass now wc count b sg).exhaustedStart.get wc = now := by
  have hc : count > 0 := by omega
  cases wc <;>
    simp_all [subtractTokensLockedForWorkClass, workClassArray.get, workClassArray.set]

/-- C26, failing input. From buckets of 10 regular and 5 elastic tokens:
20 tokens taken without permission at time 5 exhaust both buckets (stamped 5);
the tick at time 6 refills both above zero (90 and 85); the tick at time 1000
comes with an elastic capacity of 0, so the cap takes the elastic bucket from
85 to 0 and `exhaustedStart[Elastic]` is still 5, not 1000; the refill at time
2000 then adds `2000 - 5` to the exhaustion metric of a bucket that was above
zero from 6 to 1000. The last-tick clamp `min(elastic, regular)` does the
same: with the regular bucket at -10 and the elastic bucket at 20 it takes the
elastic bucket to -10 at time 1000 and leaves the stamp 5. -/
theorem setAvailableTokens_clamp_leaves_exhaustedStart_stale :
    (tookWithoutPermissionLocked 5 20 RegularStoreWorkType
      (granterWith 10 5 100 ⟨1, 0⟩)).exhaustedStart.elastic = 5 ∧
    (setAvailableTokens 6 100 100 0 0 100 100 1000 false
      (tookWithoutPermissionLocked 5 20 RegularStoreWorkType
        (granterWith 10 5 100 ⟨1, 0⟩))).2.availableIOTokens.elastic = 85 ∧
    (setAvailableTokens 1000 0 0 0 0 100 0 1000 false
      (setAvailableTokens 6 100 100 0 0 100 100 1000 false
        (tookWithoutPermissionLocked 5 20 RegularStoreWorkType
          (granterWith 10 5 100 ⟨1, 0⟩))).2).2.availableIOTokens.elastic = 0 ∧
    (setAvailableTokens 1000 0 0 0 0 100 0 1000 false
      (setAvailableTokens 6 100 100 0 0 100 100 1000 false
        (tookWithoutPermissionLocked 5 20 RegularStoreWorkType
          (granterWith 10 5 100 ⟨1, 0⟩))).2).2.exhaustedStart.elastic = 5 ∧
    (setAvailableTokens 2000 10 10 0 0 100 100 1000 false
      (setAvailableTokens 1000 0 0 0 0 100 0 1000 false
        (setAvailableTokens 6 100 100 0 0 100 100 1000 false
          (tookWithoutPermissionLocked 5 20 RegularStoreWorkType
            (granterWith 10 5 100 ⟨1, 0⟩))).2).2).2.ioTokensExhaustedDurationMetric.elastic =
      1996 ∧
    (setAvailableTokens 6 0 30 0 0 100 100 1000 false
      (tookWithoutPermissionLocked 5 20 RegularStoreWorkType
        (granterWith 10 10 100 ⟨1, 0⟩))).2.availableIOTokens =
      { regular := -10, elastic := 20 } ∧
    (setAvailableTokens 1000 0 0 0 0 100 100 1000 true
      (setAvailableTokens 6 0 30 0 0 100 100 1000 false
        (tookWithoutPermissionLocked 5 20 RegularStoreWorkType
          (granterWith 10 10 100 ⟨1, 0⟩))).2).2.availableIOTokens.elastic = -10 ∧
    (setAvailableTokens 1000 0 0 0 0 100 100 1000 true
      (setAvailableTokens 6 0 30 0 0 100 100 1000 false
        (tookWithoutPermissionLocked 5 20 RegularStoreWorkType
          (granterWith 10 10 100 ⟨1, 0⟩))).2).2.exhaustedStart.elastic = 5 := by
  decide

end admission

/-! ## What one granter call does to the buckets and the usage counters -/

namespace admission

open WorkClass StoreWorkType

/-- `deductDiskWriteTokens` moves tokens from the disk-write bucket to the usage
of the work type: the sum of the two is unchanged. -/
theorem deductDiskWriteTokens_sum (wt : StoreWorkType) (n : Int) (sg : kvStoreTokenGranter) :
    diskWriteTokensUsedSum (deductDiskWriteTokens wt n sg).diskTokensUsed +
        (deductDiskWriteTokens wt n sg).diskTokensAvailable.writeByteTokens =
      diskWriteTokensUsedSum sg.diskTokensUsed + sg.diskTokensAvailable.writeByteTokens := by
  cases wt <;>
    simp only [deductDiskWriteTokens, diskWriteTokensUsedSum, storeWorkTypeArray.set,
      storeWorkTypeArray.get] <;> ring

/-- The effect of `subtractTokensForStoreWorkTypeLocked` on the IO buckets, the
disk-write bucket, the elastic usage counter and the disk usage; it leaves
`startingIOTokens`, the linear models and the testing knob as they are. -/
theorem subtractTokensForStoreWorkTypeLocked_effect (now : Int) (wt : StoreWorkType)
    (count : Int) (sg : kvStoreTokenGranter) :
    (subtractTokensForStoreWorkTypeLocked now wt count sg).availableIOTokens.regular =
      sg.availableIOTokens.regular - (if wt = SnapshotIngestStoreWorkType then 0 else count) ∧
    (subtractTokensForStoreWorkTypeLocked now wt count sg).availableIOTokens.elastic =
      sg.availableIOTokens.elastic - (if wt = SnapshotIngestStoreWorkType then 0 else count) ∧
    (subtractTokensForStoreWorkTypeLocked now wt count sg).diskTokensAvailable.writeByteTokens =
      sg.diskTokensAvailable.writeByteTokens -
        (if wt = SnapshotIngestStoreWorkType then count
          else sg.writeAmpLM.applyLinearModel count) ∧
    (subtractTokensForStoreWorkTypeLocked now wt count sg).elasticIOTokensUsedByElastic =
      sg.elasticIOTokensUsedByElastic + (if wt = ElasticStoreWorkType then count else 0) ∧
    (subtractTokensForStoreWorkTypeLocked now wt count sg).startingIOTokens =
      sg.startingIOTokens ∧
    diskWriteTokensUsedSum (subtractTokensForStoreWorkTypeLocked now wt count sg).diskTokensUsed +
        (subtractTokensForStoreWorkTypeLocked now wt count
          sg).diskTokensAvailable.writeByteTokens =
      diskWriteTokensUsedSum sg.diskTokensUsed + sg.diskTokensAvailable.writeByteTokens ∧
    (subtractTokensForStoreWorkTypeLocked now wt count sg).writeAmpLM = sg.writeAmpLM ∧
    (subtractTokensForStoreWorkTypeLocked now wt count sg).l0WriteLM = sg.l0WriteLM ∧
    (subtractTokensForStoreWorkTypeLocked now wt count sg).l0IngestLM = sg.l0IngestLM ∧
    (subtractTokensForStoreWorkTypeLocked now wt count sg).ingestLM = sg.ingestLM ∧
    (subtractTokensForStoreWorkTypeLocked now wt count sg).AlwaysTryGrantWhenAdmitted =
      sg.AlwaysTryGrantWhenAdmitted := by
  have f := subtractIOTokensLocked_frame now count count false sg
  have a := subtractIOTokensLocked_availableIOTokens now count count false sg
  simp only [] at f
  obtain ⟨f1, f2, f3, f4, f5, f6, f7, f8, f9, f10⟩ := f
  cases wt with
  | SnapshotIngestStoreWorkType =>
    refine ⟨?_, ?_, ?_, ?_, ?_, ?_, ?_, ?_, ?_, ?_, ?_⟩ <;>
      first
        | exact deductDiskWriteTokens_sum _ _ _
        | simp [subtractTokensForStoreWorkTypeLocked, deductDiskWriteTokens]
  | RegularStoreWorkType =>
    have hs : subtractTokensForStoreWorkTypeLocked now RegularStoreWorkType count sg =
        deductDiskWriteTokens RegularStoreWorkType (sg.writeAmpLM.applyLinearModel count)
          (subtractIOTokensLocked now count count false sg) := by
      simp [subtractTokensForStoreWorkTypeLocked, f10]
    rw [hs]
    refine ⟨?_, ?_, ?_, ?_, ?_, ?_, ?_, ?_, ?_, ?_, ?_⟩
    · simp [a]
    · simp [a]
    · simp [f3]
    · simp [f2]
    · exact f6
    · rw [deductDiskWriteTokens_sum, f5, f3]
    · exact f10
    · exact f7
    · exact f8
    · exact f9
    · exact f1
  | ElasticStoreWorkType =>
    have hs : subtractTokensForStoreWorkTypeLocked now ElasticStoreWorkType count sg =
        deductDiskWriteTokens ElasticStoreWorkType (sg.writeAmpLM.applyLinearModel count)
          { subtractIOTokensLocked now count count false sg with
            elasticIOTokensUsedByElastic :=
              (subtractIOTokensLocked now count count false sg).elasticIOTokensUsedByElastic +
                count } := by
      simp [subtractTokensForStoreWorkTypeLocked, f10]
    rw [hs]
    refine ⟨?_, ?_, ?_, ?_, ?_, ?_, ?_, ?_, ?_, ?_, ?_⟩
    · simp [a]
    · simp [a]
    · simp [f3]
    · simp [f2]
    · exact f6
    · rw [deductDiskWriteTokens_sum]
      simp only [f5, f3]
    · exact f10
    · exact f7
    · exact f8
    · exact f9
    · exact f1

/-- A `tryGetLocked` that returns true has done what
`subtractTokensForStoreWorkTypeLocked` does with the same count, and found the
regular IO bucket above zero (regular and elastic work) or the disk-write
bucket above zero (snapshot ingest); one that returns false has done nothing. -/
theorem tryGetLocked_eq_subtract (now count : Int) (wt : StoreWorkType)
    (sg : kvStoreTokenGranter) :
    ((tryGetLocked now count wt sg).1 = true →
      (tryGetLocked now count wt sg).2 = subtractTokensForStoreWorkTypeLocked now wt count sg ∧
      (wt ≠ SnapshotIngestStoreWorkType → sg.availableIOTokens.regular > 0) ∧
      (wt = SnapshotIngestStoreWorkType → sg.diskTokensAvailable.writeByteTokens > 0)) ∧
    ((tryGetLocked now count wt sg).1 = false → (tryGetLocked now count wt sg).2 = sg) := by
  have f := subtractIOTokensLocked_frame now count count false sg
  simp only [] at f
  obtain ⟨-, -, -, -, -, -, -, -, -, f10⟩ := f
  cases wt with
  | RegularStoreWorkType =>
    rw [tryGetLocked_regular_eq]
    by_cases h : sg.availableIOTokens.get RegularWorkClass > 0
    · rw [if_pos h]
      refine ⟨fun _ => ⟨?_, fun _ => h, fun hc => absurd hc (by decide)⟩, fun hc => ?_⟩
      · simp [subtractTokensForStoreWorkTypeLocked, f10]
      · simp at hc
    · rw [if_neg h]
      exact ⟨fun hc => by simp at hc, fun _ => rfl⟩
  | ElasticStoreWorkType =>
    rw [tryGetLocked_elastic_eq]
    by_cases h : sg.diskTokensAvailable.writeByteTokens > 0 ∧
        sg.availableIOTokens.get RegularWorkClass > 0 ∧
        sg.availableIOTokens.get ElasticWorkClass > 0
    · rw [if_pos h]
      refine ⟨fun _ => ⟨?_, fun _ => h.2.1, fun hc => absurd hc (by decide)⟩, fun hc => ?_⟩
      · simp [subtractTokensForStoreWorkTypeLocked, f10]
      · simp at hc
    · rw [if_neg h]
      exact ⟨fun hc => by simp at hc, fun _ => rfl⟩
  | SnapshotIngestStoreWorkType =>
    rw [tryGetLocked_snapshotIngest_eq]
    by_cases h : sg.diskTokensAvailable.writeByteTokens > 0
    · rw [if_pos h]
      refine ⟨fun _ => ⟨?_, fun hc => absurd rfl hc, fun _ => h⟩, fun hc => ?_⟩
      · simp [subtractTokensForStoreWorkTypeLocked]
      · simp at hc
    · rw [if_neg h]
      exact ⟨fun hc => by simp at hc, fun _ => rfl⟩

end admission

/-! ## Usage reported at the next tick -/

namespace admission

open WorkClass StoreWorkType

/-- The late correction made with `canGrantAnother = false`: it returns, and
the state it leaves has the regular IO bucket lower by the returned
`additionalL0TokensNeeded`, the elastic usage counter higher by it for elastic
work, and the same `startingIOTokens`, write-amplification model and sum of
disk-write bucket and disk-write usage. -/
theorem storeReplicatedWorkAdmittedLocked_effect {ρ : Type} (R : storeRequesters ρ)
    (fuel : Nat) (now : Int) (wt : StoreWorkType) (originalTokens : Int)
    (admittedInfo : storeReplicatedWorkAdmittedInfo) (sg : kvStoreTokenGranter) (env : ρ) :
    ∃ sg' : kvStoreTokenGranter,
      storeReplicatedWorkAdmittedLocked R fuel now wt originalTokens admittedInfo false sg env =
        some (sg.l0WriteLM.applyLinearModel admittedInfo.WriteBytes +
          sg.l0IngestLM.applyLinearModel admittedInfo.IngestedBytes - originalTokens, sg', env) ∧
      sg'.availableIOTokens.regular =
        sg.availableIOTokens.regular -
          (sg.l0WriteLM.applyLinearModel admittedInfo.WriteBytes +
            sg.l0IngestLM.applyLinearModel admittedInfo.IngestedBytes - originalTokens) ∧
      sg'.elasticIOTokensUsedByElastic =
        sg.elasticIOTokensUsedByElastic +
          (if wt = ElasticStoreWorkType then
            sg.l0WriteLM.applyLinearModel admittedInfo.WriteBytes +
              sg.l0IngestLM.applyLinearModel admittedInfo.IngestedBytes - originalTokens
          else 0) ∧
      sg'.startingIOTokens = sg.startingIOTokens ∧
      diskWriteTokensUsedSum sg'.diskTokensUsed + sg'.diskTokensAvailable.writeByteTokens =
        diskWriteTokensUsedSum sg.diskTokensUsed + sg.diskTokensAvailable.writeByteTokens ∧
      sg'.writeAmpLM = sg.writeAmpLM := by
  have f := subtractIOTokensLocked_frame now
    (sg.l0WriteLM.applyLinearModel admittedInfo.WriteBytes +
      sg.l0IngestLM.applyLinearModel admittedInfo.IngestedBytes - originalTokens)
    (sg.l0WriteLM.applyLinearModel admittedInfo.WriteBytes +
      sg.l0IngestLM.applyLinearModel admittedInfo.IngestedBytes - originalTokens) false sg
  have a := subtractIOTokensLocked_availableIOTokens now
    (sg.l0WriteLM.applyLinearModel admittedInfo.WriteBytes +
      sg.l0IngestLM.applyLinearModel admittedInfo.IngestedBytes - originalTokens)
    (sg.l0WriteLM.applyLinearModel admittedInfo.WriteBytes +
      sg.l0IngestLM.applyLinearModel admittedInfo.IngestedBytes - originalTokens) false sg
  simp only [] at f
  obtain ⟨-, f2, f3, -, f5, f6, -, -, f9, f10⟩ := f
  refine ⟨((storeReplicatedWorkAdmittedLocked R fuel now wt originalTokens admittedInfo false
    sg env).map (fun r => r.2.1)).getD sg, ?_⟩
  cases wt <;>
  · simp only [storeReplicatedWorkAdmittedLocked, Bool.false_eq_true, false_and, if_false,
      reduceCtorEq, if_true, Option.map_some', Option.getD_some]
    refine ⟨trivial, ?_, ?_, ?_, ?_, ?_⟩
    · simp only [a]
    · simp only [f2, add_zero]
    · simp only [f6]
    · simp only [diskWriteTokensUsedSum, storeWorkTypeArray.set, storeWorkTypeArray.get, f3, f5,
        f9, f10]
      ring
    · simp only [f10]

/-- One call between two ticks: the regular IO bucket goes down by the IO tokens
of the call, the elastic usage counter goes up by them when the call is for
elastic work, `startingIOTokens` stays, and so does the sum of the disk-write
bucket and the disk-write usage. -/
theorem runIntervalCall_effect {ρ : Type} (R : storeRequesters ρ) (env : ρ) (now : Int)
    (c : intervalCall) (sg : kvStoreTokenGranter) :
    (runIntervalCall R env now c sg).availableIOTokens.regular =
      sg.availableIOTokens.regular - c.ioTokens now sg ∧
    (runIntervalCall R env now c sg).elasticIOTokensUsedByElastic =
      sg.elasticIOTokensUsedByElastic +
        (if c.workType = ElasticStoreWorkType then c.ioTokens now sg else 0) ∧
    (runIntervalCall R env now c sg).startingIOTokens = sg.startingIOTokens ∧
    diskWriteTokensUsedSum (runIntervalCall R env now c sg).diskTokensUsed +
        (runIntervalCall R env now c sg).diskTokensAvailable.writeByteTokens =
      diskWriteTokensUsedSum sg.diskTokensUsed + sg.diskTokensAvailable.writeByteTokens := by
  cases c with
  | tryGet count wt =>
    obtain ⟨ht, hf⟩ := tryGetLocked_eq_subtract now count wt sg
    obtain ⟨e1, -, -, e4, e5, e6, -⟩ := subtractTokensForStoreWorkTypeLocked_effect now wt count sg
    cases hr : (tryGetLocked now count wt sg).1 with
    | true =>
      simp only [runIntervalCall, intervalCall.ioTokens, intervalCall.workType, (ht hr).1, hr,
        and_true, e1, e4, e5, e6]
      cases wt <;> simp
    | false =>
      simp only [runIntervalCall, intervalCall.ioTokens, intervalCall.workType, hf hr, hr]
      simp
  | returnGrant count wt =>
    obtain ⟨e1, -, -, e4, e5, e6, -⟩ :=
      subtractTokensForStoreWorkTypeLocked_effect now wt (-count) sg
    simp only [runIntervalCall, intervalCall.ioTokens, intervalCall.workType, returnGrantLocked,
      e1, e4, e5, e6]
    cases wt <;> simp
  | tookWithoutPermission count wt =>
    obtain ⟨e1, -, -, e4, e5, e6, -⟩ :=
      subtractTokensForStoreWorkTypeLocked_effect now wt count sg
    simp only [runIntervalCall, intervalCall.ioTokens, intervalCall.workType,
      tookWithoutPermissionLocked, e1, e4, e5, e6]
    cases wt <;> simp
  | storeReplicatedWorkAdmitted wt originalTokens admittedInfo =>
    obtain ⟨sg', h0, e1, e2, e3, e4, -⟩ :=
      storeReplicatedWorkAdmittedLocked_effect R 0 now wt originalTokens admittedInfo sg env
    simp only [runIntervalCall, h0, intervalCall.ioTokens, intervalCall.workType, e1, e2, e3, e4]
    simp

/-- A sequence of calls between two ticks, from any totals. -/
theorem runIntervalCalls_effect {ρ : Type} (R : storeRequesters ρ) (env : ρ)
    (calls : List (Int × intervalCall)) (p : intervalTally × kvStoreTokenGranter) :
    (runIntervalCalls R env calls p).2.availableIOTokens.regular =
      p.2.availableIOTokens.regular - ((runIntervalCalls R env calls p).1.ioTokens - p.1.ioTokens) ∧
    (runIntervalCalls R env calls p).2.elasticIOTokensUsedByElastic =
      p.2.elasticIOTokensUsedByElastic +
        ((runIntervalCalls R env calls p).1.ioTokensByElastic - p.1.ioTokensByElastic) ∧
    (runIntervalCalls R env calls p).2.startingIOTokens = p.2.startingIOTokens ∧
    diskWriteTokensUsedSum (runIntervalCalls R env calls p).2.diskTokensUsed +
        (runIntervalCalls R env calls p).2.diskTokensAvailable.writeByteTokens =
      diskWriteTokensUsedSum p.2.diskTokensUsed + p.2.diskTokensAvailable.writeByteTokens := by
  induction calls generalizing p with
  | nil => simp [runIntervalCalls]
  | cons c rest ih =>
    obtain ⟨c1, c2, c3, c4⟩ := runIntervalCall_effect R env c.1 c.2 p.2
    obtain ⟨i1, i2, i3, i4⟩ := ih
      ({ ioTokens := p.1.ioTokens + c.2.ioTokens c.1 p.2
         ioTokensByElastic :=
          p.1.ioTokensByElastic +
            (if c.2.workType = ElasticStoreWorkType then c.2.ioTokens c.1 p.2 else 0) },
        runIntervalCall R env c.1 c.2 p.2)
    simp only [runIntervalCalls]
    simp only [] at i1 i2 i3 i4
    refine ⟨?_, ?_, ?_, ?_⟩
    · rw [i1, c1]; ring
    · rw [i2, c2]; ring
    · rw [i3, c3]
    · rw [i4, c4]

/-- C25. For any sequence of `tryGetLocked`, `returnGrantLocked`,
`tookWithoutPermissionLocked` and `storeReplicatedWorkAdmittedLocked` calls
made between two consecutive `setAvailableTokens` calls, the second
`setAvailableTokens` returns as `ioTokensUsed` the net number of IO tokens the
calls deducted, which is what the regular IO bucket lost since the first call
returned, and as `ioTokensUsedByElasticWork` the net number of IO tokens
deducted by the calls for elastic store work; the elastic usage counter is 0
after it (as after the first call). -/
theorem setAvailableTokens_reports_interval_usage {ρ : Type} (R : storeRequesters ρ) (env : ρ)
    (now1 ioTokens1 elasticIOTokens1 diskWriteTokens1 diskReadTokens1 ioTokenCapacity1
      elasticIOTokenCapacity1 diskWriteTokensCapacity1 : Int) (lastTick1 : Bool)
    (now2 ioTokens2 elasticIOTokens2 diskWriteTokens2 diskReadTokens2 ioTokenCapacity2
      elasticIOTokenCapacity2 diskWriteTokensCapacity2 : Int) (lastTick2 : Bool)
    (calls : List (Int × intervalCall)) (sg : kvStoreTokenGranter) :
    let first := (setAvailableTokens now1 ioTokens1 elasticIOTokens1 diskWriteTokens1
      diskReadTokens1 ioTokenCapacity1 elasticIOTokenCapacity1 diskWriteTokensCapacity1
      lastTick1 sg).2
    let run := runIntervalCalls R env calls ({ ioTokens := 0, ioTokensByElastic := 0 }, first)
    let second := setAvailableTokens now2 ioTokens2 elasticIOTokens2 diskWriteTokens2
      diskReadTokens2 ioTokenCapacity2 elasticIOTokenCapacity2 diskWriteTokensCapacity2
      lastTick2 run.2
    second.1.1 = run.1.ioTokens ∧
    second.1.1 =
      first.availableIOTokens.get RegularWorkClass - run.2.availableIOTokens.get RegularWorkClass ∧
    second.1.2 = run.1.ioTokensByElastic ∧
    first.elasticIOTokensUsedByElastic = 0 ∧
    second.2.elasticIOTokensUsedByElastic = 0 := by
  intro first run second
  have reset : ∀ (now a b c d e f g : Int) (l : Bool) (s : kvStoreTokenGranter),
      (setAvailableTokens now a b c d e f g l s).2.elasticIOTokensUsedByElastic = 0 := by
    intro now a b c d e f g l s
    have fr := subtractIOTokensLocked_frame now (-a) (-b) true
      { s with elasticIOTokensUsedByElastic := 0 }
    simp only [] at fr
    simp only [setAvailableTokens, fr.2.1]
  have start : first.startingIOTokens = first.availableIOTokens.regular := rfl
  have used : second.1 = (run.2.startingIOTokens - run.2.availableIOTokens.regular,
      run.2.elasticIOTokensUsedByElastic) := rfl
  obtain ⟨r1, r2, r3, -⟩ := runIntervalCalls_effect R env calls
    ({ ioTokens := 0, ioTokensByElastic := 0 }, first)
  have z : first.elasticIOTokensUsedByElastic = 0 := reset _ _ _ _ _ _ _ _ _ _
  simp only [sub_zero] at r1 r2 r3
  refine ⟨?_, ?_, ?_, z, reset _ _ _ _ _ _ _ _ _ _⟩
  · rw [used]
    show run.2.startingIOTokens - run.2.availableIOTokens.regular = run.1.ioTokens
    rw [r3, r1, start]
    ring
  · rw [used]
    show run.2.startingIOTokens - run.2.availableIOTokens.regular =
      first.availableIOTokens.regular - run.2.availableIOTokens.regular
    rw [r3, start]
  · rw [used]
    show run.2.elasticIOTokensUsedByElastic = run.1.ioTokensByElastic
    rw [r2, z]
    ring

end admission

/-! ## The grant loop: disk accounting and progress -/

namespace admission

open WorkClass StoreWorkType

/-- The loop of `tryGrantLockedOne`, from any point of the class order: it keeps
the sum of the disk-write bucket and the disk-write usage and the
write-amplification model; and, when the constant of that model is not
negative, a true result comes with an accepted grant that either went to
regular or elastic work, found the regular IO bucket above zero and left it
lower, or went to snapshot ingest, left the regular IO bucket as it was, found
the disk-write bucket above zero and left it lower. -/
theorem tryGrantLockedOneLoop_effect {ρ : Type} (R : storeRequesters ρ) (now : Int)
    (wts : List StoreWorkType) (sg : kvStoreTokenGranter) (env : ρ) :
    diskWriteTokensUsedSum (tryGrantLockedOneLoop R now wts sg env).sg.diskTokensUsed +
        (tryGrantLockedOneLoop R now wts sg env).sg.diskTokensAvailable.writeByteTokens =
      diskWriteTokensUsedSum sg.diskTokensUsed + sg.diskTokensAvailable.writeByteTokens ∧
    (tryGrantLockedOneLoop R now wts sg env).sg.writeAmpLM = sg.writeAmpLM ∧
    (0 ≤ sg.writeAmpLM.constant → (tryGrantLockedOneLoop R now wts sg env).res = true →
      ∃ wt n, grantEvent.accepted wt n ∈ (tryGrantLockedOneLoop R now wts sg env).events ∧
        ((wt ≠ SnapshotIngestStoreWorkType ∧ sg.availableIOTokens.regular > 0 ∧
            (tryGrantLockedOneLoop R now wts sg env).sg.availableIOTokens.regular <
              sg.availableIOTokens.regular) ∨
          (wt = SnapshotIngestStoreWorkType ∧
            (tryGrantLockedOneLoop R now wts sg env).sg.availableIOTokens.regular =
              sg.availableIOTokens.regular ∧
            sg.diskTokensAvailable.writeByteTokens > 0 ∧
            (tryGrantLockedOneLoop R now wts sg env).sg.diskTokensAvailable.writeByteTokens <
              sg.diskTokensAvailable.writeByteTokens))) := by
  induction wts generalizing sg env with
  | nil =>
    refine ⟨rfl, rfl, ?_⟩
    intro _ h
    simp [tryGrantLockedOneLoop] at h
  | cons wt rest ih =>
    by_cases hw : (R.forWorkType wt).hasWaitingRequests env = true
    · by_cases hg : (tryGetLocked now 1 wt sg).1 = true
      · obtain ⟨hsub, hreg, hdisk⟩ := (tryGetLocked_eq_subtract now 1 wt sg).1 hg
        obtain ⟨t1, -, t3, -, -, t6, t7, -⟩ :=
          subtractTokensForStoreWorkTypeLocked_effect now wt 1 sg
        by_cases hz : ((R.forWorkType wt).granted noGrantChain env).1 = 0
        · -- declined: the grant is returned and the loop goes on
          obtain ⟨d1, -, d3, -, -, d6, d7, -⟩ :=
            subtractTokensForStoreWorkTypeLocked_effect now wt (-1)
              (subtractTokensForStoreWorkTypeLocked now wt 1 sg)
          obtain ⟨i1, i2, i3⟩ := ih (returnGrantLocked now 1 wt (tryGetLocked now 1 wt sg).2)
            ((R.forWorkType wt).granted noGrantChain env).2
          simp only [hsub, returnGrantLocked] at i1 i2 i3
          simp only [tryGrantLockedOneLoop, hw, hg, hz, if_true, hsub, returnGrantLocked]
          refine ⟨?_, ?_, ?_⟩
          · rw [i1, d6, t6]
          · rw [i2, d7, t7]
          · intro hb h
            have hb' : 0 ≤ (subtractTokensForStoreWorkTypeLocked now wt (-1)
                (subtractTokensForStoreWorkTypeLocked now wt 1 sg)).writeAmpLM.constant := by
              rw [d7, t7]; exact hb
            obtain ⟨wt', n, e1, e2⟩ := i3 hb' h
            have hregd : (subtractTokensForStoreWorkTypeLocked now wt (-1)
                (subtractTokensForStoreWorkTypeLocked now wt 1 sg)).availableIOTokens.regular =
                sg.availableIOTokens.regular := by
              rw [d1, t1]
              split_ifs <;> ring
            have hdiskd : (subtractTokensForStoreWorkTypeLocked now wt (-1)
                (subtractTokensForStoreWorkTypeLocked now wt 1
                  sg)).diskTokensAvailable.writeByteTokens ≤
                sg.diskTokensAvailable.writeByteTokens := by
              rw [d3, t3, t7]
              simp only [tokensLinearModel.applyLinearModel]
              split_ifs <;> linarith
            refine ⟨wt', n, List.mem_cons_of_mem _ e1, ?_⟩
            rcases e2 with ⟨a1, a2, a3⟩ | ⟨a1, a2, a3, a4⟩
            · left
              exact ⟨a1, by rw [← hregd]; exact a2, by rw [← hregd]; exact a3⟩
            · right
              exact ⟨a1, by rw [a2, hregd], lt_of_lt_of_le a3 hdiskd, lt_of_lt_of_le a4 hdiskd⟩
        · -- accepted
          obtain ⟨k1, -, k3, -, -, k6, k7, -⟩ :=
            subtractTokensForStoreWorkTypeLocked_effect now wt
              (((R.forWorkType wt).granted noGrantChain env).1 - 1)
              (subtractTokensForStoreWorkTypeLocked now wt 1 sg)
          simp only [tryGrantLockedOneLoop, hw, hg, hz, if_true, if_false, hsub,
            tookWithoutPermissionLocked]
          by_cases hk : ((R.forWorkType wt).granted noGrantChain env).1 > 1
          · simp only [hk, if_true]
            refine ⟨?_, ?_, ?_⟩
            · rw [k6, t6]
            · rw [k7, t7]
            · intro _ _
              refine ⟨wt, _, List.mem_singleton.mpr rfl, ?_⟩
              by_cases hs : wt = SnapshotIngestStoreWorkType
              · right
                refine ⟨hs, ?_, hdisk hs, ?_⟩
                · rw [k1, t1, if_pos hs, if_pos hs]; ring
                · rw [k3, t3, if_pos hs, if_pos hs]; linarith
              · left
                refine ⟨hs, hreg hs, ?_⟩
                rw [k1, t1, if_neg hs, if_neg hs]; linarith
          · simp only [hk, if_false]
            refine ⟨t6, t7, ?_⟩
            intro _ _
            refine ⟨wt, _, List.mem_singleton.mpr rfl, ?_⟩
            by_cases hs : wt = SnapshotIngestStoreWorkType
            · right
              refine ⟨hs, ?_, hdisk hs, ?_⟩
              · rw [t1, if_pos hs]; ring
              · rw [t3, if_pos hs]; linarith
            · left
              refine ⟨hs, hreg hs, ?_⟩
              rw [t1, if_neg hs]; linarith
      · -- no token
        have hg' : (tryGetLocked now 1 wt sg).1 = false := by simpa using hg
        have hsg := (tryGetLocked_eq_subtract now 1 wt sg).2 hg'
        simp only [tryGrantLockedOneLoop, hw, hg', if_true, Bool.false_eq_true, if_false, hsg]
        refine ⟨trivial, trivial, ?_⟩
        intro _ h
        exact absurd h (by simp)
    · -- nothing waiting
      obtain ⟨i1, i2, i3⟩ := ih sg env
      simp only [tryGrantLockedOneLoop, hw, if_false]
      refine ⟨i1, i2, ?_⟩
      intro hb h
      obtain ⟨wt', n, e1, e2⟩ := i3 hb h
      exact ⟨wt', n, List.mem_cons_of_mem _ e1, e2⟩

/-- The grant loop keeps the sum of the disk-write bucket and the disk-write
usage, whatever the bound it is run with. -/
theorem tryGrantLocked_sum {ρ : Type} (R : storeRequesters ρ) (now : Int) (fuel : Nat)
    (sg : kvStoreTokenGranter) (env : ρ) (r : kvStoreTokenGranter × ρ)
    (h : tryGrantLocked R now fuel sg env = some r) :
    diskWriteTokensUsedSum r.1.diskTokensUsed + r.1.diskTokensAvailable.writeByteTokens =
      diskWriteTokensUsedSum sg.diskTokensUsed + sg.diskTokensAvailable.writeByteTokens := by
  induction fuel generalizing sg env with
  | zero => simp [tryGrantLocked] at h
  | succ n ih =>
    have l := (tryGrantLockedOneLoop_effect R now storeWorkTypes sg env).1
    unfold tryGrantLocked at h
    by_cases hw : requesterHasWaitingRequests R env = true
    · rw [if_pos hw] at h
      simp only [] at h
      by_cases hr : (tryGrantLockedOne R now sg env).res = true
      · rw [if_pos hr] at h
        rw [ih _ _ h]
        exact l
      · rw [if_neg hr] at h
        injection h with h
        subst h
        exact l
    · rw [if_neg hw] at h
      injection h with h
      subst h
      rfl

end admission

/-! ## Disk-write usage accounting -/

namespace admission

open WorkClass StoreWorkType

/-- C29. For every work type and every argument, each of `tryGetLocked`,
`returnGrantLocked`, `tookWithoutPermissionLocked` and
`storeReplicatedWorkAdmittedLocked` (with or without the grant loop that may
follow the correction) leaves the sum of `diskTokensAvailable.writeByteTokens`
and of `diskTokensUsed[wt].writeByteTokens` over the work types unchanged, and
the correction made with `canGrantAnother = false` always returns. So for any
sequence of such calls after a `getDiskTokensUsedAndReset`, the usage the next
`getDiskTokensUsedAndReset` reports sums to what the disk-write bucket lost in
between. -/
theorem disk_write_usage_accounting {ρ : Type} (R : storeRequesters ρ) (env : ρ) (now : Int)
    (sg : kvStoreTokenGranter) :
    (∀ (count : Int) (wt : StoreWorkType),
      diskWriteTokensUsedSum (tryGetLocked now count wt sg).2.diskTokensUsed +
          (tryGetLocked now count wt sg).2.diskTokensAvailable.writeByteTokens =
        diskWriteTokensUsedSum sg.diskTokensUsed + sg.diskTokensAvailable.writeByteTokens ∧
      diskWriteTokensUsedSum (returnGrantLocked now count wt sg).diskTokensUsed +
          (returnGrantLocked now count wt sg).diskTokensAvailable.writeByteTokens =
        diskWriteTokensUsedSum sg.diskTokensUsed + sg.diskTokensAvailable.writeByteTokens ∧
      diskWriteTokensUsedSum (tookWithoutPermissionLocked now count wt sg).diskTokensUsed +
          (tookWithoutPermissionLocked now count wt sg).diskTokensAvailable.writeByteTokens =
        diskWriteTokensUsedSum sg.diskTokensUsed + sg.diskTokensAvailable.writeByteTokens) ∧
    (∀ (fuel : Nat) (wt : StoreWorkType) (originalTokens : Int)
        (admittedInfo : storeReplicatedWorkAdmittedInfo) (canGrantAnother : Bool)
        (r : Int × kvStoreTokenGranter × ρ),
      storeReplicatedWorkAdmittedLocked R fuel now wt originalTokens admittedInfo
          canGrantAnother sg env = some r →
      diskWriteTokensUsedSum r.2.1.diskTokensUsed + r.2.1.diskTokensAvailable.writeByteTokens =
        diskWriteTokensUsedSum sg.diskTokensUsed + sg.diskTokensAvailable.writeByteTokens) ∧
    (∀ (fuel : Nat) (wt : StoreWorkType) (originalTokens : Int)
        (admittedInfo : storeReplicatedWorkAdmittedInfo),
      ∃ r, storeReplicatedWorkAdmittedLocked R fuel now wt originalTokens admittedInfo false
        sg env = some r) ∧
    (∀ calls : List (Int × intervalCall),
      diskWriteTokensUsedSum
          (getDiskTokensUsedAndReset
            (runIntervalCalls R env calls
              ({ ioTokens := 0, ioTokensByElastic := 0 },
                (getDiskTokensUsedAndReset sg).2)).2).1 =
        (getDiskTokensUsedAndReset sg).2.diskTokensAvailable.writeByteTokens -
          (runIntervalCalls R env calls
            ({ ioTokens := 0, ioTokensByElastic := 0 },
              (getDiskTokensUsedAndReset sg).2)).2.diskTokensAvailable.writeByteTokens) := by
  refine ⟨?_, ?_, ?_, ?_⟩
  · intro count wt
    refine ⟨?_, (subtractTokensForStoreWorkTypeLocked_effect now wt (-count) sg).2.2.2.2.2.1,
      (subtractTokensForStoreWorkTypeLocked_effect now wt count sg).2.2.2.2.2.1⟩
    cases hr : (tryGetLocked now count wt sg).1 with
    | true =>
      rw [((tryGetLocked_eq_subtract now count wt sg).1 hr).1]
      exact (subtractTokensForStoreWorkTypeLocked_effect now wt count sg).2.2.2.2.2.1
    | false => rw [(tryGetLocked_eq_subtract now count wt sg).2 hr]
  · intro fuel wt originalTokens admittedInfo canGrantAnother r hr
    obtain ⟨su, hu, -, -, -, hcga⟩ :=
      storeReplicatedWorkAdmittedLocked_unfold R fuel now wt originalTokens admittedInfo sg env
    obtain ⟨se, he, -, -, -, hsum, -⟩ :=
      storeReplicatedWorkAdmittedLocked_effect R fuel now wt originalTokens admittedInfo sg env
    have hsame : su = se := by
      rw [hu] at he
      injection he with he
      injection he with _ he
      injection he with he _
    subst hsame
    rw [hcga canGrantAnother] at hr
    split_ifs at hr with hc
    · cases hg : tryGrantLocked R now fuel su env with
      | none => rw [hg] at hr; simp at hr
      | some p =>
        rw [hg] at hr
        simp only [Option.map_some', Option.some.injEq] at hr
        subst hr
        rw [← hsum]
        exact tryGrantLocked_sum R now fuel su env p hg
    · injection hr with hr
      subst hr
      exact hsum
  · intro fuel wt originalTokens admittedInfo
    obtain ⟨se, he, -⟩ :=
      storeReplicatedWorkAdmittedLocked_effect R fuel now wt originalTokens admittedInfo sg env
    exact ⟨_, he⟩
  · intro calls
    obtain ⟨-, -, -, h4⟩ := runIntervalCalls_effect R env calls
      ({ ioTokens := 0, ioTokensByElastic := 0 }, (getDiskTokensUsedAndReset sg).2)
    have z : diskWriteTokensUsedSum (getDiskTokensUsedAndReset sg).2.diskTokensUsed = 0 := by
      simp [getDiskTokensUsedAndReset, diskWriteTokensUsedSum]
    simp only [z, zero_add] at h4
    have e : (getDiskTokensUsedAndReset
        (runIntervalCalls R env calls
          ({ ioTokens := 0, ioTokensByElastic := 0 },
            (getDiskTokensUsedAndReset sg).2)).2).1 =
        (runIntervalCalls R env calls
          ({ ioTokens := 0, ioTokensByElastic := 0 },
            (getDiskTokensUsedAndReset sg).2)).2.diskTokensUsed := rfl
    rw [e]
    linarith

end admission

/-! ## Termination of the grant loop -/

namespace admission

open WorkClass StoreWorkType

/-- With the write-amplification model `0x - 1`, the regular requester
declining and the snapshot requester taking one token, one round of
`tryGrantLockedOne` from positive regular IO and disk-write buckets grants to
the snapshot requester and ends with both buckets positive again: the declined
regular grant takes `-1` disk-write tokens and its return another `-1`. -/
theorem tryGrantLockedOne_decliningRegular (now : Int) (sg : kvStoreTokenGranter)
    (h1 : sg.availableIOTokens.regular > 0) (h2 : sg.diskTokensAvailable.writeByteTokens > 0)
    (h3 : sg.writeAmpLM = { multiplier := 0, constant := -1 }) :
    (tryGrantLockedOne decliningRegularRequesters now sg ()).res = true ∧
    (tryGrantLockedOne decliningRegularRequesters now sg ()).sg.availableIOTokens.regular > 0 ∧
    (tryGrantLockedOne decliningRegularRequesters now sg
      ()).sg.diskTokensAvailable.writeByteTokens > 0 ∧
    (tryGrantLockedOne decliningRegularRequesters now sg ()).sg.writeAmpLM =
      { multiplier := 0, constant := -1 } := by
  have g1 : (tryGetLocked now 1 RegularStoreWorkType sg).1 = true := by
    rw [tryGetLocked_regular_eq, if_pos (by simpa [workClassArray.get] using h1)]
  have s1 := ((tryGetLocked_eq_subtract now 1 RegularStoreWorkType sg).1 g1).1
  obtain ⟨t1, -, t3, -, -, -, t7, -⟩ :=
    subtractTokensForStoreWorkTypeLocked_effect now RegularStoreWorkType 1 sg
  obtain ⟨d1, -, d3, -, -, -, d7, -⟩ :=
    subtractTokensForStoreWorkTypeLocked_effect now RegularStoreWorkType (-1)
      (subtractTokensForStoreWorkTypeLocked now RegularStoreWorkType 1 sg)
  have dpos : (subtractTokensForStoreWorkTypeLocked now RegularStoreWorkType (-1)
      (subtractTokensForStoreWorkTypeLocked now RegularStoreWorkType 1
        sg)).diskTokensAvailable.writeByteTokens > 0 := by
    rw [d3, t3, t7, h3]
    simp [tokensLinearModel.applyLinearModel]
    linarith
  have g2 : (tryGetLocked now 1 SnapshotIngestStoreWorkType
      (subtractTokensForStoreWorkTypeLocked now RegularStoreWorkType (-1)
        (subtractTokensForStoreWorkTypeLocked now RegularStoreWorkType 1 sg))).1 = true := by
    rw [tryGetLocked_snapshotIngest_eq, if_pos dpos]
  have s2 := ((tryGetLocked_eq_subtract now 1 SnapshotIngestStoreWorkType
    (subtractTokensForStoreWorkTypeLocked now RegularStoreWorkType (-1)
      (subtractTokensForStoreWorkTypeLocked now RegularStoreWorkType 1 sg))).1 g2).1
  obtain ⟨u1, -, u3, -, -, -, u7, -⟩ :=
    subtractTokensForStoreWorkTypeLocked_effect now SnapshotIngestStoreWorkType 1
      (subtractTokensForStoreWorkTypeLocked now RegularStoreWorkType (-1)
        (subtractTokensForStoreWorkTypeLocked now RegularStoreWorkType 1 sg))
  have e : tryGrantLockedOne decliningRegularRequesters now sg () =
      { res := true
        sg := subtractTokensForStoreWorkTypeLocked now SnapshotIngestStoreWorkType 1
          (subtractTokensForStoreWorkTypeLocked now RegularStoreWorkType (-1)
            (subtractTokensForStoreWorkTypeLocked now RegularStoreWorkType 1 sg))
        env := ()
        events := [grantEvent.declined RegularStoreWorkType,
          grantEvent.accepted SnapshotIngestStoreWorkType 1] } := by
    simp [tryGrantLockedOne, storeWorkTypes, tryGrantLockedOneLoop,
      storeRequesters.forWorkType, decliningRegularRequesters, g1, s1, returnGrantLocked, g2, s2]
  rw [e]
  refine ⟨rfl, ?_, ?_, ?_⟩
  · show (subtractTokensForStoreWorkTypeLocked now SnapshotIngestStoreWorkType 1
      (subtractTokensForStoreWorkTypeLocked now RegularStoreWorkType (-1)
        (subtractTokensForStoreWorkTypeLocked now RegularStoreWorkType 1
          sg))).availableIOTokens.regular > 0
    rw [u1, d1, t1]
    simp
    exact h1
  · show (subtractTokensForStoreWorkTypeLocked now SnapshotIngestStoreWorkType 1
      (subtractTokensForStoreWorkTypeLocked now RegularStoreWorkType (-1)
        (subtractTokensForStoreWorkTypeLocked now RegularStoreWorkType 1
          sg))).diskTokensAvailable.writeByteTokens > 0
    rw [u3, d3, t3, t7, h3]
    simp [tokensLinearModel.applyLinearModel]
    linarith
  · show (subtractTokensForStoreWorkTypeLocked now SnapshotIngestStoreWorkType 1
      (subtractTokensForStoreWorkTypeLocked now RegularStoreWorkType (-1)
        (subtractTokensForStoreWorkTypeLocked now RegularStoreWorkType 1
          sg))).writeAmpLM = { multiplier := 0, constant := -1 }
    rw [u7, d7, t7, h3]

/-- Under the conditions of `tryGrantLockedOne_decliningRegular` the grant loop
reaches every bound. -/
theorem tryGrantLocked_decliningRegular_none (now : Int) (fuel : Nat)
    (sg : kvStoreTokenGranter)
    (h1 : sg.availableIOTokens.regular > 0) (h2 : sg.diskTokensAvailable.writeByteTokens > 0)
    (h3 : sg.writeAmpLM = { multiplier := 0, constant := -1 }) :
    tryGrantLocked decliningRegularRequesters now fuel sg () = none := by
  induction fuel generalizing sg with
  | zero => rfl
  | succ n ih =>
    obtain ⟨r1, r2, r3, r4⟩ := tryGrantLockedOne_decliningRegular now sg h1 h2 h3
    have hw : requesterHasWaitingRequests decliningRegularRequesters () = true := rfl
    simp only [tryGrantLocked, hw, r1, if_true]
    exact ih _ r2 r3 r4

/-- C30, counterexample: the write-amplification model is `0x - 1`, all three
buckets hold one token, the regular requester always reports waiting requests
and declines every grant, the snapshot requester always reports waiting
requests and takes one token. Each round of `tryGrantLockedOne` returns true
(the regular grant is declined, the snapshot grant accepted) and leaves the
regular IO bucket at 1 and the disk-write bucket one token higher (2 after the
first round), so `tryGrantLocked` reaches every bound on its iterations: the
loop does not terminate. -/
theorem tryGrantLocked_does_not_terminate :
    (tryGrantLockedOne decliningRegularRequesters 0 (granterWith 1 1 1 ⟨0, -1⟩) ()).events =
      [grantEvent.declined RegularStoreWorkType,
        grantEvent.accepted SnapshotIngestStoreWorkType 1] ∧
    (tryGrantLockedOne decliningRegularRequesters 0
      (granterWith 1 1 1 ⟨0, -1⟩) ()).sg.availableIOTokens.regular = 1 ∧
    (tryGrantLockedOne decliningRegularRequesters 0
      (granterWith 1 1 1 ⟨0, -1⟩) ()).sg.diskTokensAvailable.writeByteTokens = 2 ∧
    ∀ fuel : Nat,
      tryGrantLocked decliningRegularRequesters 0 fuel (granterWith 1 1 1 ⟨0, -1⟩) () = none :=
  ⟨by decide, by decide, by decide,
    fun fuel => tryGrantLocked_decliningRegular_none 0 fuel (granterWith 1 1 1 ⟨0, -1⟩)
      (by decide) (by decide) rfl⟩

/-- More iterations than needed do not change the result of the grant loop. -/
theorem tryGrantLocked_mono {ρ : Type} (R : storeRequesters ρ) (now : Int) (fuel : Nat)
    (sg : kvStoreTokenGranter) (env : ρ) (r : kvStoreTokenGranter × ρ)
    (h : tryGrantLocked R now fuel sg env = some r) (k : Nat) :
    tryGrantLocked R now (fuel + k) sg env = some r := by
  induction fuel generalizing sg env with
  | zero => simp [tryGrantLocked] at h
  | succ n ih =>
    have e : n + 1 + k = (n + k) + 1 := by omega
    rw [e]
    unfold tryGrantLocked at h ⊢
    by_cases hw : requesterHasWaitingRequests R env = true
    · rw [if_pos hw] at h ⊢
      simp only [] at h ⊢
      by_cases hr : (tryGrantLockedOne R now sg env).res = true
      · rw [if_pos hr] at h ⊢
        exact ih _ _ h
      · rw [if_neg hr] at h ⊢
        exact h
    · rw [if_neg hw] at h ⊢
      exact h

/-- The grant loop returns when the constant of the write-amplification model
is not negative: by induction on the regular IO bucket, then on the disk-write
bucket. -/
theorem tryGrantLocked_returns {ρ : Type} (R : storeRequesters ρ) (now : Int) :
    ∀ (m1 m2 : Nat) (sg : kvStoreTokenGranter) (env : ρ),
      0 ≤ sg.writeAmpLM.constant →
      sg.availableIOTokens.regular.toNat = m1 →
      sg.diskTokensAvailable.writeByteTokens.toNat = m2 →
      ∃ fuel r, tryGrantLocked R now fuel sg env = some r := by
  intro m1
  induction m1 using Nat.strong_induction_on with
  | _ m1 ih1 =>
    intro m2
    induction m2 using Nat.strong_induction_on with
    | _ m2 ih2 =>
      intro sg env hb e1 e2
      by_cases hw : requesterHasWaitingRequests R env = true
      · by_cases hr : (tryGrantLockedOne R now sg env).res = true
        · obtain ⟨-, lm, prog⟩ := tryGrantLockedOneLoop_effect R now storeWorkTypes sg env
          have lm' : (tryGrantLockedOne R now sg env).sg.writeAmpLM = sg.writeAmpLM := lm
          have hb' : 0 ≤ (tryGrantLockedOne R now sg env).sg.writeAmpLM.constant := by
            rw [lm']; exact hb
          obtain ⟨wt, n, -, hcase⟩ := prog hb hr
          rcases hcase with ⟨-, a2, a3⟩ | ⟨-, a2, a3, a4⟩
          · have a3' : (tryGrantLockedOne R now sg env).sg.availableIOTokens.regular <
                sg.availableIOTokens.regular := a3
            obtain ⟨fuel, r, hfr⟩ :=
              ih1 (tryGrantLockedOne R now sg env).sg.availableIOTokens.regular.toNat
                (by omega) _ (tryGrantLockedOne R now sg env).sg
                (tryGrantLockedOne R now sg env).env hb' rfl rfl
            refine ⟨fuel + 1, r, ?_⟩
            simp only [tryGrantLocked, hw, hr, if_true]
            exact hfr
          · have a2' : (tryGrantLockedOne R now sg env).sg.availableIOTokens.regular =
                sg.availableIOTokens.regular := a2
            have a4' : (tryGrantLockedOne R now sg env).sg.diskTokensAvailable.writeByteTokens <
                sg.diskTokensAvailable.writeByteTokens := a4
            obtain ⟨fuel, r, hfr⟩ :=
              ih2 (tryGrantLockedOne R now sg env).sg.diskTokensAvailable.writeByteTokens.toNat
                (by omega) (tryGrantLockedOne R now sg env).sg
                (tryGrantLockedOne R now sg env).env hb' (by rw [a2']; exact e1) rfl
            refine ⟨fuel + 1, r, ?_⟩
            simp only [tryGrantLocked, hw, hr, if_true]
            exact hfr
        · refine ⟨1, ((tryGrantLockedOne R now sg env).sg, (tryGrantLockedOne R now sg env).env),
            ?_⟩
          simp only [tryGrantLocked, hw, hr, if_true, Bool.false_eq_true, if_false]
      · exact ⟨1, (sg, env), by simp only [tryGrantLocked, hw, Bool.false_eq_true, if_false]⟩

/-- C30, amended. `tryGrantLocked` terminates for every granter state whose
write-amplification model has a constant that is not negative, for every other
linear model and every requester behaviour (requesters that always report
waiting requests and accept every grant included): some number of iterations
gives a result, and every larger number gives the same result. In an iteration
that grants, the grant either goes to regular or elastic work, finds the
regular IO bucket above zero and leaves it strictly lower, or goes to
snapshot-ingest work, leaves the regular IO bucket unchanged, finds the
disk-write bucket above zero and leaves it strictly lower; an iteration that
grants nothing ends the loop. -/
theorem tryGrantLocked_terminates {ρ : Type} (R : storeRequesters ρ) (now : Int)
    (sg : kvStoreTokenGranter) (env : ρ) (hb : 0 ≤ sg.writeAmpLM.constant) :
    (∃ fuel r, ∀ k, tryGrantLocked R now (fuel + k) sg env = some r) ∧
    ((tryGrantLockedOne R now sg env).res = true →
      ∃ wt n, grantEvent.accepted wt n ∈ (tryGrantLockedOne R now sg env).events ∧
        ((wt ≠ SnapshotIngestStoreWorkType ∧ sg.availableIOTokens.regular > 0 ∧
            (tryGrantLockedOne R now sg env).sg.availableIOTokens.regular <
              sg.availableIOTokens.regular) ∨
          (wt = SnapshotIngestStoreWorkType ∧
            (tryGrantLockedOne R now sg env).sg.availableIOTokens.regular =
              sg.availableIOTokens.regular ∧
            sg.diskTokensAvailable.writeByteTokens > 0 ∧
            (tryGrantLockedOne R now sg env).sg.diskTokensAvailable.writeByteTokens <
              sg.diskTokensAvailable.writeByteTokens))) ∧
    ((tryGrantLockedOne R now sg env).res = false →
      ∀ fuel, tryGrantLocked R now (fuel + 1) sg env =
        some (if requesterHasWaitingRequests R env = true then
            ((tryGrantLockedOne R now sg env).sg, (tryGrantLockedOne R now sg env).env)
          else (sg, env))) := by
  refine ⟨?_, ?_, ?_⟩
  · obtain ⟨fuel, r, h⟩ := tryGrantLocked_returns R now _ _ sg env hb rfl rfl
    exact ⟨fuel, r, fun k => tryGrantLocked_mono R now fuel sg env r h k⟩
  · exact (tryGrantLockedOneLoop_effect R now storeWorkTypes sg env).2.2 hb
  · intro hr fuel
    by_cases hw : requesterHasWaitingRequests R env = true
    · simp only [tryGrantLocked, hw, hr, if_true, Bool.false_eq_true, if_false]
    · simp only [tryGrantLocked, hw, Bool.false_eq_true, if_false]

/-- Witness for C30: requesters that always report waiting requests and take
one token for every grant, buckets of three tokens each and the
write-amplification model `x`: the grant loop returns. -/
theorem tryGrantLocked_terminates_witness :
    ∃ fuel r, ∀ k,
      tryGrantLocked insatiableRequesters 0 (fuel + k) (granterWith 3 3 3 ⟨1, 0⟩) () = some r :=
  (tryGrantLocked_terminates insatiableRequesters 0 (granterWith 3 3 3 ⟨1, 0⟩) ()
    (by decide)).1

end admission
